import Mathlib

/-!
# Selection and aggregation engine of AliAnalysisTaskStrangenessVsMultiplicityMCRun2

A shallow embedding of the per-candidate configuration loops of
`AliAnalysisTaskStrangenessVsMultiplicityMCRun2::UserExec` (the "superlight
adaptive output mode"), for V0 candidates and for cascade candidates, and of
the configuration builders that feed them.

Conventions of the embedding

* `Float_t` / `Double_t` values are rationals: the comparisons of the
  selection are modelled on exact finite values, rounding, infinities and
  NaN inputs are not represented.  Where the source divides, the quotient by
  an exactly vanishing denominator is given the outcome the IEEE comparison
  has in the source (see `absRatioLt` and `ratioGt`).
* `Int_t` / `Short_t` values are integers, `ULong64_t` status words are
  naturals, `Bool_t` is `Bool`.
* The ROOT functions `TMath::Cos`, `TMath::Exp`, `TMath::Sqrt`,
  `TMath::ATan` and `TMath::Log` are not part of the repository: they are a
  parameter (`TMath`) of every definition that calls them.
* A histogram is the list of the points it was filled with, every fill
  having unit weight; `TList` holds pointers, so the result objects live in
  a heap indexed by natural numbers and a list holds addresses.
-/

namespace AliStrangeness

/-- The ROOT `TMath` functions called by the selection code. -/
structure TMath where
  Cos : ℚ → ℚ
  Exp : ℚ → ℚ
  Sqrt : ℚ → ℚ
  ATan : ℚ → ℚ
  Log : ℚ → ℚ

/-- The flag `AliESDtrack::kITSrefit` of the track status word. -/
def kITSrefit : ℕ := 4

/-- The C++ test `status & AliESDtrack::kITSrefit` read as a condition. -/
def hasITSrefit (status : ℕ) : Bool := Nat.land status kITSrefit != 0

/-- A point filled into a `TH3F`. -/
structure Fill3 where
  x : ℚ
  y : ℚ
  z : ℚ
deriving DecidableEq, Repr

/-- A point filled into a `TProfile`. -/
structure Fill2 where
  x : ℚ
  y : ℚ
deriving DecidableEq, Repr

/-- `TH3F`, as the sequence of its unit-weight fills. -/
abbrev TH3F := List Fill3

/-- `TProfile`, as the sequence of its fills. -/
abbrev TProfile := List Fill2

/-! ## V0 candidates -/

/-- `AliV0Result::EMassHypo`. -/
inductive V0MassHypo
  | kK0Short
  | kLambda
  | kAntiLambda
deriving DecidableEq, Repr

/-- The cut values of an `AliV0Result`, one field per getter read by the V0
configuration loop (`GetCutV0CosPA` is `CutV0CosPA`, and so on). -/
structure V0Cuts where
  MassHypothesis : V0MassHypo
  UseOnTheFly : Bool
  CutMinEtaTracks : ℚ
  CutMaxEtaTracks : ℚ
  CutMinRapidity : ℚ
  CutMaxRapidity : ℚ
  CutV0Radius : ℚ
  CutMaxV0Radius : ℚ
  CutDCANegToPV : ℚ
  CutDCAPosToPV : ℚ
  CutDCAV0Daughters : ℚ
  CutV0CosPA : ℚ
  CutUseVarV0CosPA : Bool
  CutVarV0CosPAExp0Const : ℚ
  CutVarV0CosPAExp0Slope : ℚ
  CutVarV0CosPAExp1Const : ℚ
  CutVarV0CosPAExp1Slope : ℚ
  CutVarV0CosPAConst : ℚ
  CutProperLifetime : ℚ
  CutLeastNumberOfCrossedRows : ℚ
  CutLeastNumberOfCrossedRowsOverFindable : ℚ
  CutMinBaryonMomentum : ℚ
  CutTPCdEdx : ℚ
  CutArmenteros : Bool
  CutArmenterosParameter : ℚ
  CutUseITSRefitTracks : Bool
  CutMaxChi2PerCluster : ℚ
  CutMinTrackLength : ℚ
  Cut276TeVLikedEdx : Bool
  CutMCPhysicalPrimary : Bool
  CutMCLambdaFromPrimaryXi : Bool
  CutMCPDGCodeAssociation : Bool
  CutMCUseMCProperties : Bool
deriving DecidableEq

/-- An `AliV0Result`: its cut values and the output objects it owns
(`GetHistogram`, `GetHistogramFeeddown`, `GetProtonProfile`; the last two may
be null). -/
structure AliV0Result where
  cuts : V0Cuts
  fHisto : TH3F
  fHistoFeeddown : Option TH3F
  fProtonProfile : Option TProfile

/-- The values of one V0 candidate that are live when the configuration loop
runs: the `fTreeVariable...` members, the event value `fCentrality` and the
locals `lOnFlyStatus`, `lThisPosInnerPt`, `lThisNegInnerPt`,
`lMCTransvMomPos`, `lMCTransvMomNeg`. -/
structure V0Candidate where
  fCentrality : ℚ
  lOnFlyStatus : ℤ
  lThisPosInnerPt : ℚ
  lThisNegInnerPt : ℚ
  lMCTransvMomPos : ℚ
  lMCTransvMomNeg : ℚ
  fTreeVariablePt : ℚ
  fTreeVariablePtMC : ℚ
  fTreeVariablePtMother : ℚ
  fTreeVariableRapK0Short : ℚ
  fTreeVariableRapLambda : ℚ
  fTreeVariableRapMC : ℚ
  fTreeVariableInvMassK0s : ℚ
  fTreeVariableInvMassLambda : ℚ
  fTreeVariableInvMassAntiLambda : ℚ
  fTreeVariableNegEta : ℚ
  fTreeVariablePosEta : ℚ
  fTreeVariableV0Radius : ℚ
  fTreeVariableDcaNegToPrimVertex : ℚ
  fTreeVariableDcaPosToPrimVertex : ℚ
  fTreeVariableDcaV0Daughters : ℚ
  fTreeVariableV0CosineOfPointingAngle : ℚ
  fTreeVariableDistOverTotMom : ℚ
  fTreeVariableLeastNbrCrossedRows : ℤ
  fTreeVariableLeastRatioCrossedRowsOverFindable : ℚ
  fTreeVariablePosInnerP : ℚ
  fTreeVariableNegInnerP : ℚ
  fTreeVariableNSigmasPosProton : ℚ
  fTreeVariableNSigmasPosPion : ℚ
  fTreeVariableNSigmasNegProton : ℚ
  fTreeVariableNSigmasNegPion : ℚ
  fTreeVariablePtArmV0 : ℚ
  fTreeVariableAlphaV0 : ℚ
  fTreeVariableNegTrackStatus : ℕ
  fTreeVariablePosTrackStatus : ℕ
  fTreeVariableMaxChi2PerCluster : ℚ
  fTreeVariableMinTrackLength : ℚ
  fTreeVariablePID : ℤ
  fTreeVariablePIDMother : ℤ
  fTreeVariablePrimaryStatus : ℤ
  fTreeVariablePrimaryStatusMother : ℤ

/-- The locals of one iteration of the V0 configuration loop that depend on
the mass hypothesis. -/
structure V0Locals where
  lMass : ℚ
  lRap : ℚ
  lPDGMass : ℚ
  lNegdEdx : ℚ
  lPosdEdx : ℚ
  lPDGCode : ℤ
  lPDGCodeXiMother : ℤ
  lBaryonMomentum : ℚ
  lBaryonPt : ℚ
  lBaryondEdxFromProton : ℚ
  lBaryonTransvMomMCForG3F : ℚ

/-- The initial values of the hypothesis-dependent locals. -/
def v0LocalsInit : V0Locals :=
  { lMass := 0, lRap := 0, lPDGMass := -1, lNegdEdx := 100, lPosdEdx := 100,
    lPDGCode := 0, lPDGCodeXiMother := 0, lBaryonMomentum := -1/2,
    lBaryonPt := -1/2, lBaryondEdxFromProton := 0,
    lBaryonTransvMomMCForG3F := -1/2 }

/-- The three consecutive `if ( GetMassHypothesis() == ... )` blocks followed
by the rapidity override `if ( GetCutMCUseMCProperties() ) lRap = fTreeVariableRapMC`. -/
def v0Locals (c : V0Candidate) (r : V0Cuts) : V0Locals :=
  let l0 := v0LocalsInit
  let l1 := if r.MassHypothesis = V0MassHypo.kK0Short then
      { l0 with
        lMass := c.fTreeVariableInvMassK0s
        lRap := c.fTreeVariableRapK0Short
        lPDGMass := 497/1000
        lNegdEdx := c.fTreeVariableNSigmasNegPion
        lPosdEdx := c.fTreeVariableNSigmasPosPion
        lPDGCode := 310
        lBaryonTransvMomMCForG3F := 999 }
    else l0
  let l2 := if r.MassHypothesis = V0MassHypo.kLambda then
      { l1 with
        lMass := c.fTreeVariableInvMassLambda
        lRap := c.fTreeVariableRapLambda
        lPDGMass := 1115683/1000000
        lNegdEdx := c.fTreeVariableNSigmasNegPion
        lPosdEdx := c.fTreeVariableNSigmasPosProton
        lPDGCode := 3122
        lPDGCodeXiMother := 3312
        lBaryonMomentum := c.fTreeVariablePosInnerP
        lBaryonPt := c.lThisPosInnerPt
        lBaryondEdxFromProton := c.fTreeVariableNSigmasPosProton
        lBaryonTransvMomMCForG3F := c.lMCTransvMomPos }
    else l1
  let l3 := if r.MassHypothesis = V0MassHypo.kAntiLambda then
      { l2 with
        lMass := c.fTreeVariableInvMassAntiLambda
        lRap := c.fTreeVariableRapLambda
        lPDGMass := 1115683/1000000
        lNegdEdx := c.fTreeVariableNSigmasNegProton
        lPosdEdx := c.fTreeVariableNSigmasPosPion
        lPDGCode := -3122
        lPDGCodeXiMother := -3312
        lBaryonMomentum := c.fTreeVariableNegInnerP
        lBaryonPt := c.lThisNegInnerPt
        lBaryondEdxFromProton := c.fTreeVariableNSigmasNegProton
        lBaryonTransvMomMCForG3F := c.lMCTransvMomNeg }
    else l2
  if r.CutMCUseMCProperties then { l3 with lRap := c.fTreeVariableRapMC } else l3

/-- The parametric value
`TMath::Cos( p0*TMath::Exp(p1*pt) + p2*TMath::Exp(p3*pt) + p4 )`. -/
def varCosPA (m : TMath) (p0 p1 p2 p3 p4 pt : ℚ) : ℚ :=
  m.Cos (p0 * m.Exp (p1 * pt) + p2 * m.Exp (p3 * pt) + p4)

/-- The local `lVarV0CosPA` of the V0 loop. -/
def lVarV0CosPA (m : TMath) (c : V0Candidate) (r : V0Cuts) : ℚ :=
  varCosPA m r.CutVarV0CosPAExp0Const r.CutVarV0CosPAExp0Slope
    r.CutVarV0CosPAExp1Const r.CutVarV0CosPAExp1Slope r.CutVarV0CosPAConst
    c.fTreeVariablePt

/-- The local `lV0CosPACut` of the V0 loop after the block "Setting up:
Variable V0 CosPA": the scalar cut, replaced by the parametric value when the
cut is in use and the parametric value is larger. -/
def lV0CosPACut (m : TMath) (c : V0Candidate) (r : V0Cuts) : ℚ :=
  if r.CutUseVarV0CosPA then
    (if lVarV0CosPA m c r > r.CutV0CosPA then lVarV0CosPA m c r else r.CutV0CosPA)
  else r.CutV0CosPA

/-- The conjuncts of the selection condition of the V0 loop, in source order
(comments "Check 1" to "Check 10"). -/
inductive V0Check
  | offlineVertexer
  | etaNeg
  | etaPos
  | rapidityMin
  | rapidityMax
  | v0RadiusMin
  | v0RadiusMax
  | dcaNegToPV
  | dcaPosToPV
  | dcaV0Daughters
  | v0CosPA
  | properLifetime
  | leastNbrCrossedRows
  | leastRatioCrossedRowsOverFindable
  | minBaryonMomentum
  | tpcdEdxNeg
  | tpcdEdxPos
  | armenteros
  | itsRefit
  | maxChi2PerCluster
  | minTrackLength
  | dEdx276TeV
deriving DecidableEq, Repr

/-- The value of one conjunct of the V0 selection condition. -/
def v0Check (m : TMath) (c : V0Candidate) (r : V0Cuts) : V0Check → Bool
  -- Check 1: Offline Vertexer
  | .offlineVertexer => c.lOnFlyStatus == (if r.UseOnTheFly then 1 else 0)
  -- Check 2: Basic Acceptance cuts
  | .etaNeg =>
      decide (r.CutMinEtaTracks < c.fTreeVariableNegEta) &&
      decide (c.fTreeVariableNegEta < r.CutMaxEtaTracks)
  | .etaPos =>
      decide (r.CutMinEtaTracks < c.fTreeVariablePosEta) &&
      decide (c.fTreeVariablePosEta < r.CutMaxEtaTracks)
  | .rapidityMin => decide ((v0Locals c r).lRap > r.CutMinRapidity)
  | .rapidityMax => decide ((v0Locals c r).lRap < r.CutMaxRapidity)
  -- Check 3: Topological Variables
  | .v0RadiusMin => decide (c.fTreeVariableV0Radius > r.CutV0Radius)
  | .v0RadiusMax => decide (c.fTreeVariableV0Radius < r.CutMaxV0Radius)
  | .dcaNegToPV => decide (c.fTreeVariableDcaNegToPrimVertex > r.CutDCANegToPV)
  | .dcaPosToPV => decide (c.fTreeVariableDcaPosToPrimVertex > r.CutDCAPosToPV)
  | .dcaV0Daughters => decide (c.fTreeVariableDcaV0Daughters < r.CutDCAV0Daughters)
  | .v0CosPA => decide (c.fTreeVariableV0CosineOfPointingAngle > lV0CosPACut m c r)
  | .properLifetime =>
      decide (c.fTreeVariableDistOverTotMom * (v0Locals c r).lPDGMass < r.CutProperLifetime)
  | .leastNbrCrossedRows =>
      decide ((c.fTreeVariableLeastNbrCrossedRows : ℚ) > r.CutLeastNumberOfCrossedRows)
  | .leastRatioCrossedRowsOverFindable =>
      decide (c.fTreeVariableLeastRatioCrossedRowsOverFindable >
        r.CutLeastNumberOfCrossedRowsOverFindable)
  -- Check 4: Minimum momentum of baryon daughter
  | .minBaryonMomentum =>
      decide (r.MassHypothesis = V0MassHypo.kK0Short) ||
      decide ((v0Locals c r).lBaryonMomentum > r.CutMinBaryonMomentum)
  -- Check 5: TPC dEdx selections
  | .tpcdEdxNeg => decide (|(v0Locals c r).lNegdEdx| < r.CutTPCdEdx)
  | .tpcdEdxPos => decide (|(v0Locals c r).lPosdEdx| < r.CutTPCdEdx)
  -- Check 6: Armenteros-Podolanski space cut (for K0Short analysis)
  | .armenteros =>
      ((r.CutArmenteros == false) || decide (r.MassHypothesis ≠ V0MassHypo.kK0Short)) ||
      decide (c.fTreeVariablePtArmV0 > r.CutArmenterosParameter * |c.fTreeVariableAlphaV0|)
  -- Check 7: kITSrefit track selection if requested
  | .itsRefit =>
      (hasITSrefit c.fTreeVariableNegTrackStatus && hasITSrefit c.fTreeVariablePosTrackStatus) ||
      !r.CutUseITSRefitTracks
  -- Check 8: Max Chi2/Clusters if not absurd
  | .maxChi2PerCluster =>
      decide (r.CutMaxChi2PerCluster > 1000) ||
      decide (c.fTreeVariableMaxChi2PerCluster < r.CutMaxChi2PerCluster)
  -- Check 9: Min Track Length if positive
  | .minTrackLength =>
      decide (r.CutMinTrackLength < 0) ||
      decide (c.fTreeVariableMinTrackLength > r.CutMinTrackLength)
  -- Check 10: Special 2.76TeV-like dedx
  | .dEdx276TeV =>
      !r.Cut276TeVLikedEdx ||
      (decide (r.MassHypothesis = V0MassHypo.kK0Short) ||
        (decide ((v0Locals c r).lBaryonPt > 1) ||
          decide (|(v0Locals c r).lBaryondEdxFromProton| < 3)))

/-- The conjuncts of the V0 selection in the order the source evaluates them. -/
def v0CheckOrder : List V0Check :=
  [.offlineVertexer, .etaNeg, .etaPos, .rapidityMin, .rapidityMax,
   .v0RadiusMin, .v0RadiusMax, .dcaNegToPV, .dcaPosToPV, .dcaV0Daughters,
   .v0CosPA, .properLifetime, .leastNbrCrossedRows,
   .leastRatioCrossedRowsOverFindable, .minBaryonMomentum, .tpcdEdxNeg,
   .tpcdEdxPos, .armenteros, .itsRefit, .maxChi2PerCluster, .minTrackLength,
   .dEdx276TeV]

/-- The outer `if ( Check 1 && ... && Check 10 )` of the V0 loop. -/
def v0Selection (m : TMath) (c : V0Candidate) (r : V0Cuts) : Bool :=
  v0CheckOrder.all (v0Check m c r)

/-- The inner condition "Regular fill histogram here": the three optional
Monte Carlo association requirements. -/
def v0MCSelection (c : V0Candidate) (r : V0Cuts) : Bool :=
  (!r.CutMCPhysicalPrimary || decide (c.fTreeVariablePrimaryStatus = 1)) &&
  (!r.CutMCLambdaFromPrimaryXi ||
    (decide (c.fTreeVariablePrimaryStatusMother = 1) &&
      decide (c.fTreeVariablePIDMother = (v0Locals c r).lPDGCodeXiMother))) &&
  (!r.CutMCPDGCodeAssociation || decide (c.fTreeVariablePID = (v0Locals c r).lPDGCode))

/-- Whether the loop body reaches `histoout -> Fill` for this candidate and
configuration. -/
def v0Accept (m : TMath) (c : V0Candidate) (r : V0Cuts) : Bool :=
  v0Selection m c r && v0MCSelection c r

/-- The transverse momentum used as abscissa of the fills: `fTreeVariablePt`
unless `GetCutMCUseMCProperties()`, then `fTreeVariablePtMC`. -/
def v0FillPt (c : V0Candidate) (r : V0Cuts) : ℚ :=
  if !r.CutMCUseMCProperties then c.fTreeVariablePt else c.fTreeVariablePtMC

/-- The point given to `histoout -> Fill`. -/
def v0FillPoint (c : V0Candidate) (r : V0Cuts) : Fill3 :=
  { x := c.fCentrality, y := v0FillPt c r, z := (v0Locals c r).lMass }

/-- The point given to `histoProtonProfile -> Fill`. -/
def v0ProfilePoint (c : V0Candidate) (r : V0Cuts) : Fill2 :=
  { x := v0FillPt c r, y := (v0Locals c r).lBaryonTransvMomMCForG3F }

/-- The condition of the block "Fill feeddown matrix, please", the null test
of `histooutfeeddown` apart. -/
def v0FeeddownCondition (c : V0Candidate) (r : V0Cuts) : Bool :=
  (decide (c.fTreeVariablePrimaryStatusMother = 1) &&
    decide (c.fTreeVariablePIDMother = (v0Locals c r).lPDGCodeXiMother)) &&
  decide (c.fTreeVariablePID = (v0Locals c r).lPDGCode) &&
  decide (|(v0Locals c r).lMass - 1116/1000| < 10/1000)

/-- The point given to `histooutfeeddown -> Fill`. -/
def v0FeeddownPoint (c : V0Candidate) : Fill3 :=
  { x := c.fTreeVariablePt, y := c.fTreeVariablePtMother, z := c.fCentrality }

/-- One iteration of the V0 configuration loop on the result object `o`. -/
def fillV0 (m : TMath) (c : V0Candidate) (o : AliV0Result) : AliV0Result :=
  if v0Selection m c o.cuts then
    let o1 : AliV0Result :=
      if v0MCSelection c o.cuts then
        { o with
          fHisto := o.fHisto ++ [v0FillPoint c o.cuts]
          fProtonProfile := o.fProtonProfile.map (fun p => p ++ [v0ProfilePoint c o.cuts]) }
      else o
    if v0FeeddownCondition c o.cuts then
      { o1 with fHistoFeeddown := o1.fHistoFeeddown.map (fun h => h ++ [v0FeeddownPoint c]) }
    else o1
  else o

/-- The V0 result objects, by address. -/
abbrev V0Heap := ℕ → AliV0Result

/-- The body of `for(Int_t lcfg=0; lcfg<lNumberOfConfigurations; lcfg++)` for
the entry of `fListV0` holding the address `p`. -/
def stepV0 (m : TMath) (c : V0Candidate) (heap : V0Heap) (p : ℕ) : V0Heap :=
  Function.update heap p (fillV0 m c (heap p))

/-- The V0 configuration loop of `UserExec` for one candidate over the
addresses held by `fListV0`, from first to last. -/
def loopV0 (m : TMath) (c : V0Candidate) (heap : V0Heap) (fListV0 : List ℕ) : V0Heap :=
  fListV0.foldl (stepV0 m c) heap

/-- `AddConfiguration( AliV0Result* )`: appends the address to `fListV0`
(created empty when it does not exist yet). -/
def AddConfigurationV0 (fListV0 : Option (List ℕ)) (p : ℕ) : Option (List ℕ) :=
  some ((fListV0.getD []) ++ [p])

/-! ## Cascade candidates -/

/-- The comparison `TMath::Abs( a / d ) < cut` of the source: for `d = 0` the
quotient is infinite or NaN and the comparison is false. -/
def absRatioLt (a d cut : ℚ) : Bool :=
  if d = 0 then false else decide (|a / d| < cut)

/-- The comparison `a / d > cut` of the source: for `d = 0` the quotient is
`+inf` when `a` is positive (the comparison holds) and `-inf` or NaN
otherwise (it fails). -/
def ratioGt (a d cut : ℚ) : Bool :=
  if d = 0 then decide (0 < a) else decide (a / d > cut)

/-- `AliCascadeResult::EMassHypo`. -/
inductive CascadeMassHypo
  | kXiMinus
  | kXiPlus
  | kOmegaMinus
  | kOmegaPlus
deriving DecidableEq, Repr

/-- The five coefficients of one parametric cut (`...Exp0Const`,
`...Exp0Slope`, `...Exp1Const`, `...Exp1Slope`, `...Const`). -/
structure VarCutPar where
  Exp0Const : ℚ
  Exp0Slope : ℚ
  Exp1Const : ℚ
  Exp1Slope : ℚ
  Const : ℚ
deriving DecidableEq, Repr

/-- The cut values of an `AliCascadeResult`, one field per getter read by the
cascade configuration loop; `CutVarCascCosPA` groups the five getters
`GetCutVarCascCosPAExp0Const` ... `GetCutVarCascCosPAConst`, and likewise for
the other parametric cuts. -/
structure CascadeCuts where
  MassHypothesis : CascadeMassHypo
  CutMinEtaTracks : ℚ
  CutMaxEtaTracks : ℚ
  CutMinRapidity : ℚ
  CutMaxRapidity : ℚ
  CutDCANegToPV : ℚ
  CutDCAPosToPV : ℚ
  CutDCAV0Daughters : ℚ
  CutV0CosPA : ℚ
  CutUseVarV0CosPA : Bool
  CutVarV0CosPA : VarCutPar
  CutV0Radius : ℚ
  CutDCAV0ToPV : ℚ
  CutV0Mass : ℚ
  CutDCABachToPV : ℚ
  CutDCACascDaughters : ℚ
  CutUseVarDCACascDau : Bool
  CutVarDCACascDau : VarCutPar
  CutCascCosPA : ℚ
  CutUseVarCascCosPA : Bool
  CutVarCascCosPA : VarCutPar
  CutCascRadius : ℚ
  CutV0MassSigma : ℚ
  CutProperLifetime : ℚ
  CutLeastNumberOfClusters : ℚ
  CutMCPhysicalPrimary : Bool
  CutMCPDGCodeAssociation : Bool
  CutMCUseMCProperties : Bool
  CutMCSelectBump : Bool
  CutTPCdEdx : ℚ
  CutXiRejection : ℚ
  CutDCABachToBaryon : ℚ
  CutBachBaryonCosPA : ℚ
  CutUseVarBBCosPA : Bool
  CutVarBBCosPA : VarCutPar
  CutMinV0Lifetime : ℚ
  CutMaxV0Lifetime : ℚ
  CutUseITSRefitTracks : Bool
  CutMaxChi2PerCluster : ℚ
  CutMinTrackLength : ℚ
  CutUse276TeVV0CosPA : Bool
  CutDCACascadeToPV : ℚ
  CutDCANegToPVWeighted : ℚ
  CutDCAPosToPVWeighted : ℚ
  CutDCABachToPVWeighted : ℚ
deriving DecidableEq

/-- An `AliCascadeResult`: its cut values and the output objects it owns
(`GetHistogram`, and `GetProtonProfile`, which may be null). -/
structure AliCascadeResult where
  cuts : CascadeCuts
  fHisto : TH3F
  fProtonProfile : Option TProfile

/-- The task members read by the cascade loop besides the candidate: the
coefficients of the parametric Lambda mass mean and width. -/
structure CascadeTask where
  fLambdaMassMean : ℕ → ℚ
  fLambdaMassSigma : ℕ → ℚ

/-- The values of one cascade candidate that are live when the configuration
loop runs: the `fTreeCascVar...` members, the event value `fCentrality` and
the locals `lV0Pt` and `lV0TotMomentum`. -/
structure CascadeCandidate where
  fCentrality : ℚ
  lV0Pt : ℚ
  lV0TotMomentum : ℚ
  fTreeCascVarCharge : ℤ
  fTreeCascVarPt : ℚ
  fTreeCascVarPtMC : ℚ
  fTreeCascVarRapXi : ℚ
  fTreeCascVarRapOmega : ℚ
  fTreeCascVarRapMC : ℚ
  fTreeCascVarMassAsXi : ℚ
  fTreeCascVarMassAsOmega : ℚ
  fTreeCascVarPosEta : ℚ
  fTreeCascVarNegEta : ℚ
  fTreeCascVarBachEta : ℚ
  fTreeCascVarDCANegToPrimVtx : ℚ
  fTreeCascVarDCAPosToPrimVtx : ℚ
  fTreeCascVarDCAV0Daughters : ℚ
  fTreeCascVarV0CosPointingAngle : ℚ
  fTreeCascVarV0Radius : ℚ
  fTreeCascVarDCAV0ToPrimVtx : ℚ
  fTreeCascVarV0Mass : ℚ
  fTreeCascVarDCABachToPrimVtx : ℚ
  fTreeCascVarDCACascDaughters : ℚ
  fTreeCascVarCascCosPointingAngle : ℚ
  fTreeCascVarCascRadius : ℚ
  fTreeCascVarDistOverTotMom : ℚ
  fTreeCascVarLeastNbrClusters : ℤ
  fTreeCascVarIsPhysicalPrimary : ℤ
  fTreeCascVarPID : ℤ
  fTreeCascVarNegNSigmaPion : ℚ
  fTreeCascVarNegNSigmaProton : ℚ
  fTreeCascVarPosNSigmaPion : ℚ
  fTreeCascVarPosNSigmaProton : ℚ
  fTreeCascVarBachNSigmaPion : ℚ
  fTreeCascVarBachNSigmaKaon : ℚ
  fTreeCascVarDCABachToBaryon : ℚ
  fTreeCascVarWrongCosPA : ℚ
  fTreeCascVarV0Lifetime : ℚ
  fTreeCascVarPosTrackStatus : ℕ
  fTreeCascVarNegTrackStatus : ℕ
  fTreeCascVarBachTrackStatus : ℕ
  fTreeCascVarMaxChi2PerCluster : ℚ
  fTreeCascVarMinTrackLength : ℚ
  fTreeCascVarPosLabelMother : ℤ
  fTreeCascVarNegLabelMother : ℤ
  fTreeCascVarBachLabelMother : ℤ
  fTreeCascVarPIDBachelorMother : ℤ
  fTreeCascVarCascDCAtoPVz : ℚ
  fTreeCascVarCascDCAtoPVxy : ℚ
  fTreeCascVarNegDCAPVSigmaX2 : ℚ
  fTreeCascVarNegDCAPVSigmaY2 : ℚ
  fTreeCascVarPosDCAPVSigmaX2 : ℚ
  fTreeCascVarPosDCAPVSigmaY2 : ℚ
  fTreeCascVarBachDCAPVSigmaX2 : ℚ
  fTreeCascVarBachDCAPVSigmaY2 : ℚ
  fTreeCascVarPosTransvMomentumMC : ℚ
  fTreeCascVarNegTransvMomentumMC : ℚ

/-- The locals of one iteration of the cascade configuration loop that
depend on the mass hypothesis and enter the selection or the fills (the
momentum components `lprpx` ... `lpipz` are set but not read there). -/
structure CascadeLocals where
  lCharge : ℤ
  lMass : ℚ
  lRap : ℚ
  lPDGMass : ℚ
  lNegdEdx : ℚ
  lPosdEdx : ℚ
  lBachdEdx : ℚ
  lPDGCode : ℤ
  lBaryonTransvMomMCForG3F : ℚ

/-- The four `if ( GetMassHypothesis() == ... )` blocks, one of which runs
and overwrites every initial value (`lCharge = -2`, `lMass = 0`, ...),
followed by the rapidity override
`if ( GetCutMCUseMCProperties() ) lRap = fTreeCascVarRapMC`. -/
def cascLocals (c : CascadeCandidate) (r : CascadeCuts) : CascadeLocals :=
  let l : CascadeLocals :=
    match r.MassHypothesis with
    | .kXiMinus =>
        { lCharge := -1
          lMass := c.fTreeCascVarMassAsXi
          lRap := c.fTreeCascVarRapXi
          lPDGMass := 132171/100000
          lNegdEdx := c.fTreeCascVarNegNSigmaPion
          lPosdEdx := c.fTreeCascVarPosNSigmaProton
          lBachdEdx := c.fTreeCascVarBachNSigmaPion
          lPDGCode := 3312
          lBaryonTransvMomMCForG3F := c.fTreeCascVarPosTransvMomentumMC }
    | .kXiPlus =>
        { lCharge := 1
          lMass := c.fTreeCascVarMassAsXi
          lRap := c.fTreeCascVarRapXi
          lPDGMass := 132171/100000
          lNegdEdx := c.fTreeCascVarNegNSigmaProton
          lPosdEdx := c.fTreeCascVarPosNSigmaPion
          lBachdEdx := c.fTreeCascVarBachNSigmaPion
          lPDGCode := -3312
          lBaryonTransvMomMCForG3F := c.fTreeCascVarNegTransvMomentumMC }
    | .kOmegaMinus =>
        { lCharge := -1
          lMass := c.fTreeCascVarMassAsOmega
          lRap := c.fTreeCascVarRapOmega
          lPDGMass := 167245/100000
          lNegdEdx := c.fTreeCascVarNegNSigmaPion
          lPosdEdx := c.fTreeCascVarPosNSigmaProton
          lBachdEdx := c.fTreeCascVarBachNSigmaKaon
          lPDGCode := 3334
          lBaryonTransvMomMCForG3F := c.fTreeCascVarPosTransvMomentumMC }
    | .kOmegaPlus =>
        { lCharge := 1
          lMass := c.fTreeCascVarMassAsOmega
          lRap := c.fTreeCascVarRapOmega
          lPDGMass := 167245/100000
          lNegdEdx := c.fTreeCascVarNegNSigmaProton
          lPosdEdx := c.fTreeCascVarPosNSigmaPion
          lBachdEdx := c.fTreeCascVarBachNSigmaKaon
          lPDGCode := -3334
          lBaryonTransvMomMCForG3F := c.fTreeCascVarNegTransvMomentumMC }
  if r.CutMCUseMCProperties then { l with lRap := c.fTreeCascVarRapMC } else l

/-- The local `lExpV0Mass`. -/
def lExpV0Mass (m : TMath) (t : CascadeTask) (c : CascadeCandidate) : ℚ :=
  t.fLambdaMassMean 0 +
  t.fLambdaMassMean 1 * m.Exp (t.fLambdaMassMean 2 * c.lV0Pt) +
  t.fLambdaMassMean 3 * m.Exp (t.fLambdaMassMean 4 * c.lV0Pt)

/-- The local `lExpV0Sigma`. -/
def lExpV0Sigma (m : TMath) (t : CascadeTask) (c : CascadeCandidate) : ℚ :=
  t.fLambdaMassSigma 0 + t.fLambdaMassSigma 1 * c.lV0Pt +
  t.fLambdaMassSigma 2 * m.Exp (t.fLambdaMassSigma 3 * c.lV0Pt)

/-- The local `l276TeVV0CosPA`: 0.998, or below the momentum threshold
`pThr = 1.5` the momentum dependent value `cpaCut` (its quotients are exact
rational quotients). -/
def l276TeVV0CosPA (m : TMath) (c : CascadeCandidate) : ℚ :=
  let pThr : ℚ := 3/2
  let bend : ℚ := 3/100
  let qt : ℚ := 211/1000
  if c.lV0TotMomentum < pThr then
    let cpaThr := m.Cos (m.ATan (qt / pThr) + bend)
    (998/1000 / cpaThr) * m.Cos (m.ATan (qt / c.lV0TotMomentum) + bend)
  else 998/1000

/-- The parametric value of a pointing-angle cut at the cascade's transverse
momentum. -/
def varCosPAOf (m : TMath) (p : VarCutPar) (pt : ℚ) : ℚ :=
  varCosPA m p.Exp0Const p.Exp0Slope p.Exp1Const p.Exp1Slope p.Const pt

/-- The local `lVarCascCosPA`. -/
def lVarCascCosPA (m : TMath) (c : CascadeCandidate) (r : CascadeCuts) : ℚ :=
  varCosPAOf m r.CutVarCascCosPA c.fTreeCascVarPt

/-- The local `lCascCosPACut` after the block "Setting up: Variable Cascade
CosPA". -/
def lCascCosPACut (m : TMath) (c : CascadeCandidate) (r : CascadeCuts) : ℚ :=
  if r.CutUseVarCascCosPA then
    (if lVarCascCosPA m c r > r.CutCascCosPA then lVarCascCosPA m c r else r.CutCascCosPA)
  else r.CutCascCosPA

/-- The local `lVarV0CosPA` of the cascade loop. -/
def lVarV0CosPACasc (m : TMath) (c : CascadeCandidate) (r : CascadeCuts) : ℚ :=
  varCosPAOf m r.CutVarV0CosPA c.fTreeCascVarPt

/-- The local `lV0CosPACut` of the cascade loop after the block "Setting up:
Variable V0 CosPA". -/
def lV0CosPACutCasc (m : TMath) (c : CascadeCandidate) (r : CascadeCuts) : ℚ :=
  if r.CutUseVarV0CosPA then
    (if lVarV0CosPACasc m c r > r.CutV0CosPA then lVarV0CosPACasc m c r else r.CutV0CosPA)
  else r.CutV0CosPA

/-- The local `lVarBBCosPA`. -/
def lVarBBCosPA (m : TMath) (c : CascadeCandidate) (r : CascadeCuts) : ℚ :=
  varCosPAOf m r.CutVarBBCosPA c.fTreeCascVarPt

/-- The local `lBBCosPACut` after the block "Setting up: Variable BB CosPA". -/
def lBBCosPACut (m : TMath) (c : CascadeCandidate) (r : CascadeCuts) : ℚ :=
  if r.CutUseVarBBCosPA then
    (if lVarBBCosPA m c r > r.CutBachBaryonCosPA then lVarBBCosPA m c r
     else r.CutBachBaryonCosPA)
  else r.CutBachBaryonCosPA

/-- The local `lVarDCACascDau`:
`p0*TMath::Exp(p1*pt) + p2*TMath::Exp(p3*pt) + p4`, without cosine. -/
def lVarDCACascDau (m : TMath) (c : CascadeCandidate) (r : CascadeCuts) : ℚ :=
  r.CutVarDCACascDau.Exp0Const * m.Exp (r.CutVarDCACascDau.Exp0Slope * c.fTreeCascVarPt) +
  r.CutVarDCACascDau.Exp1Const * m.Exp (r.CutVarDCACascDau.Exp1Slope * c.fTreeCascVarPt) +
  r.CutVarDCACascDau.Const

/-- The local `lDCACascDauCut` after the block "Setting up: Variable DCA Casc
Dau". -/
def lDCACascDauCut (m : TMath) (c : CascadeCandidate) (r : CascadeCuts) : ℚ :=
  if r.CutUseVarDCACascDau then
    (if lVarDCACascDau m c r < r.CutDCACascDaughters then lVarDCACascDau m c r
     else r.CutDCACascDaughters)
  else r.CutDCACascDaughters

/-- The conjuncts of the selection condition of the cascade loop, in source
order (comments "Check 1" to "Check 14a"). -/
inductive CascadeCheck
  | charge
  | etaPos
  | etaNeg
  | etaBach
  | rapidityMin
  | rapidityMax
  | dcaNegToPV
  | dcaPosToPV
  | dcaV0Daughters
  | v0CosPA
  | v0Radius
  | dcaV0ToPV
  | v0Mass
  | dcaBachToPV
  | dcaCascDaughters
  | cascCosPA
  | cascRadius
  | v0MassSigma
  | properLifetime
  | leastNbrClusters
  | mcPhysicalPrimary
  | mcPDGCodeAssociation
  | tpcdEdxNeg
  | tpcdEdxPos
  | tpcdEdxBach
  | xiRejection
  | dcaBachToBaryon
  | bachBaryonCosPA
  | minV0Lifetime
  | maxV0Lifetime
  | itsRefit
  | maxChi2PerCluster
  | minTrackLength
  | mcSelectBump
  | v0CosPA276TeV
  | dcaCascadeToPV
  | dcaNegToPVWeighted
  | dcaPosToPVWeighted
  | dcaBachToPVWeighted
deriving DecidableEq, Repr

/-- The value of one conjunct of the cascade selection condition. -/
def cascCheck (m : TMath) (t : CascadeTask) (c : CascadeCandidate) (r : CascadeCuts) :
    CascadeCheck → Bool
  -- Check 1: Charge consistent with expectations
  | .charge => decide (c.fTreeCascVarCharge = (cascLocals c r).lCharge)
  -- Check 2: Basic Acceptance cuts
  | .etaPos =>
      decide (r.CutMinEtaTracks < c.fTreeCascVarPosEta) &&
      decide (c.fTreeCascVarPosEta < r.CutMaxEtaTracks)
  | .etaNeg =>
      decide (r.CutMinEtaTracks < c.fTreeCascVarNegEta) &&
      decide (c.fTreeCascVarNegEta < r.CutMaxEtaTracks)
  | .etaBach =>
      decide (r.CutMinEtaTracks < c.fTreeCascVarBachEta) &&
      decide (c.fTreeCascVarBachEta < r.CutMaxEtaTracks)
  | .rapidityMin => decide ((cascLocals c r).lRap > r.CutMinRapidity)
  | .rapidityMax => decide ((cascLocals c r).lRap < r.CutMaxRapidity)
  -- Check 3: Topological Variables, V0 Selections
  | .dcaNegToPV => decide (c.fTreeCascVarDCANegToPrimVtx > r.CutDCANegToPV)
  | .dcaPosToPV => decide (c.fTreeCascVarDCAPosToPrimVtx > r.CutDCAPosToPV)
  | .dcaV0Daughters => decide (c.fTreeCascVarDCAV0Daughters < r.CutDCAV0Daughters)
  | .v0CosPA => decide (c.fTreeCascVarV0CosPointingAngle > lV0CosPACutCasc m c r)
  | .v0Radius => decide (c.fTreeCascVarV0Radius > r.CutV0Radius)
  -- Cascade Selections
  | .dcaV0ToPV => decide (c.fTreeCascVarDCAV0ToPrimVtx > r.CutDCAV0ToPV)
  | .v0Mass => decide (|c.fTreeCascVarV0Mass - 1116/1000| < r.CutV0Mass)
  | .dcaBachToPV => decide (c.fTreeCascVarDCABachToPrimVtx > r.CutDCABachToPV)
  | .dcaCascDaughters => decide (c.fTreeCascVarDCACascDaughters < lDCACascDauCut m c r)
  | .cascCosPA => decide (c.fTreeCascVarCascCosPointingAngle > lCascCosPACut m c r)
  | .cascRadius => decide (c.fTreeCascVarCascRadius > r.CutCascRadius)
  -- Implementation of a parametric V0 Mass cut if requested
  | .v0MassSigma =>
      decide (r.CutV0MassSigma > 50) ||
      absRatioLt (c.fTreeCascVarV0Mass - lExpV0Mass m t c) (lExpV0Sigma m t c) r.CutV0MassSigma
  -- Miscellaneous
  | .properLifetime =>
      decide (c.fTreeCascVarDistOverTotMom * (cascLocals c r).lPDGMass < r.CutProperLifetime)
  | .leastNbrClusters =>
      decide ((c.fTreeCascVarLeastNbrClusters : ℚ) > r.CutLeastNumberOfClusters)
  -- MC specific: either don't associate (if not requested) or associate
  | .mcPhysicalPrimary =>
      !r.CutMCPhysicalPrimary || decide (c.fTreeCascVarIsPhysicalPrimary = 1)
  | .mcPDGCodeAssociation =>
      !r.CutMCPDGCodeAssociation || decide (c.fTreeCascVarPID = (cascLocals c r).lPDGCode)
  -- Check 4: TPC dEdx selections
  | .tpcdEdxNeg => decide (|(cascLocals c r).lNegdEdx| < r.CutTPCdEdx)
  | .tpcdEdxPos => decide (|(cascLocals c r).lPosdEdx| < r.CutTPCdEdx)
  | .tpcdEdxBach => decide (|(cascLocals c r).lBachdEdx| < r.CutTPCdEdx)
  -- Check 5: Xi rejection for Omega analysis
  | .xiRejection =>
      (decide (r.MassHypothesis ≠ CascadeMassHypo.kOmegaMinus) &&
        decide (r.MassHypothesis ≠ CascadeMassHypo.kOmegaPlus)) ||
      decide (|c.fTreeCascVarMassAsXi - 132171/100000| > r.CutXiRejection)
  -- Check 6: Experimental DCA Bachelor to Baryon cut
  | .dcaBachToBaryon => decide (c.fTreeCascVarDCABachToBaryon > r.CutDCABachToBaryon)
  -- Check 7: Experimental Bach Baryon CosPA
  | .bachBaryonCosPA => decide (c.fTreeCascVarWrongCosPA < lBBCosPACut m c r)
  -- Check 8: Min/Max V0 Lifetime cut
  | .minV0Lifetime => decide (c.fTreeCascVarV0Lifetime > r.CutMinV0Lifetime)
  | .maxV0Lifetime =>
      decide (c.fTreeCascVarV0Lifetime < r.CutMaxV0Lifetime) ||
      decide (r.CutMaxV0Lifetime > 1000)
  -- Check 9: kITSrefit track selection if requested
  | .itsRefit =>
      (hasITSrefit c.fTreeCascVarPosTrackStatus &&
        hasITSrefit c.fTreeCascVarNegTrackStatus &&
        hasITSrefit c.fTreeCascVarBachTrackStatus) ||
      !r.CutUseITSRefitTracks
  -- Check 10: Max Chi2/Clusters if not absurd
  | .maxChi2PerCluster =>
      decide (r.CutMaxChi2PerCluster > 1000) ||
      decide (c.fTreeCascVarMaxChi2PerCluster < r.CutMaxChi2PerCluster)
  -- Check 11: Min Track Length if positive
  | .minTrackLength =>
      decide (r.CutMinTrackLength < 0) ||
      decide (c.fTreeCascVarMinTrackLength > r.CutMinTrackLength)
  -- Check 12: Explicit associate-with-bump
  | .mcSelectBump =>
      !r.CutMCSelectBump ||
      ((decide ((cascLocals c r).lCharge = -1) &&
          decide (c.fTreeCascVarPosLabelMother = c.fTreeCascVarBachLabelMother) &&
          decide (c.fTreeCascVarPIDBachelorMother = 3122)) ||
        (decide ((cascLocals c r).lCharge = 1) &&
          decide (c.fTreeCascVarNegLabelMother = c.fTreeCascVarBachLabelMother) &&
          decide (c.fTreeCascVarPIDBachelorMother = -3122)))
  -- Check 12: Check if special V0 CosPA cut used
  | .v0CosPA276TeV =>
      (r.CutUse276TeVV0CosPA == false) ||
      decide (c.fTreeCascVarV0CosPointingAngle > l276TeVV0CosPA m c)
  -- Check 13: 3D Cascade DCA to PV
  | .dcaCascadeToPV =>
      decide (r.CutDCACascadeToPV > 999) ||
      decide (m.Sqrt (c.fTreeCascVarCascDCAtoPVz * c.fTreeCascVarCascDCAtoPVz +
          c.fTreeCascVarCascDCAtoPVxy * c.fTreeCascVarCascDCAtoPVxy) < r.CutDCACascadeToPV)
  -- Check 14a: track DCA to PV, weighted (negative, positive, bachelor)
  | .dcaNegToPVWeighted =>
      decide (r.CutDCANegToPVWeighted < 0) ||
      ratioGt c.fTreeCascVarDCANegToPrimVtx
        (m.Sqrt (c.fTreeCascVarNegDCAPVSigmaX2 * c.fTreeCascVarNegDCAPVSigmaX2 +
          c.fTreeCascVarNegDCAPVSigmaY2 * c.fTreeCascVarNegDCAPVSigmaY2 + 1/1000000))
        r.CutDCANegToPVWeighted
  | .dcaPosToPVWeighted =>
      decide (r.CutDCAPosToPVWeighted < 0) ||
      ratioGt c.fTreeCascVarDCAPosToPrimVtx
        (m.Sqrt (c.fTreeCascVarPosDCAPVSigmaX2 * c.fTreeCascVarPosDCAPVSigmaX2 +
          c.fTreeCascVarPosDCAPVSigmaY2 * c.fTreeCascVarPosDCAPVSigmaY2 + 1/1000000))
        r.CutDCAPosToPVWeighted
  | .dcaBachToPVWeighted =>
      decide (r.CutDCABachToPVWeighted < 0) ||
      ratioGt c.fTreeCascVarDCABachToPrimVtx
        (m.Sqrt (c.fTreeCascVarBachDCAPVSigmaX2 * c.fTreeCascVarBachDCAPVSigmaX2 +
          c.fTreeCascVarBachDCAPVSigmaY2 * c.fTreeCascVarBachDCAPVSigmaY2 + 1/1000000))
        r.CutDCABachToPVWeighted

/-- The conjuncts of the cascade selection in the order the source evaluates
them. -/
def cascCheckOrder : List CascadeCheck :=
  [.charge, .etaPos, .etaNeg, .etaBach, .rapidityMin, .rapidityMax,
   .dcaNegToPV, .dcaPosToPV, .dcaV0Daughters, .v0CosPA, .v0Radius,
   .dcaV0ToPV, .v0Mass, .dcaBachToPV, .dcaCascDaughters, .cascCosPA,
   .cascRadius, .v0MassSigma, .properLifetime, .leastNbrClusters,
   .mcPhysicalPrimary, .mcPDGCodeAssociation, .tpcdEdxNeg, .tpcdEdxPos,
   .tpcdEdxBach, .xiRejection, .dcaBachToBaryon, .bachBaryonCosPA,
   .minV0Lifetime, .maxV0Lifetime, .itsRefit, .maxChi2PerCluster,
   .minTrackLength, .mcSelectBump, .v0CosPA276TeV, .dcaCascadeToPV,
   .dcaNegToPVWeighted, .dcaPosToPVWeighted, .dcaBachToPVWeighted]

/-- The `if ( Check 1 && ... && Check 14a )` of the cascade loop. -/
def cascSelection (m : TMath) (t : CascadeTask) (c : CascadeCandidate) (r : CascadeCuts) :
    Bool :=
  cascCheckOrder.all (cascCheck m t c r)

/-- The transverse momentum used as abscissa of the fills: `fTreeCascVarPt`
unless `GetCutMCUseMCProperties()`, then `fTreeCascVarPtMC`. -/
def cascFillPt (c : CascadeCandidate) (r : CascadeCuts) : ℚ :=
  if !r.CutMCUseMCProperties then c.fTreeCascVarPt else c.fTreeCascVarPtMC

/-- The point given to `histoout -> Fill`. -/
def cascFillPoint (c : CascadeCandidate) (r : CascadeCuts) : Fill3 :=
  { x := c.fCentrality, y := cascFillPt c r, z := (cascLocals c r).lMass }

/-- The point given to `histoProtonProfile -> Fill`. -/
def cascProfilePoint (c : CascadeCandidate) (r : CascadeCuts) : Fill2 :=
  { x := cascFillPt c r, y := (cascLocals c r).lBaryonTransvMomMCForG3F }

/-- One iteration of the cascade configuration loop on the result object `o`. -/
def fillCascade (m : TMath) (t : CascadeTask) (c : CascadeCandidate) (o : AliCascadeResult) :
    AliCascadeResult :=
  if cascSelection m t c o.cuts then
    { o with
      fHisto := o.fHisto ++ [cascFillPoint c o.cuts]
      fProtonProfile := o.fProtonProfile.map (fun p => p ++ [cascProfilePoint c o.cuts]) }
  else o

/-- The cascade result objects, by address. -/
abbrev CascadeHeap := ℕ → AliCascadeResult

/-- The body of
`for(Int_t lcfg=0; lcfg<lNumberOfConfigurationsCascade; lcfg++)` for the
entry of `fListCascade` holding the address `p`. -/
def stepCascade (m : TMath) (t : CascadeTask) (c : CascadeCandidate) (heap : CascadeHeap)
    (p : ℕ) : CascadeHeap :=
  Function.update heap p (fillCascade m t c (heap p))

/-- The cascade configuration loop of `UserExec` for one candidate over the
addresses held by `fListCascade`, from first to last. -/
def loopCascade (m : TMath) (t : CascadeTask) (c : CascadeCandidate) (heap : CascadeHeap)
    (fListCascade : List ℕ) : CascadeHeap :=
  fListCascade.foldl (stepCascade m t c) heap

/-- `AddConfiguration( AliCascadeResult* )`: appends the address to
`fListCascade` (created empty when it does not exist yet). -/
def AddConfigurationCascade (fListCascade : Option (List ℕ)) (p : ℕ) : Option (List ℕ) :=
  some ((fListCascade.getD []) ++ [p])

/-! ## Monte Carlo association -/

/-- The values of a `TParticle` read by the association code
(`GetPdgCode`, `GetFirstMother`, `Pt`, `Y`, `Energy`, `Pz`). -/
structure TParticle where
  PdgCode : ℤ
  FirstMother : ℤ
  Pt : ℚ
  Y : ℚ
  Energy : ℚ
  Pz : ℚ

/-- The Monte Carlo stack `lMCstack`: the particle of each label and the three
classifications of a label. -/
structure AliStack where
  Particle : ℤ → TParticle
  IsPhysicalPrimary : ℤ → Bool
  IsSecondaryFromWeakDecay : ℤ → Bool
  IsSecondaryFromMaterial : ℤ → Bool

/-- The three consecutive statements
`if( IsPhysicalPrimary(lbl) ) status = 1; if( IsSecondaryFromWeakDecay(lbl) ) status = 2;
if( IsSecondaryFromMaterial(lbl) ) status = 3;` on a status variable holding
`init`. -/
def primaryStatus (stack : AliStack) (lbl : ℤ) (init : ℤ) : ℤ :=
  let s1 := if stack.IsPhysicalPrimary lbl then 1 else init
  let s2 := if stack.IsSecondaryFromWeakDecay lbl then 2 else s1
  if stack.IsSecondaryFromMaterial lbl then 3 else s2

/-- The tree variables and locals written by the block "V0 Monte Carlo
Association" of the V0 loop. -/
structure V0MCInfo where
  fTreeVariablePIDPositive : ℤ
  fTreeVariablePIDNegative : ℤ
  fTreeVariablePtMother : ℚ
  fTreeVariableRapMother : ℚ
  fTreeVariablePtMC : ℚ
  fTreeVariableRapMC : ℚ
  fTreeVariablePID : ℤ
  fTreeVariablePIDMother : ℤ
  fTreeVariablePrimaryStatus : ℤ
  fTreeVariablePrimaryStatusMother : ℤ
  lMCTransvMomNeg : ℚ
  lMCTransvMomPos : ℚ

/-- The block "V0 Monte Carlo Association starts here" for the daughter
tracks whose `GetLabel()` are `posLabel` and `negLabel`. -/
def v0MCAssociation (stack : AliStack) (posLabel negLabel : ℤ) : V0MCInfo :=
  let lblPosV0Dghter := |posLabel|
  let lblNegV0Dghter := |negLabel|
  let mcPosV0Dghter := stack.Particle lblPosV0Dghter
  let mcNegV0Dghter := stack.Particle lblNegV0Dghter
  let lblMotherPosV0Dghter := mcPosV0Dghter.FirstMother
  let lblMotherNegV0Dghter := mcNegV0Dghter.FirstMother
  -- Set Everything to "I don't know" before starting, then the daughters' codes
  let s0 : V0MCInfo :=
    { fTreeVariablePIDPositive := mcPosV0Dghter.PdgCode
      fTreeVariablePIDNegative := mcNegV0Dghter.PdgCode
      fTreeVariablePtMother := -1
      fTreeVariableRapMother := -100
      fTreeVariablePtMC := -1
      fTreeVariableRapMC := -100
      fTreeVariablePID := -1
      fTreeVariablePIDMother := -1
      fTreeVariablePrimaryStatus := 0
      fTreeVariablePrimaryStatusMother := 0
      lMCTransvMomNeg := mcNegV0Dghter.Pt
      lMCTransvMomPos := mcPosV0Dghter.Pt }
  if lblMotherPosV0Dghter = lblMotherNegV0Dghter ∧ lblMotherPosV0Dghter > -1 then
    let pThisV0 := stack.Particle lblMotherPosV0Dghter
    let s1 : V0MCInfo :=
      { s0 with fTreeVariablePID := pThisV0.PdgCode, fTreeVariablePtMC := pThisV0.Pt }
    let s2 : V0MCInfo :=
      if |s1.fTreeVariablePID| = 3122 ∨ s1.fTreeVariablePID = 310 then
        { s1 with fTreeVariableRapMC := pThisV0.Y }
      else s1
    let s3 : V0MCInfo :=
      { s2 with
        fTreeVariablePrimaryStatus :=
          primaryStatus stack lblMotherPosV0Dghter s2.fTreeVariablePrimaryStatus }
    -- Now we try to acquire the V0 parent particle, if possible
    let lblThisV0Parent := pThisV0.FirstMother
    if lblThisV0Parent > -1 then
      let pThisV0Parent := stack.Particle lblThisV0Parent
      let s4 : V0MCInfo :=
        { s3 with
          fTreeVariablePIDMother := pThisV0Parent.PdgCode
          fTreeVariablePtMother := pThisV0Parent.Pt }
      let s5 : V0MCInfo :=
        if |s4.fTreeVariablePIDMother| = 3312 then
          { s4 with fTreeVariableRapMother := pThisV0Parent.Y }
        else s4
      { s5 with
        fTreeVariablePrimaryStatusMother :=
          primaryStatus stack lblThisV0Parent s5.fTreeVariablePrimaryStatusMother }
    else s3
  else s0

/-- The locals and tree variables written by the regular and the swapped
Monte Carlo association of the cascade loop that later code reads: the
association result (`lPDGCodeCascade`, `lXiTransvMomMC`,
`fTreeCascVarIsPhysicalPrimary`, `lRapMC`, `lPDGCodeCascadeSwapped`) and the
mother labels and codes of the block "Extra: check mother particle pdg code
completely independently" (the grand-mother and `IsPhysicalPrimary...`
bookkeeping variables of that block are written and not read again). -/
structure CascadeMCInfo where
  lPDGCodeCascade : ℤ
  lXiTransvMomMC : ℚ
  fTreeCascVarIsPhysicalPrimary : ℤ
  lRapMC : ℚ
  lPDGCodeCascadeSwapped : ℤ
  fTreeCascVarPIDPositiveMother : ℤ
  fTreeCascVarPIDNegativeMother : ℤ
  fTreeCascVarPIDBachelorMother : ℤ
  fTreeCascVarPosLabelMother : ℤ
  fTreeCascVarNegLabelMother : ℤ
  fTreeCascVarBachLabelMother : ℤ

/-- The values the association variables have before the association starts
(`lRapMC = -20`, `lXiTransvMomMC = -100`, codes 0 and -9999, labels -1). -/
def cascadeMCInit : CascadeMCInfo :=
  { lPDGCodeCascade := 0
    lXiTransvMomMC := -100
    fTreeCascVarIsPhysicalPrimary := 0
    lRapMC := -20
    lPDGCodeCascadeSwapped := 0
    fTreeCascVarPIDPositiveMother := -9999
    fTreeCascVarPIDNegativeMother := -9999
    fTreeCascVarPIDBachelorMother := -9999
    fTreeCascVarPosLabelMother := -1
    fTreeCascVarNegLabelMother := -1
    fTreeCascVarBachLabelMother := -1 }

/-- The three blocks `if ( lblMother... > -1 ){ ... }` of "Extra: check mother
particle pdg code completely independently". -/
def cascadeMotherInfo (stack : AliStack) (lblPosV0Dghter lblNegV0Dghter lblBach : ℤ)
    (s : CascadeMCInfo) : CascadeMCInfo :=
  let lblMotherPosV0Dghter := (stack.Particle lblPosV0Dghter).FirstMother
  let lblMotherNegV0Dghter := (stack.Particle lblNegV0Dghter).FirstMother
  let lblMotherBachelor := (stack.Particle lblBach).FirstMother
  let s1 : CascadeMCInfo :=
    if lblMotherPosV0Dghter > -1 then
      { s with
        fTreeCascVarPIDPositiveMother := (stack.Particle lblMotherPosV0Dghter).PdgCode
        fTreeCascVarPosLabelMother := lblMotherPosV0Dghter }
    else s
  let s2 : CascadeMCInfo :=
    if lblMotherNegV0Dghter > -1 then
      { s1 with
        fTreeCascVarPIDNegativeMother := (stack.Particle lblMotherNegV0Dghter).PdgCode
        fTreeCascVarNegLabelMother := lblMotherNegV0Dghter }
    else s1
  if lblMotherBachelor > -1 then
    { s2 with
      fTreeCascVarPIDBachelorMother := (stack.Particle lblMotherBachelor).PdgCode
      fTreeCascVarBachLabelMother := lblMotherBachelor }
  else s2

/-- The nested conditionals "Rather uncivilized: Open brackets for each
'continue'" of the regular association, for the daughters of labels
`lblPosV0Dghter`, `lblNegV0Dghter` and the bachelor of label `lblBach`
(absolute values of the track labels).  The quotient of the rapidity is an
exact rational quotient. -/
def regularMCAssociation (m : TMath) (stack : AliStack)
    (lblPosV0Dghter lblNegV0Dghter lblBach : ℤ) (s : CascadeMCInfo) : CascadeMCInfo :=
  let mcPosV0Dghter := stack.Particle lblPosV0Dghter
  let mcNegV0Dghter := stack.Particle lblNegV0Dghter
  let mcBach := stack.Particle lblBach
  let lblMotherPosV0Dghter := mcPosV0Dghter.FirstMother
  let lblMotherNegV0Dghter := mcNegV0Dghter.FirstMother
  if ¬ (lblMotherPosV0Dghter ≠ lblMotherNegV0Dghter) then
    if ¬ (lblMotherPosV0Dghter < 0) then
      if ¬ (lblMotherNegV0Dghter < 0) then
        let mcMotherPosV0Dghter := stack.Particle lblMotherPosV0Dghter
        let mcMotherNegV0Dghter := stack.Particle lblMotherNegV0Dghter
        let lblGdMotherPosV0Dghter := mcMotherPosV0Dghter.FirstMother
        let lblGdMotherNegV0Dghter := mcMotherNegV0Dghter.FirstMother
        if ¬ (lblGdMotherPosV0Dghter ≠ lblGdMotherNegV0Dghter) then
          if ¬ (lblGdMotherPosV0Dghter < 0) then
            if ¬ (lblGdMotherNegV0Dghter < 0) then
              let mcGdMotherPosV0Dghter := stack.Particle lblGdMotherPosV0Dghter
              let mcGdMotherNegV0Dghter := stack.Particle lblGdMotherNegV0Dghter
              let lblMotherBach := |mcBach.FirstMother|
              if ¬ (lblMotherBach ≠ lblGdMotherPosV0Dghter) then
                let mcMotherBach := stack.Particle lblMotherBach
                let lPID_BachMother := mcMotherBach.PdgCode
                let lPID_NegMother := mcGdMotherPosV0Dghter.PdgCode
                let lPID_PosMother := mcGdMotherNegV0Dghter.PdgCode
                if lPID_BachMother = lPID_NegMother ∧ lPID_BachMother = lPID_PosMother then
                  let s1 : CascadeMCInfo :=
                    { s with
                      lPDGCodeCascade := lPID_BachMother
                      lXiTransvMomMC := mcMotherBach.Pt
                      fTreeCascVarIsPhysicalPrimary :=
                        primaryStatus stack lblMotherBach s.fTreeCascVarIsPhysicalPrimary }
                  if (mcMotherBach.Energy + mcMotherBach.Pz) /
                      (mcMotherBach.Energy - mcMotherBach.Pz + 1/10000000000000) ≠ 0 then
                    { s1 with
                      lRapMC :=
                        1/2 * m.Log ((mcMotherBach.Energy + mcMotherBach.Pz) /
                          (mcMotherBach.Energy - mcMotherBach.Pz + 1/10000000000000)) }
                  else s1
                else s
              else s
            else s
          else s
        else s
      else s
    else s
  else s

/-- The block "Swapped MC ASSOCIATION": the value of `lPDGCodeCascadeSwapped`
when it ends, for the reconstructed charge `lChargeXi` and the labels of the
regular association. -/
def swappedPDGCode (stack : AliStack) (lChargeXi : ℤ)
    (lblPosV0Dghter lblNegV0Dghter lblBach : ℤ) : ℤ :=
  -- Here's where it all happens: please swap stuff around
  let lblPosV0DghterSwapped := if lChargeXi < 0 then lblPosV0Dghter else lblBach
  let lblNegV0DghterSwapped := if lChargeXi < 0 then lblBach else lblNegV0Dghter
  let lblBachSwapped := if lChargeXi < 0 then lblNegV0Dghter else lblPosV0Dghter
  let mcPosV0DghterSwapped := stack.Particle lblPosV0DghterSwapped
  let mcNegV0DghterSwapped := stack.Particle lblNegV0DghterSwapped
  let mcBachSwapped := stack.Particle lblBachSwapped
  let lblMotherPosV0DghterSwapped := mcPosV0DghterSwapped.FirstMother
  let lblMotherNegV0DghterSwapped := mcNegV0DghterSwapped.FirstMother
  if ¬ (lblMotherPosV0DghterSwapped ≠ lblMotherNegV0DghterSwapped) then
    if ¬ (lblMotherPosV0DghterSwapped < 0) then
      if ¬ (lblMotherNegV0DghterSwapped < 0) then
        let mcMotherPosV0DghterSwapped := stack.Particle lblMotherPosV0DghterSwapped
        let mcMotherNegV0DghterSwapped := stack.Particle lblMotherNegV0DghterSwapped
        let lblGdMotherPosV0DghterSwapped := mcMotherPosV0DghterSwapped.FirstMother
        let lblGdMotherNegV0DghterSwapped := mcMotherNegV0DghterSwapped.FirstMother
        if ¬ (lblGdMotherPosV0DghterSwapped ≠ lblGdMotherNegV0DghterSwapped) then
          if ¬ (lblGdMotherPosV0DghterSwapped < 0) then
            if ¬ (lblGdMotherNegV0DghterSwapped < 0) then
              let mcGdMotherPosV0DghterSwapped := stack.Particle lblGdMotherPosV0DghterSwapped
              let mcGdMotherNegV0DghterSwapped := stack.Particle lblGdMotherNegV0DghterSwapped
              let lblMotherBachSwapped := |mcBachSwapped.FirstMother|
              if ¬ (lblMotherBachSwapped ≠ lblGdMotherPosV0DghterSwapped) then
                let mcMotherBachSwapped := stack.Particle lblMotherBachSwapped
                let lPID_BachMotherSwapped := mcMotherBachSwapped.PdgCode
                let lPID_NegMotherSwapped := mcGdMotherPosV0DghterSwapped.PdgCode
                let lPID_PosMotherSwapped := mcGdMotherNegV0DghterSwapped.PdgCode
                if lPID_BachMotherSwapped = lPID_NegMotherSwapped ∧
                    lPID_BachMotherSwapped = lPID_PosMotherSwapped then
                  lPID_BachMotherSwapped
                else 0
              else 0
            else 0
          else 0
        else 0
      else 0
    else 0
  else 0

/-- The swapped association as a step on the association variables: it
assigns `lPDGCodeCascadeSwapped`. -/
def swappedMCAssociation (stack : AliStack) (lChargeXi : ℤ)
    (lblPosV0Dghter lblNegV0Dghter lblBach : ℤ) (s : CascadeMCInfo) : CascadeMCInfo :=
  { s with
    lPDGCodeCascadeSwapped :=
      swappedPDGCode stack lChargeXi lblPosV0Dghter lblNegV0Dghter lblBach }

/-- The Monte Carlo association of one cascade candidate in source order:
initial values, mother information, regular association, swapped
association.  `posLabel`, `negLabel` and `bachLabel` are the `GetLabel()` of
the three tracks. -/
def cascadeMCAssociation (m : TMath) (stack : AliStack) (lChargeXi : ℤ)
    (posLabel negLabel bachLabel : ℤ) : CascadeMCInfo :=
  let lblPosV0Dghter := |posLabel|
  let lblNegV0Dghter := |negLabel|
  let lblBach := |bachLabel|
  swappedMCAssociation stack lChargeXi lblPosV0Dghter lblNegV0Dghter lblBach
    (regularMCAssociation m stack lblPosV0Dghter lblNegV0Dghter lblBach
      (cascadeMotherInfo stack lblPosV0Dghter lblNegV0Dghter lblBach cascadeMCInit))

/-! ## Sibling tagging -/

/-- The variables of the matching V0 copied to the sibling tree variables
(`f...SibPt`, `f...SibDcaV0ToPrimVertex`, `f...SibDcaV0Daughters`,
`f...SibV0CosineOfPointingAngle`, `f...SibV0V0Radius`,
`f...SibV0DcaPosToPrimVertex`, `f...SibV0DcaNegToPrimVertex` and the three
invariant masses). -/
structure SibVars where
  Pt : ℚ
  DcaV0ToPrimVertex : ℚ
  DcaV0Daughters : ℚ
  V0CosineOfPointingAngle : ℚ
  V0Radius : ℚ
  DcaPosToPrimVertex : ℚ
  DcaNegToPrimVertex : ℚ
  InvMassK0s : ℚ
  InvMassLambda : ℚ
  InvMassAntiLambda : ℚ
deriving DecidableEq, Repr

/-- What a sibling loop reads of one entry `GetV0(lV0)` of the event's V0
array, after `CheckChargeV0`: whether the entry is null, the charges of its
two track parameters, whether one of the daughter tracks could not be
retrieved, the `GetLabel()` of the daughter tracks, their `kTPCrefit` status
bits, `GetTPCClusterInfo(2,1)`, the ratios crossed rows over findable
clusters, `GetInnerParam()` and `GetLengthInActiveZone(...)`, and the
variables copied on success. -/
structure SibV0 where
  isNull : Bool
  chargeN : ℤ
  chargeP : ℤ
  trackMissing : Bool
  labelP : ℤ
  labelN : ℤ
  tpcRefitP : Bool
  tpcRefitN : Bool
  crossedRowsP : ℚ
  crossedRowsN : ℚ
  crossedRowsOverFindableP : ℚ
  crossedRowsOverFindableN : ℚ
  hasInnerParamP : Bool
  hasInnerParamN : Bool
  lengthInActiveZoneP : ℚ
  lengthInActiveZoneN : ℚ
  vars : SibVars

/-- The validity flag `fTreeCascVarV0...SibIsValid` and the sibling tree
variables of one of the three daughters. -/
structure SibInfo where
  IsValid : ℤ
  vars : SibVars
deriving DecidableEq, Repr

/-- The values before the sibling blocks: flag -1, every variable -1. -/
def sibInit : SibInfo :=
  { IsValid := -1, vars := ⟨-1, -1, -1, -1, -1, -1, -1, -1, -1, -1⟩ }

/-- The body of `for (Int_t lV0 = 0; lV0 < nv0s; lV0++)` of a sibling block
for the daughter of label `lblTrack` and mother label `lblMotherTrack`; every
`continue` leaves the variables as they are. -/
def sibStep (stack : AliStack) (lblTrack lblMotherTrack : ℤ) (s : SibInfo) (v : SibV0) :
    SibInfo :=
  if v.isNull then s
  -- Remove like-sign
  else if v.chargeN > 0 ∧ v.chargeP > 0 then s
  else if v.chargeN < 0 ∧ v.chargeP < 0 then s
  else if v.trackMissing then s
  else
    let lblSibV0P := |v.labelP|
    let lblSibV0N := |v.labelN|
    -- Testing if the daughter belongs to this V0
    let lblSib0 : ℤ := -9999
    let lblSib1 := if lblTrack = lblSibV0P then lblSibV0N else lblSib0
    let lblSib := if lblTrack = lblSibV0N then lblSibV0P else lblSib1
    if lblSib = -9999 then s
    else
      let lblSibMother := (stack.Particle lblSib).FirstMother
      if lblSibMother ≠ lblMotherTrack then s
      -- TPC refit condition
      else if !v.tpcRefitP then s
      else if !v.tpcRefitN then s
      else
        let lRatio0 := v.crossedRowsOverFindableP
        let lSibV0LeastRatioCrossedRowsOverFindable :=
          if v.crossedRowsOverFindableN < lRatio0 then v.crossedRowsOverFindableN else lRatio0
        if lSibV0LeastRatioCrossedRowsOverFindable < 8/10 then s
        else
          let lPosTrackLength : ℚ := if v.hasInnerParamP then v.lengthInActiveZoneP else -1
          let lNegTrackLength : ℚ := if v.hasInnerParamN then v.lengthInActiveZoneN else -1
          let l0 : ℚ := 1000
          let l1 := if lPosTrackLength < l0 then lPosTrackLength else l0
          let lSmallestTrackLength := if lNegTrackLength < l1 then lNegTrackLength else l1
          if (v.crossedRowsP < 70 ∨ v.crossedRowsN < 70) ∧ lSmallestTrackLength < 80 then s
          else { IsValid := 1, vars := v.vars }

/-- One sibling block: `if( TMath::Abs(pidMother) == 310 )` the flag is set
to 0 and the V0 array `v0s` is scanned; otherwise nothing is written. -/
def sibTag (stack : AliStack) (pidMother lblTrack lblMotherTrack : ℤ) (v0s : List SibV0) :
    SibInfo :=
  if |pidMother| = 310 then
    v0s.foldl (sibStep stack lblTrack lblMotherTrack) { sibInit with IsValid := 0 }
  else sibInit

/-- The bachelor block (`fTreeCascVarPIDBachelorMother`, `lblBach`,
`lblMotherBachelor`). -/
def bachSibTag (stack : AliStack) (info : CascadeMCInfo) (lblBach : ℤ) (v0s : List SibV0) :
    SibInfo :=
  sibTag stack info.fTreeCascVarPIDBachelorMother lblBach
    (stack.Particle lblBach).FirstMother v0s

/-- The negative-daughter block (`fTreeCascVarPIDNegativeMother`,
`lblNegV0Dghter`, `lblMotherNegV0Dghter`). -/
def negSibTag (stack : AliStack) (info : CascadeMCInfo) (lblNegV0Dghter : ℤ)
    (v0s : List SibV0) : SibInfo :=
  sibTag stack info.fTreeCascVarPIDNegativeMother lblNegV0Dghter
    (stack.Particle lblNegV0Dghter).FirstMother v0s

/-- The positive-daughter block (`fTreeCascVarPIDPositiveMother`,
`lblPosV0Dghter`, `lblMotherPosV0Dghter`). -/
def posSibTag (stack : AliStack) (info : CascadeMCInfo) (lblPosV0Dghter : ℤ)
    (v0s : List SibV0) : SibInfo :=
  sibTag stack info.fTreeCascVarPIDPositiveMother lblPosV0Dghter
    (stack.Particle lblPosV0Dghter).FirstMother v0s

/-! ## Tree output, random denial and the processing of candidates -/

/-- The task members read by the blocks "Fill Tree!" of the two loops. -/
structure TreeSettings where
  fkSaveV0Tree : Bool
  fkDownScaleV0 : Bool
  fDownScaleFactorV0 : ℚ
  fkSaveCascadeTree : Bool
  fkDownScaleCascade : Bool
  fDownScaleFactorCascade : ℚ
  fMinPtToSave : ℚ
  fMaxPtToSave : ℚ
  fkPreselectDedx : Bool
  fkPreselectPID : Bool
  fkExtraCleanup : Bool

/-- The local `lKeepV0` after the statement "Random denial", `u` being the
value `fRand->Uniform()` returns. -/
def lKeepV0 (f : TreeSettings) (u : ℚ) : Bool :=
  if f.fkDownScaleV0 && decide (u > f.fDownScaleFactorV0) then false else true

/-- The conditions around the V0 tree fill that come before the random
denial: "First Selection: Reject OnFly" and the mass windows of the "Second
Selection" with the optional dE/dx and PID pre-selections. -/
def v0TreePreselection (m : TMath) (f : TreeSettings) (c : V0Candidate) : Bool :=
  let lUpperLimitK0Short : ℚ := 563707/1000000 + 114979/10000000 * c.fTreeVariablePt
  let lLowerLimitK0Short : ℚ := 430006/1000000 - 110029/10000000 * c.fTreeVariablePt
  let lUpperLimitLambda : ℚ :=
    113688/100000 + 527838/100000000 * c.fTreeVariablePt +
      842220/10000000 * m.Exp (-(380595/100000) * c.fTreeVariablePt)
  let lLowerLimitLambda : ℚ :=
    109501/100000 - 523272/100000000 * c.fTreeVariablePt -
      752690/10000000 * m.Exp (-(346339/100000) * c.fTreeVariablePt)
  (c.lOnFlyStatus == 0) &&
  ((decide (c.fTreeVariableInvMassLambda < lUpperLimitLambda) &&
      decide (c.fTreeVariableInvMassLambda > lLowerLimitLambda) &&
      (!f.fkPreselectDedx ||
        (f.fkPreselectDedx && decide (|c.fTreeVariableNSigmasPosProton| < 7) &&
          decide (|c.fTreeVariableNSigmasNegPion| < 7))) &&
      (!f.fkPreselectPID || decide (c.fTreeVariablePID = 3122))) ||
    (decide (c.fTreeVariableInvMassAntiLambda < lUpperLimitLambda) &&
      decide (c.fTreeVariableInvMassAntiLambda > lLowerLimitLambda) &&
      (!f.fkPreselectDedx ||
        (f.fkPreselectDedx && decide (|c.fTreeVariableNSigmasNegProton| < 7) &&
          decide (|c.fTreeVariableNSigmasPosPion| < 7))) &&
      (!f.fkPreselectPID || decide (c.fTreeVariablePID = -3122))) ||
    (decide (c.fTreeVariableInvMassK0s < lUpperLimitK0Short) &&
      decide (c.fTreeVariableInvMassK0s > lLowerLimitK0Short) &&
      (!f.fkPreselectDedx ||
        (f.fkPreselectDedx && decide (|c.fTreeVariableNSigmasNegPion| < 7) &&
          decide (|c.fTreeVariableNSigmasPosPion| < 7))) &&
      (!f.fkPreselectPID || decide (c.fTreeVariablePID = 310))))

/-- Whether `fTreeV0->Fill()` is reached for the candidate. -/
def v0TreeFilled (m : TMath) (f : TreeSettings) (u : ℚ) (c : V0Candidate) : Bool :=
  v0TreePreselection m f c &&
  (decide (|c.fTreeVariableNegEta| < 8/10) && decide (|c.fTreeVariablePosEta| < 8/10) &&
    f.fkSaveV0Tree && lKeepV0 f u)

/-- The state written by the V0 loop body after the candidate's variables
are set: the tree (the records filled so far) and the result objects. -/
structure V0Output where
  tree : List V0Candidate
  heap : V0Heap

/-- The part of the V0 loop body from "Fill Tree!" to the end of the
"Superlight adaptive output mode". -/
def processV0Candidate (m : TMath) (f : TreeSettings) (fListV0 : List ℕ) (u : ℚ)
    (c : V0Candidate) (out : V0Output) : V0Output :=
  { tree := if v0TreeFilled m f u c then out.tree ++ [c] else out.tree
    heap := loopV0 m c out.heap fListV0 }

/-- The local `lKeepCascade` after the statement "Random denial", `u` being
the value `fRand->Uniform()` returns. -/
def lKeepCascadeRandom (f : TreeSettings) (u : ℚ) : Bool :=
  if f.fkDownScaleCascade && decide (u > f.fDownScaleFactorCascade) then false else true

/-- The local `lKeepCascade` after the two statements "Lowest pT cutoff". -/
def lKeepCascade (f : TreeSettings) (u : ℚ) (c : CascadeCandidate) : Bool :=
  let k1 := lKeepCascadeRandom f u
  let k2 := if c.fTreeCascVarPt < f.fMinPtToSave then false else k1
  if c.fTreeCascVarPt > f.fMaxPtToSave then false else k2

/-- Whether `fTreeCascade->Fill()` is reached for the candidate. -/
def cascadeTreeFilled (f : TreeSettings) (u : ℚ) (c : CascadeCandidate) : Bool :=
  f.fkSaveCascadeTree && lKeepCascade f u c &&
  ((decide (c.fTreeCascVarMassAsXi < 132/100 + 75/1000) &&
      decide (c.fTreeCascVarMassAsXi > 132/100 - 75/1000) &&
      (!f.fkPreselectPID || decide (|c.fTreeCascVarPID| = 3312))) ||
    (decide (c.fTreeCascVarMassAsOmega < 168/100 + 75/1000) &&
      decide (c.fTreeCascVarMassAsOmega > 168/100 - 75/1000) &&
      (!f.fkPreselectPID || decide (|c.fTreeCascVarPID| = 3334))))

/-- The block `if ( fkExtraCleanup ){ ... continue; ... }`: whether the
candidate is dropped before the tree fill and the configuration loop. -/
def cascadeExtraCleanupSkips (f : TreeSettings) (c : CascadeCandidate) : Bool :=
  f.fkExtraCleanup &&
  ((decide (|c.fTreeCascVarPosEta| > 8/10) || decide (|c.fTreeCascVarNegEta| > 8/10) ||
      decide (|c.fTreeCascVarBachEta| > 8/10)) ||
    (decide (|c.fTreeCascVarRapXi| > 1/2) && decide (|c.fTreeCascVarRapOmega| > 1/2)) ||
    (f.fkPreselectDedx &&
      !((decide (c.fTreeCascVarMassAsXi < 132/100 + 250/1000) &&
            decide (c.fTreeCascVarMassAsXi > 132/100 - 250/1000) &&
            decide (|c.fTreeCascVarPosNSigmaProton| < 5) &&
            decide (|c.fTreeCascVarNegNSigmaPion| < 5) &&
            decide (|c.fTreeCascVarBachNSigmaPion| < 5) &&
            decide (c.fTreeCascVarCharge = -1)) ||
          (decide (c.fTreeCascVarMassAsXi < 132/100 + 250/1000) &&
            decide (c.fTreeCascVarMassAsXi > 132/100 - 250/1000) &&
            decide (|c.fTreeCascVarPosNSigmaPion| < 5) &&
            decide (|c.fTreeCascVarNegNSigmaProton| < 5) &&
            decide (|c.fTreeCascVarBachNSigmaPion| < 5) &&
            decide (c.fTreeCascVarCharge = 1)) ||
          (decide (c.fTreeCascVarMassAsOmega < 168/100 + 250/1000) &&
            decide (c.fTreeCascVarMassAsOmega > 168/100 - 250/1000) &&
            decide (|c.fTreeCascVarPosNSigmaProton| < 5) &&
            decide (|c.fTreeCascVarNegNSigmaPion| < 5) &&
            decide (|c.fTreeCascVarBachNSigmaKaon| < 5) &&
            decide (c.fTreeCascVarCharge = -1)) ||
          (decide (c.fTreeCascVarMassAsOmega < 168/100 + 250/1000) &&
            decide (c.fTreeCascVarMassAsOmega > 168/100 - 250/1000) &&
            decide (|c.fTreeCascVarPosNSigmaPion| < 5) &&
            decide (|c.fTreeCascVarNegNSigmaProton| < 5) &&
            decide (|c.fTreeCascVarBachNSigmaKaon| < 5) &&
            decide (c.fTreeCascVarCharge = 1)))))

/-- The state written by the cascade loop body after the candidate's
variables are set. -/
structure CascadeOutput where
  tree : List CascadeCandidate
  heap : CascadeHeap

/-- The part of the cascade loop body from the extra cleanup to the end of
the "Superlight adaptive output mode". -/
def processCascadeCandidate (m : TMath) (t : CascadeTask) (f : TreeSettings)
    (fListCascade : List ℕ) (u : ℚ) (c : CascadeCandidate) (out : CascadeOutput) :
    CascadeOutput :=
  if cascadeExtraCleanupSkips f c then out
  else
    { tree := if cascadeTreeFilled f u c then out.tree ++ [c] else out.tree
      heap := loopCascade m t c out.heap fListCascade }

/-- The V0 configuration loops of a sequence of candidates, in order. -/
def processV0s (m : TMath) (cands : List V0Candidate) (heap : V0Heap) (fListV0 : List ℕ) :
    V0Heap :=
  cands.foldl (fun h c => loopV0 m c h fListV0) heap

/-- The cascade configuration loops of a sequence of candidates, in order. -/
def processCascades (m : TMath) (t : CascadeTask) (cands : List CascadeCandidate)
    (heap : CascadeHeap) (fListCascade : List ℕ) : CascadeHeap :=
  cands.foldl (fun h c => loopCascade m t c h fListCascade) heap

/-! ## Configuration builders -/

/-- The array `lMassHypoV0` of `AddTopologicalQAV0` (indices 0, 1, 2). -/
def lMassHypoV0 (i : ℕ) : V0MassHypo :=
  if i = 0 then V0MassHypo.kK0Short
  else if i = 1 then V0MassHypo.kLambda
  else V0MassHypo.kAntiLambda

/-- The array `lLifetimeCut` of `AddTopologicalQAV0` (indices 0, 1, 2). -/
def lLifetimeCut (i : ℕ) : ℚ := if i = 0 then 20 else 30

/-- The cut values of the result `<particle>_Central` created by the loop
"Central results" of `AddTopologicalQAV0` for the index `i`: the values `d`
that the `AliV0Result` constructor gives a new object (the class is declared
outside these sources), then the mass hypothesis `lMassHypoV0[i]` and the
nine setters of the loop body. -/
def topologicalQACentralV0 (d : V0Cuts) (i : ℕ) : V0Cuts :=
  { d with
    MassHypothesis := lMassHypoV0 i
    CutDCANegToPV := 5/100
    CutDCAPosToPV := 5/100
    CutDCAV0Daughters := 12/10
    CutV0CosPA := 98/100
    CutV0Radius := 9/10
    CutProperLifetime := lLifetimeCut i
    CutLeastNumberOfCrossedRows := 70
    CutLeastNumberOfCrossedRowsOverFindable := 8/10
    CutTPCdEdx := 4 }

/-- The array `lMeanLifetime` of `AddStandardV0Configuration`. -/
def lMeanLifetime (i : ℕ) : ℚ := if i = 0 then 26844/10000 else 789/100

/-- The array `lCutsTight[i][j]` of `AddStandardV0Configuration`
(twelve entries per species). -/
def lCutsTight (i j : ℕ) : ℚ :=
  match j with
  | 0 => 1/10
  | 1 => 1/10
  | 2 => 1
  | 3 => 998/1000
  | 4 => 5
  | 5 => 3 * lMeanLifetime i
  | 6 => -1
  | 7 => -1/100
  | 8 => 8
  | 9 => 2/10
  | 10 => 100
  | 11 => 70
  | _ => 0

/-- The cut values of the result `<particle>_276Cuts` created by the loop
"2.76 TeV analysis cuts" of `AddStandardV0Configuration` for the index `i`:
a copy of the cut values `central` of `lV0Result[i]` (the copying constructor
of `AliV0Result` is declared outside these sources), then the setters of the
loop body, each writing the cut of its name. -/
def standardV0_276Cuts (central : V0Cuts) (i : ℕ) : V0Cuts :=
  { central with
    CutDCANegToPV := lCutsTight i 0
    CutDCAPosToPV := lCutsTight i 1
    CutDCAV0Daughters := lCutsTight i 2
    CutV0CosPA := lCutsTight i 3
    CutUseVarV0CosPA := false
    CutV0Radius := lCutsTight i 4
    CutMaxV0Radius := lCutsTight i 10
    CutProperLifetime := lCutsTight i 5
    CutLeastNumberOfCrossedRows := lCutsTight i 11
    CutMinTrackLength := lCutsTight i 6
    CutLeastNumberOfCrossedRowsOverFindable := lCutsTight i 7
    CutTPCdEdx := 1000000
    Cut276TeVLikedEdx := true
    CutArmenterosParameter := lCutsTight i 9 }

/-! ## Concrete values used to instantiate the theorems -/

/-- A computable instance of the `TMath` interface: low-order polynomials
with `Exp 0 = 1` and `Cos 0 = 1`. -/
def polyTMath : TMath :=
  { Cos := fun x => 1 - x * x / 2
    Exp := fun x => 1 + x
    Sqrt := fun x => (1 + x) / 2
    ATan := fun x => x
    Log := fun x => x - 1 }

/-- A set of V0 cut values with wide acceptance windows and every optional
requirement switched off. -/
def wideV0Cuts : V0Cuts :=
  { MassHypothesis := V0MassHypo.kK0Short
    UseOnTheFly := false
    CutMinEtaTracks := -8/10
    CutMaxEtaTracks := 8/10
    CutMinRapidity := -1/2
    CutMaxRapidity := 1/2
    CutV0Radius := 5
    CutMaxV0Radius := 200
    CutDCANegToPV := 1/10
    CutDCAPosToPV := 1/10
    CutDCAV0Daughters := 1
    CutV0CosPA := 998/1000
    CutUseVarV0CosPA := false
    CutVarV0CosPAExp0Const := 0
    CutVarV0CosPAExp0Slope := 0
    CutVarV0CosPAExp1Const := 0
    CutVarV0CosPAExp1Slope := 0
    CutVarV0CosPAConst := 0
    CutProperLifetime := 10
    CutLeastNumberOfCrossedRows := 70
    CutLeastNumberOfCrossedRowsOverFindable := 8/10
    CutMinBaryonMomentum := -1
    CutTPCdEdx := 3
    CutArmenteros := false
    CutArmenterosParameter := 2/10
    CutUseITSRefitTracks := false
    CutMaxChi2PerCluster := 100000
    CutMinTrackLength := -1
    Cut276TeVLikedEdx := false
    CutMCPhysicalPrimary := false
    CutMCLambdaFromPrimaryXi := false
    CutMCPDGCodeAssociation := false
    CutMCUseMCProperties := false }

/-- A V0 candidate passing the checks of `topologicalQACentralV0 wideV0Cuts 1`:
cosine of pointing angle 0.999, radius 5.0, every n-sigma 1.0. -/
def sampleV0 : V0Candidate :=
  { fCentrality := 5
    lOnFlyStatus := 0
    lThisPosInnerPt := 1
    lThisNegInnerPt := 1/2
    lMCTransvMomPos := 1
    lMCTransvMomNeg := 1/2
    fTreeVariablePt := 3/2
    fTreeVariablePtMC := 16/10
    fTreeVariablePtMother := 2
    fTreeVariableRapK0Short := 1/10
    fTreeVariableRapLambda := 1/10
    fTreeVariableRapMC := 2/10
    fTreeVariableInvMassK0s := 1/2
    fTreeVariableInvMassLambda := 1116/1000
    fTreeVariableInvMassAntiLambda := 12/10
    fTreeVariableNegEta := 1/10
    fTreeVariablePosEta := -1/10
    fTreeVariableV0Radius := 5
    fTreeVariableDcaNegToPrimVertex := 3/10
    fTreeVariableDcaPosToPrimVertex := 2/10
    fTreeVariableDcaV0Daughters := 1/2
    fTreeVariableV0CosineOfPointingAngle := 999/1000
    fTreeVariableDistOverTotMom := 4
    fTreeVariableLeastNbrCrossedRows := 100
    fTreeVariableLeastRatioCrossedRowsOverFindable := 9/10
    fTreeVariablePosInnerP := 1
    fTreeVariableNegInnerP := 1/2
    fTreeVariableNSigmasPosProton := 1
    fTreeVariableNSigmasPosPion := 1
    fTreeVariableNSigmasNegProton := 1
    fTreeVariableNSigmasNegPion := 1
    fTreeVariablePtArmV0 := 1/10
    fTreeVariableAlphaV0 := 1/2
    fTreeVariableNegTrackStatus := 4
    fTreeVariablePosTrackStatus := 4
    fTreeVariableMaxChi2PerCluster := 2
    fTreeVariableMinTrackLength := 100
    fTreeVariablePID := 3122
    fTreeVariablePIDMother := 3312
    fTreeVariablePrimaryStatus := 1
    fTreeVariablePrimaryStatusMother := 1 }

/-- The task members as the constructor sets them: `fLambdaMassMean` is
`{1.116, 0, 0, 0, 0}` and `fLambdaMassSigma` is `{0.002, 0, 0, 0}`. -/
def standardCascadeTask : CascadeTask :=
  { fLambdaMassMean := fun i => if i = 0 then 1116/1000 else 0
    fLambdaMassSigma := fun i => if i = 0 then 2/1000 else 0 }

/-- A set of cascade cut values for the OmegaMinus hypothesis with every
optional requirement switched off and every sentinel configured. -/
def wideCascadeCuts : CascadeCuts :=
  { MassHypothesis := CascadeMassHypo.kOmegaMinus
    CutMinEtaTracks := -8/10
    CutMaxEtaTracks := 8/10
    CutMinRapidity := -1/2
    CutMaxRapidity := 1/2
    CutDCANegToPV := 1/10
    CutDCAPosToPV := 1/10
    CutDCAV0Daughters := 1
    CutV0CosPA := 95/100
    CutUseVarV0CosPA := false
    CutVarV0CosPA := ⟨0, 0, 0, 0, 0⟩
    CutV0Radius := 3
    CutDCAV0ToPV := 1/10
    CutV0Mass := 5/1000
    CutDCABachToPV := 3/100
    CutDCACascDaughters := 1
    CutUseVarDCACascDau := false
    CutVarDCACascDau := ⟨0, 0, 0, 0, 0⟩
    CutCascCosPA := 95/100
    CutUseVarCascCosPA := false
    CutVarCascCosPA := ⟨0, 0, 0, 0, 0⟩
    CutCascRadius := 4/10
    CutV0MassSigma := 1000
    CutProperLifetime := 1000
    CutLeastNumberOfClusters := 70
    CutMCPhysicalPrimary := false
    CutMCPDGCodeAssociation := false
    CutMCUseMCProperties := false
    CutMCSelectBump := false
    CutTPCdEdx := 4
    CutXiRejection := 8/1000
    CutDCABachToBaryon := -1
    CutBachBaryonCosPA := 100
    CutUseVarBBCosPA := false
    CutVarBBCosPA := ⟨0, 0, 0, 0, 0⟩
    CutMinV0Lifetime := -2
    CutMaxV0Lifetime := 1000000
    CutUseITSRefitTracks := false
    CutMaxChi2PerCluster := 100000
    CutMinTrackLength := -1
    CutUse276TeVV0CosPA := false
    CutDCACascadeToPV := 1000
    CutDCANegToPVWeighted := -1
    CutDCAPosToPVWeighted := -1
    CutDCABachToPVWeighted := -1 }

/-- A negative cascade candidate passing every check of `wideCascadeCuts`;
its mass under the Xi hypothesis, 1.35, is more than 0.008 away from
1.32171. -/
def sampleCascade : CascadeCandidate :=
  { fCentrality := 5
    lV0Pt := 1
    lV0TotMomentum := 2
    fTreeCascVarCharge := -1
    fTreeCascVarPt := 2
    fTreeCascVarPtMC := 21/10
    fTreeCascVarRapXi := 1/10
    fTreeCascVarRapOmega := 1/10
    fTreeCascVarRapMC := 2/10
    fTreeCascVarMassAsXi := 135/100
    fTreeCascVarMassAsOmega := 1672/1000
    fTreeCascVarPosEta := 1/10
    fTreeCascVarNegEta := -1/10
    fTreeCascVarBachEta := 2/10
    fTreeCascVarDCANegToPrimVtx := 3/10
    fTreeCascVarDCAPosToPrimVtx := 2/10
    fTreeCascVarDCAV0Daughters := 1/2
    fTreeCascVarV0CosPointingAngle := 999/1000
    fTreeCascVarV0Radius := 5
    fTreeCascVarDCAV0ToPrimVtx := 2/10
    fTreeCascVarV0Mass := 1116/1000
    fTreeCascVarDCABachToPrimVtx := 1/10
    fTreeCascVarDCACascDaughters := 1/2
    fTreeCascVarCascCosPointingAngle := 99/100
    fTreeCascVarCascRadius := 1
    fTreeCascVarDistOverTotMom := 2
    fTreeCascVarLeastNbrClusters := 80
    fTreeCascVarIsPhysicalPrimary := 1
    fTreeCascVarPID := 3334
    fTreeCascVarNegNSigmaPion := 1
    fTreeCascVarNegNSigmaProton := 1
    fTreeCascVarPosNSigmaPion := 1
    fTreeCascVarPosNSigmaProton := 1
    fTreeCascVarBachNSigmaPion := 1
    fTreeCascVarBachNSigmaKaon := 1
    fTreeCascVarDCABachToBaryon := 1/10
    fTreeCascVarWrongCosPA := 1/2
    fTreeCascVarV0Lifetime := 5
    fTreeCascVarPosTrackStatus := 4
    fTreeCascVarNegTrackStatus := 4
    fTreeCascVarBachTrackStatus := 4
    fTreeCascVarMaxChi2PerCluster := 2
    fTreeCascVarMinTrackLength := 100
    fTreeCascVarPosLabelMother := 7
    fTreeCascVarNegLabelMother := 7
    fTreeCascVarBachLabelMother := 3
    fTreeCascVarPIDBachelorMother := 3334
    fTreeCascVarCascDCAtoPVz := 1/10
    fTreeCascVarCascDCAtoPVxy := 1/10
    fTreeCascVarNegDCAPVSigmaX2 := 1/100
    fTreeCascVarNegDCAPVSigmaY2 := 1/100
    fTreeCascVarPosDCAPVSigmaX2 := 1/100
    fTreeCascVarPosDCAPVSigmaY2 := 1/100
    fTreeCascVarBachDCAPVSigmaX2 := 1/100
    fTreeCascVarBachDCAPVSigmaY2 := 1/100
    fTreeCascVarPosTransvMomentumMC := 1
    fTreeCascVarNegTransvMomentumMC := 1/2 }

/-- The Lambda `Central` cuts of `AddTopologicalQAV0` on `wideV0Cuts` with a
constant parametric pointing-angle cut (`c1 = c3 = 0`, `c4 = 1/2`) in use. -/
def varV0Cuts : V0Cuts :=
  { topologicalQACentralV0 wideV0Cuts 1 with
    CutUseVarV0CosPA := true
    CutVarV0CosPAConst := 1/2 }

/-- The cuts `wideCascadeCuts` with constant parametric cuts (`c1 = c3 = 0`)
in use for the V0 and cascade pointing angles and the cascade-daughter DCA. -/
def varCascadeCuts : CascadeCuts :=
  { wideCascadeCuts with
    CutUseVarV0CosPA := true
    CutVarV0CosPA := ⟨0, 0, 0, 0, 1/2⟩
    CutUseVarCascCosPA := true
    CutVarCascCosPA := ⟨0, 0, 0, 0, 1/2⟩
    CutUseVarDCACascDau := true
    CutVarDCACascDau := ⟨1/4, 0, 1/4, 0, 1/4⟩ }

/-- A particle of the sample stacks: code, mother label and transverse
momentum as given, rapidity 0, energy 2, longitudinal momentum 1. -/
def mkParticle (pdg mother : ℤ) (pt : ℚ) : TParticle :=
  { PdgCode := pdg, FirstMother := mother, Pt := pt, Y := 0, Energy := 2, Pz := 1 }

/-- A Monte Carlo stack with two decay chains.  Label 3 is a primary Xi-
(3312) decaying to the Lambda 5 and the pion 9; the Lambda 5 decays to the
proton 7 and the pion 8; the pion 10 is a further daughter of the Lambda 5.
Label 1 is a primary Xi- decaying to the Lambda 11, which decays to the
proton 12 and the pion 13; the pion 14 has no mother.  Label 20 is a K0s
(310) without mother decaying to the pions 21 and 22.  Every other label is
a particle of code 0 without mother. -/
def sampleStack : AliStack :=
  { Particle := fun l =>
      if l = 1 then mkParticle 3312 (-1) 3
      else if l = 3 then mkParticle 3312 (-1) 2
      else if l = 5 then mkParticle 3122 3 (3/2)
      else if l = 7 then mkParticle 2212 5 1
      else if l = 8 then mkParticle (-211) 5 (1/2)
      else if l = 9 then mkParticle (-211) 3 (1/2)
      else if l = 10 then mkParticle (-211) 5 (1/4)
      else if l = 11 then mkParticle 3122 1 (3/2)
      else if l = 12 then mkParticle 2212 11 1
      else if l = 13 then mkParticle (-211) 11 (1/2)
      else if l = 14 then mkParticle (-211) (-1) (1/2)
      else if l = 20 then mkParticle 310 (-1) 1
      else if l = 21 then mkParticle 211 20 (1/2)
      else if l = 22 then mkParticle (-211) 20 (1/2)
      else mkParticle 0 (-1) 0
    IsPhysicalPrimary := fun l => decide (l = 1 ∨ l = 3 ∨ l = 14 ∨ l = 20)
    IsSecondaryFromWeakDecay := fun l => decide (l = 5 ∨ l = 11)
    IsSecondaryFromMaterial := fun _ => false }

/-- An opposite-sign V0 of the event built from the tracks of labels 21
(positive) and 22 (negative), both of good quality. -/
def sampleSibV0 : SibV0 :=
  { isNull := false
    chargeN := -1
    chargeP := 1
    trackMissing := false
    labelP := 21
    labelN := 22
    tpcRefitP := true
    tpcRefitN := true
    crossedRowsP := 120
    crossedRowsN := 110
    crossedRowsOverFindableP := 95/100
    crossedRowsOverFindableN := 9/10
    hasInnerParamP := true
    hasInnerParamN := true
    lengthInActiveZoneP := 130
    lengthInActiveZoneN := 125
    vars := ⟨1, 1/10, 2/10, 999/1000, 5, 3/10, 4/10, 1/2, 11/10, 12/10⟩ }

/-- Tree settings with both trees saved, both downscalings enabled with
factor 1/10 and transverse momenta between 0 and 100 saved. -/
def sampleTreeSettings : TreeSettings :=
  { fkSaveV0Tree := true
    fkDownScaleV0 := true
    fDownScaleFactorV0 := 1/10
    fkSaveCascadeTree := true
    fkDownScaleCascade := true
    fDownScaleFactorCascade := 1/10
    fMinPtToSave := 0
    fMaxPtToSave := 100
    fkPreselectDedx := false
    fkPreselectPID := false
    fkExtraCleanup := false }

/-- A heap whose every address holds a result object with the Lambda
`Central` cuts of `AddTopologicalQAV0` on `wideV0Cuts`, an empty histogram, an
empty feed-down matrix and no profile. -/
def sampleV0Heap : V0Heap := fun _ =>
  { cuts := topologicalQACentralV0 wideV0Cuts 1
    fHisto := []
    fHistoFeeddown := some []
    fProtonProfile := none }

/-- A heap whose every address holds a result object with the cuts
`wideCascadeCuts`, an empty histogram and no profile. -/
def sampleCascadeHeap : CascadeHeap := fun _ =>
  { cuts := wideCascadeCuts, fHisto := [], fProtonProfile := none }

/-! ## Guarded divisions -/

/-- The local `lV0TotalMomentum` of the V0 loop, from the array `tV0mom`. -/
def lV0TotalMomentum (m : TMath) (tV0mom : ℕ → ℚ) : ℚ :=
  m.Sqrt (tV0mom 0 * tV0mom 0 + tV0mom 1 * tV0mom 1 + tV0mom 2 * tV0mom 2)

/-- The value of `fTreeVariableDistOverTotMom` after the statement
`fTreeVariableDistOverTotMom /= (lV0TotalMomentum+1e-10)`. -/
def fTreeVariableDistOverTotMom (m : TMath)
    (tDecayVertexV0 lBestPrimaryVtxPos tV0mom : ℕ → ℚ) : ℚ :=
  m.Sqrt ((tDecayVertexV0 0 - lBestPrimaryVtxPos 0) ^ 2 +
      (tDecayVertexV0 1 - lBestPrimaryVtxPos 1) ^ 2 +
      (tDecayVertexV0 2 - lBestPrimaryVtxPos 2) ^ 2) /
    (lV0TotalMomentum m tV0mom + 1/10000000000)

/-- The local `lXiTotMom` of the cascade loop. -/
def lXiTotMom (m : TMath) (lXiMomX lXiMomY lXiMomZ : ℚ) : ℚ :=
  m.Sqrt (lXiMomX * lXiMomX + lXiMomY * lXiMomY + lXiMomZ * lXiMomZ)

/-- The value of `fTreeCascVarDistOverTotMom` after the statement
`fTreeCascVarDistOverTotMom /= (lXiTotMom+1e-13)`. -/
def fTreeCascVarDistOverTotMom (m : TMath) (lPosXi lBestPrimaryVtxPos : ℕ → ℚ)
    (lXiMomX lXiMomY lXiMomZ : ℚ) : ℚ :=
  m.Sqrt ((lPosXi 0 - lBestPrimaryVtxPos 0) ^ 2 +
      (lPosXi 1 - lBestPrimaryVtxPos 1) ^ 2 +
      (lPosXi 2 - lBestPrimaryVtxPos 2) ^ 2) /
    (lXiTotMom m lXiMomX lXiMomY lXiMomZ + 1/10000000000000)

/-- The local `lV0DistanceTrav`: "3D Distance travelled by the V0 in the
cascade". -/
def lV0DistanceTrav (m : TMath) (lPosV0Xi lPosXi : ℕ → ℚ) : ℚ :=
  m.Sqrt ((lPosV0Xi 0 - lPosXi 0) ^ 2 + (lPosV0Xi 1 - lPosXi 1) ^ 2 +
    (lPosV0Xi 2 - lPosXi 2) ^ 2)

/-- The local `lV0TotMomentum` of the cascade loop: "Total V0 momentum". -/
def lV0TotMomentum (m : TMath) (lNMom lPMom : ℕ → ℚ) : ℚ :=
  m.Sqrt ((lNMom 0 + lPMom 0) ^ 2 + (lNMom 1 + lPMom 1) ^ 2 + (lNMom 2 + lPMom 2) ^ 2)

/-- The value given to `fTreeCascVarV0Lifetime` by the block "Calculate V0
lifetime: mL/p". -/
def fTreeCascVarV0Lifetime (m : TMath) (lPosV0Xi lPosXi lNMom lPMom : ℕ → ℚ) : ℚ :=
  if |lV0TotMomentum m lNMom lPMom| > 1/100000 then
    1115683/1000000 * lV0DistanceTrav m lPosV0Xi lPosXi / lV0TotMomentum m lNMom lPMom
  else -1

/-- `MyRapidity(rE, rPz)`: "Local calculation for rapidity". -/
def MyRapidity (m : TMath) (rE rPz : ℚ) : ℚ :=
  let ReturnValue : ℚ := -100
  if (rE - rPz + 1/10000000000000) ≠ 0 ∧ (rE + rPz) ≠ 0 then
    1/2 * m.Log ((rE + rPz) / (rE - rPz + 1/10000000000000))
  else ReturnValue

/-! ## AliNuclexEventCuts: the centrality getters -/

/-- `AliNuclexEventCuts::GetCentrality(unsigned int estimator)`: `::Fatal`
is the error of the result, `fCentPercentiles` the array member. -/
def GetCentrality (fCentPercentiles : ℕ → ℚ) (estimator : ℕ) : Except String ℚ :=
  if estimator > 1 then
    Except.error "AliNuclexEventCuts::GetCentrality"
  else
    Except.ok (fCentPercentiles estimator)

/-- `AliNuclexEventCuts::GetCentralityEstimator(unsigned int estimator)`:
`::Fatal` is the error of the result, `fCentEstimators` the array member. -/
def GetCentralityEstimator (fCentEstimators : ℕ → String) (estimator : ℕ) :
    Except String String :=
  if estimator > 1 then
    Except.error "AliNuclexEventCuts::GetCentralityEstimator"
  else
    Except.ok (fCentEstimators estimator)

/-- The initial value `fCentEstimators{"V0M","CL0"}` of the constructor. -/
def fCentEstimatorsInit (i : ℕ) : String :=
  if i = 0 then "V0M" else if i = 1 then "CL0" else ""

/-- The cuts `wideCascadeCuts` with the parametric bachelor-baryon pointing
angle cut in use: scalar value 1/4, parametric value `Cos 0`. -/
def varBBCascadeCuts : CascadeCuts :=
  { wideCascadeCuts with
    CutBachBaryonCosPA := 1/4
    CutUseVarBBCosPA := true
    CutVarBBCosPA := ⟨0, 0, 0, 0, 0⟩ }

/-! ## AddStandardV0Configuration: the one-by-one sweeps -/

/-- The values written into the array `lcutsV0` of `AddStandardV0Configuration`,
as `[species][conf]` rows of the ten selections in the order of `lCutNameV0`:
species K0Short, Lambda, AntiLambda; `conf` Loose, Central, Tight. -/
def lcutsV0Rows : List (List (List ℚ)) :=
  [ [ [5/100, 5/100, 95/100, 95/100, 450/100, 25, 80, 7/10, 4, 18/100],
      [10/100, 10/100, 8/10, 95/100, 500/100, 20, 90, 8/10, 3, 20/100],
      [17/100, 17/100, 7/10, 95/100, 550/100, 15, 100, 85/100, 25/10, 22/100] ],
    [ [10/100, 8/100, 1, 97/100, 400/100, 30, 80, 7/10, 4, 18/100],
      [25/100, 10/100, 8/10, 98/100, 500/100, 25, 90, 8/10, 3, 20/100],
      [40/100, 13/100, 65/100, 99/100, 600/100, 20, 100, 85/100, 25/10, 22/100] ],
    [ [8/100, 10/100, 1, 97/100, 400/100, 30, 80, 7/10, 4, 18/100],
      [10/100, 25/100, 8/10, 98/100, 500/100, 25, 90, 8/10, 3, 20/100],
      [13/100, 40/100, 65/100, 99/100, 600/100, 20, 100, 85/100, 25/10, 22/100] ] ]

/-- The array element `lcutsV0[i][conf][j]`. -/
def lcutsV0 (i conf j : ℕ) : ℚ :=
  ((lcutsV0Rows.getD i []).getD conf []).getD j 0

/-- The constant `lNCutsForSyst`. -/
def lNCutsForSyst : ℕ := 10

/-- The constant `lNCutsForSweep`. -/
def lNCutsForSweep : ℕ := 12

/-- The array `lCutsLoose[i][j]`: the Central column of `lcutsV0` for the
first `lNCutsForSyst` selections, then 200 and -1. -/
def lCutsLoose (i j : ℕ) : ℚ :=
  if j < lNCutsForSyst then lcutsV0 i 1 j
  else if j = 10 then 200
  else if j = 11 then -1
  else 0

/-- The condition of the statement `continue` under the comment "only
proceed if cuts are actually different", the same in the tightening and in
the loosening loop. -/
def sweepSkipped (i iCut : ℕ) : Bool :=
  decide (|lCutsTight i iCut - lCutsLoose i iCut| / lCutsLoose i iCut < 1/100) &&
    decide (iCut ≠ 3)

/-- One result created by a one-by-one sweep: the species, the cut, the step
`iSweep` of its name and the value `lCutValue` given to the setter of the
cut. -/
structure SweepEntry where
  i : ℕ
  iCut : ℕ
  iSweep : ℕ
  lCutValue : ℚ
deriving DecidableEq

/-- The results created by the loop "Tightening cuts one by one", in order of
creation. -/
def tighteningSweep : List SweepEntry :=
  (List.range 3).flatMap fun i =>
    (List.range lNCutsForSweep).flatMap fun iCut =>
      if sweepSkipped i iCut then []
      else
        (List.range' 1 12).map fun iSweep =>
          { i := i, iCut := iCut, iSweep := iSweep
            lCutValue :=
              lCutsLoose i iCut + ((iSweep : ℚ) / 12) * (lCutsTight i iCut - lCutsLoose i iCut) }

/-- The results created by the loop "Loosening cuts one by one", in order of
creation. -/
def looseningSweep : List SweepEntry :=
  (List.range 3).flatMap fun i =>
    (List.range lNCutsForSweep).flatMap fun iCut =>
      if sweepSkipped i iCut then []
      else
        (List.range' 1 12).map fun iSweep =>
          { i := i, iCut := iCut, iSweep := iSweep
            lCutValue :=
              lCutsTight i iCut + ((iSweep : ℚ) / 12) * (lCutsLoose i iCut - lCutsTight i iCut) }

/-- The criterion in the words of the comment "only proceed if cuts are
actually different", for comparison with `sweepSkipped`: the tight and the
loose value of the cut differ by at least 1% of the size of the loose value,
or the cut is V0CosPA (index 3). -/
def cutsActuallyDifferent (i iCut : ℕ) : Bool :=
  decide (1/100 ≤ |lCutsTight i iCut - lCutsLoose i iCut| / |lCutsLoose i iCut|) ||
    decide (iCut = 3)

/-! ## AliNuclexEventCuts::AcceptEvent -/

/-- The bins of `fCutStats`, in the order of `bin_labels`. -/
inductive CutStatBin
  | kNoCuts
  | kDAQincomplete
  | kBfield
  | kTrigger
  | kVertex
  | kPileUp
  | kMultiplicity
  | kAllCuts
deriving DecidableEq, Repr

/-- The members of `AliNuclexEventCuts` that `AcceptEvent` reads as cut
values, as they stand after the automatic setup of the run period. -/
structure NuclexCuts where
  fRequireTrackVertex : Bool
  fMinVtz : ℚ
  fMaxVtz : ℚ
  fMaxDeltaSpdTrackAbsolute : ℚ
  fMaxDeltaSpdTrackNsigmaSPD : ℚ
  fMaxDeltaSpdTrackNsigmaTrack : ℚ
  fMaxResolutionSPDvertex : ℚ
  fRejectDAQincomplete : Bool
  fRequiredSolenoidPolarity : ℤ
  fTrackletBGcut : Bool
  fCentralityFramework : ℤ
  fMinCentrality : ℚ
  fMaxCentrality : ℚ
  fMaxDeltaEstimators : ℚ
  fRequireExactTriggerMask : Bool
  fTriggerMask : ℕ

/-- What `AcceptEvent` reads of the event and of the input handler: the
answers of `IsIncompleteDAQ`, `GetMagneticField`, `IsEventSelected`, of the
track and SPD vertices (contributors, z, element 5 of the covariance matrix,
`IsFromVertexerZ`), of `IsPileupFromSPD` with the cut parameters, of
`IsSPDClusterVsTrackletBG`, the number of tracklets, and the percentiles of
the two estimators from `AliCentrality` and from `AliMultSelection`. -/
structure NuclexEvent where
  IsIncompleteDAQ : Bool
  GetMagneticField : ℚ
  IsEventSelected : ℕ
  trcNContributors : ℤ
  spdNContributors : ℤ
  trcZ : ℚ
  spdZ : ℚ
  covTrc5 : ℚ
  covSPD5 : ℚ
  spdIsFromVertexerZ : Bool
  IsPileupFromSPD : Bool
  IsSPDClusterVsTrackletBG : Bool
  ntrkl : ℤ
  GetCentralityPercentile : ℕ → ℚ
  GetMultiplicityPercentile : ℕ → ℚ

/-- The members written by `AcceptEvent` when the QA histograms are booked
(every null test of the source on them is then true): the bins filled in
`fCutStats`, the entries of the monitoring histograms by index `befaft`
(0 "raw", 1 "selected"), and `fCentPercentiles`. -/
structure NuclexQA where
  fCutStats : List CutStatBin
  fVtz : ℕ → List ℚ
  fDeltaTrackSPDvtz : ℕ → List ℚ
  fCentrality : ℕ → List ℚ
  fEstimCorrelation : ℕ → List (ℚ × ℚ)
  fMultCentCorrelation : ℕ → List (ℚ × ℚ)
  fCentPercentiles : ℕ → ℚ

/-- The call `fCutStats->Fill(bin)`. -/
def fillCutStats (q : NuclexQA) (bin : CutStatBin) : NuclexQA :=
  { q with fCutStats := q.fCutStats ++ [bin] }

/-- One cut of `AcceptEvent`, `if (<reject>) pass = false; else
fCutStats->Fill(<bin>);`, on the pair of `pass` and the QA members. -/
def cutStage (reject : Bool) (bin : CutStatBin) (s : Bool × NuclexQA) : Bool × NuclexQA :=
  if reject then (false, s.2) else (s.1, fillCutStats s.2 bin)

/-- The condition of the vertex selection. -/
def vertexRejected (m : TMath) (k : NuclexCuts) (ev : NuclexEvent) : Bool :=
  let vtxZ := if ev.trcNContributors < 2 then ev.spdZ else ev.trcZ
  let dz := ev.trcZ - ev.spdZ
  let errTot := m.Sqrt (ev.covTrc5 + ev.covSPD5)
  let errTrc := m.Sqrt ev.covTrc5
  let nsigTot := |dz| / errTot
  let nsigTrc := |dz| / errTrc
  ((decide (ev.trcNContributors < 2) && k.fRequireTrackVertex) ||
      decide (ev.spdNContributors < 1)) ||
    (decide (|dz| > k.fMaxDeltaSpdTrackAbsolute) ||
      decide (nsigTot > k.fMaxDeltaSpdTrackNsigmaSPD) ||
      decide (nsigTrc > k.fMaxDeltaSpdTrackNsigmaTrack)) ||
    (decide (vtxZ < k.fMinVtz) || decide (vtxZ > k.fMaxVtz)) ||
    (ev.spdIsFromVertexerZ && decide (m.Sqrt ev.covSPD5 > k.fMaxResolutionSPDvertex))

/-- The block "Centrality cuts". -/
def centralityStage (k : NuclexCuts) (ev : NuclexEvent) (s : Bool × NuclexQA) :
    Bool × NuclexQA :=
  if k.fCentralityFramework ≠ 0 then
    let p0 :=
      if k.fCentralityFramework = 2 then ev.GetCentralityPercentile 0
      else ev.GetMultiplicityPercentile 0
    let p1 :=
      if k.fCentralityFramework = 2 then ev.GetCentralityPercentile 1
      else ev.GetMultiplicityPercentile 1
    let q1 : NuclexQA :=
      { s.2 with
        fCentPercentiles := Function.update (Function.update s.2.fCentPercentiles 0 p0) 1 p1
        fCentrality := Function.update s.2.fCentrality 0 (s.2.fCentrality 0 ++ [p0])
        fEstimCorrelation :=
          Function.update s.2.fEstimCorrelation 0 (s.2.fEstimCorrelation 0 ++ [(p0, p1)]) }
    cutStage
      (decide (|p1 - p0| > k.fMaxDeltaEstimators) || decide (p0 < k.fMinCentrality) ||
        decide (p0 > k.fMaxCentrality))
      CutStatBin.kMultiplicity (s.1, q1)
  else (s.1, fillCutStats s.2 CutStatBin.kMultiplicity)

/-- The five fills of one iteration `befaft` of the loop "Filling the
monitoring histograms". -/
def fillMonitoring (ev : NuclexEvent) (befaft : ℕ) (q : NuclexQA) : NuclexQA :=
  let vtxZ := if ev.trcNContributors < 2 then ev.spdZ else ev.trcZ
  let dz := ev.trcZ - ev.spdZ
  { q with
    fCentrality := Function.update q.fCentrality befaft
      (q.fCentrality befaft ++ [q.fCentPercentiles 0])
    fEstimCorrelation := Function.update q.fEstimCorrelation befaft
      (q.fEstimCorrelation befaft ++ [(q.fCentPercentiles 0, q.fCentPercentiles 1)])
    fMultCentCorrelation := Function.update q.fMultCentCorrelation befaft
      (q.fMultCentCorrelation befaft ++ [(q.fCentPercentiles 0, (ev.ntrkl : ℚ))])
    fVtz := Function.update q.fVtz befaft (q.fVtz befaft ++ [vtxZ])
    fDeltaTrackSPDvtz := Function.update q.fDeltaTrackSPDvtz befaft
      (q.fDeltaTrackSPDvtz befaft ++ [dz]) }

/-- One iteration of `for (int befaft = 0; befaft < 2; ++befaft)`, on the
pair of "the function has returned" and the QA members: the fills, then
`if (!pass) return pass;`. -/
def monitoringStep (ev : NuclexEvent) (pass : Bool) (s : Bool × NuclexQA) (befaft : ℕ) :
    Bool × NuclexQA :=
  if s.1 then s else (!pass, fillMonitoring ev befaft s.2)

/-- The cuts of `AcceptEvent` from the statement "The first bin of the cut
stats corresponds to the total number of events" to the SPD pile-up
rejection: the value of `pass` and the QA members. -/
def cutsBeforeCentrality (m : TMath) (k : NuclexCuts) (ev : NuclexEvent) (q : NuclexQA) :
    Bool × NuclexQA :=
  let s0 : Bool × NuclexQA := (true, fillCutStats q CutStatBin.kNoCuts)
  let s1 := cutStage (k.fRejectDAQincomplete && ev.IsIncompleteDAQ)
    CutStatBin.kDAQincomplete s0
  let s2 := cutStage
    (decide (k.fRequiredSolenoidPolarity ≠ 0) &&
      decide ((k.fRequiredSolenoidPolarity : ℚ) * ev.GetMagneticField < 0))
    CutStatBin.kBfield s1
  let selected_trigger := ev.IsEventSelected &&& k.fTriggerMask
  let s3 := cutStage
    ((decide (selected_trigger ≠ k.fTriggerMask) && k.fRequireExactTriggerMask) ||
      decide (selected_trigger = 0))
    CutStatBin.kTrigger s2
  let s4 := cutStage (vertexRejected m k ev) CutStatBin.kVertex s3
  cutStage (ev.IsPileupFromSPD || (k.fTrackletBGcut && ev.IsSPDClusterVsTrackletBG))
    CutStatBin.kPileUp s4

/-- The loop "Filling the monitoring histograms" and the statements after
it: the value returned and the QA members. -/
def monitoringLoop (ev : NuclexEvent) (pass : Bool) (q : NuclexQA) : Bool × NuclexQA :=
  let r := (List.range 2).foldl (monitoringStep ev pass) (false, q)
  if r.1 then (pass, r.2) else (pass, fillCutStats r.2 CutStatBin.kAllCuts)

/-- `AliNuclexEventCuts::AcceptEvent` from the statement "The first bin of
the cut stats corresponds to the total number of events" to its end: the
value returned and the QA members. -/
def AcceptEvent (m : TMath) (k : NuclexCuts) (ev : NuclexEvent) (q : NuclexQA) :
    Bool × NuclexQA :=
  let s6 := centralityStage k ev (cutsBeforeCentrality m k ev q)
  monitoringLoop ev s6.1 s6.2

/-- Cut values that reject nothing, with the centrality framework 1
(`AliMultSelection`) in use. -/
def openNuclexCuts : NuclexCuts :=
  { fRequireTrackVertex := false
    fMinVtz := -1000
    fMaxVtz := 1000
    fMaxDeltaSpdTrackAbsolute := 1000
    fMaxDeltaSpdTrackNsigmaSPD := 1000
    fMaxDeltaSpdTrackNsigmaTrack := 20000
    fMaxResolutionSPDvertex := 1000
    fRejectDAQincomplete := false
    fRequiredSolenoidPolarity := 0
    fTrackletBGcut := false
    fCentralityFramework := 1
    fMinCentrality := -1000
    fMaxCentrality := 1000
    fMaxDeltaEstimators := 1000
    fRequireExactTriggerMask := false
    fTriggerMask := 1 }

/-- An event with both vertices at z = 1, trigger bit 1 set, no pile-up, 100
tracklets and the percentiles 30 and 32. -/
def sampleNuclexEvent : NuclexEvent :=
  { IsIncompleteDAQ := false
    GetMagneticField := 5
    IsEventSelected := 1
    trcNContributors := 10
    spdNContributors := 5
    trcZ := 1
    spdZ := 1
    covTrc5 := 1
    covSPD5 := 1
    spdIsFromVertexerZ := false
    IsPileupFromSPD := false
    IsSPDClusterVsTrackletBG := false
    ntrkl := 100
    GetCentralityPercentile := fun i => if i = 0 then 30 else 32
    GetMultiplicityPercentile := fun i => if i = 0 then 30 else 32 }

/-- The QA members right after booking: every histogram empty. -/
def emptyNuclexQA : NuclexQA :=
  { fCutStats := []
    fVtz := fun _ => []
    fDeltaTrackSPDvtz := fun _ => []
    fCentrality := fun _ => []
    fEstimCorrelation := fun _ => []
    fMultCentCorrelation := fun _ => []
    fCentPercentiles := fun i => if i = 0 then -1 else 0 }

/-! ## The index list for sibling tagging -/

/-- What the loop "Run on V0's to look for Siblings" reads of an ESD track:
`GetSign`, the `kTPCrefit` status bit, `GetKinkIndex(0)`, `GetTPCNclsF`,
`GetTPCClusterInfo(2,1)`, whether `GetInnerParam()` is non-null,
`GetLengthInActiveZone(...)`, `GetD(...)` to the primary vertex and the
number of sigmas of the pion hypothesis. -/
structure ESDTrack where
  GetSign : ℤ
  kTPCrefit : Bool
  GetKinkIndex0 : ℤ
  GetTPCNclsF : ℤ
  GetTPCClusterInfo : ℚ
  hasInnerParam : Bool
  GetLengthInActiveZone : ℚ
  GetD : ℚ
  NumberOfSigmasTPCPion : ℚ
deriving DecidableEq

/-- What that loop reads of one entry `GetV0(iV0)`, after `CheckChargeV0`:
whether it is null, `GetOnFlyStatus`, the charges of its two track
parameters, `GetPindex`, `GetNindex`, the decay vertex, `GetD` to the primary
vertex, the cosine of the pointing angle and the K0s effective mass. -/
structure SibTagV0 where
  isNull : Bool
  GetOnFlyStatus : Bool
  chargeN : ℤ
  chargeP : ℤ
  GetPindex : ℤ
  GetNindex : ℤ
  tDecayVertexV0 : ℕ → ℚ
  GetD : ℚ
  GetV0CosineOfPointingAngle : ℚ
  lInvMassK0s : ℚ

/-- The task members `fSibCut...` read by the loop. -/
structure SibCuts where
  fSibCutV0CosineOfPointingAngle : ℚ
  fSibCutDcaV0ToPrimVertex : ℚ
  fSibCutV0Radius : ℚ
  fSibCutDcaPosToPrimVertex : ℚ
  fSibCutDcaNegToPrimVertex : ℚ
  fSibCutInvMassK0s : ℚ

/-- The locals `IdxForSibTagging` and `ntr`, with the list of the slots of
`IdxForSibTagging` written so far (oldest first). -/
structure SibTagState where
  IdxForSibTagging : ℕ → ℕ
  ntr : ℕ
  written : List ℕ

/-- The state before the loop: `TArrayI IdxForSibTagging(nentr); Int_t ntr=0;`
(a `TArrayI` is created with every element 0). -/
def sibTagInit : SibTagState :=
  { IdxForSibTagging := fun _ => 0, ntr := 0, written := [] }

/-- The part of the loop body from "Track quality cuts" to the test of the
pion hypothesis, for the daughter tracks `pTrack`, `nTrack`: whether the body
reaches the block "This is a good V0 for Sibling Ancestor, testing if already
on the list" (every `continue` is a `false`). -/
def sibTagQuality (m : TMath) (k : SibCuts) (v0 : SibTagV0) (pTrack nTrack : ESDTrack) :
    Bool :=
  let lV0Radius := m.Sqrt (v0.tDecayVertexV0 0 * v0.tDecayVertexV0 0 +
    v0.tDecayVertexV0 1 * v0.tDecayVertexV0 1)
  -- TPC refit condition
  if !pTrack.kTPCrefit then false
  else if !nTrack.kTPCrefit then false
  -- GetKinkIndex condition
  else if pTrack.GetKinkIndex0 > 0 ∨ nTrack.GetKinkIndex0 > 0 then false
  -- Findable clusters > 0 condition
  else if pTrack.GetTPCNclsF ≤ 0 ∨ nTrack.GetTPCNclsF ≤ 0 then false
  else
    let lPosTrackCrossedRowsOverFindable := pTrack.GetTPCClusterInfo / pTrack.GetTPCNclsF
    let lNegTrackCrossedRowsOverFindable := nTrack.GetTPCClusterInfo / nTrack.GetTPCNclsF
    let leastRatio :=
      if lNegTrackCrossedRowsOverFindable < lPosTrackCrossedRowsOverFindable then
        lNegTrackCrossedRowsOverFindable
      else lPosTrackCrossedRowsOverFindable
    if leastRatio < 8/10 then false
    else
      let lPosTrackLength := if pTrack.hasInnerParam then pTrack.GetLengthInActiveZone else -1
      let lNegTrackLength := if nTrack.hasInnerParam then nTrack.GetLengthInActiveZone else -1
      let l1 : ℚ := if lPosTrackLength < 1000 then lPosTrackLength else 1000
      let lSmallestTrackLength := if lNegTrackLength < l1 then lNegTrackLength else l1
      if (pTrack.GetTPCClusterInfo < 70 ∨ nTrack.GetTPCClusterInfo < 70) ∧
          lSmallestTrackLength < 80 then false
      else if v0.GetV0CosineOfPointingAngle < k.fSibCutV0CosineOfPointingAngle then false
      else if v0.GetD > k.fSibCutDcaV0ToPrimVertex then false
      else if lV0Radius > k.fSibCutV0Radius then false
      else if |pTrack.GetD| > k.fSibCutDcaPosToPrimVertex then false
      else if |nTrack.GetD| > k.fSibCutDcaNegToPrimVertex then false
      else if |v0.lInvMassK0s - 498/1000| > k.fSibCutInvMassK0s then false
      else decide (|pTrack.NumberOfSigmasTPCPion| < 4 ∧ |nTrack.NumberOfSigmasTPCPion| < 4)

/-- The keys `lKeyPos`, `lKeyNeg` of a V0 for which the body of the loop
reaches the block "This is a good V0 for Sibling Ancestor, testing if already
on the list", and nothing for a V0 that leaves the body before.  The tracks
of the event are `tracks`, `GetTrack(i)` being null for an index that is not
below `GetNumberOfTracks()`. -/
def sibTagKeys (m : TMath) (k : SibCuts) (tracks : List ESDTrack) (v0 : SibTagV0) :
    Option (ℕ × ℕ) :=
  if v0.isNull then none
  else if v0.GetOnFlyStatus then none
  else if v0.chargeN > 0 ∧ v0.chargeP > 0 then none
  else if v0.chargeN < 0 ∧ v0.chargeP < 0 then none
  else
    let lKeyPos := v0.GetPindex.natAbs
    let lKeyNeg := v0.GetNindex.natAbs
    match tracks[lKeyPos]?, tracks[lKeyNeg]? with
    | some pTrack, some nTrack =>
      -- Filter like-sign V0 (next: add counter and distribution)
      if pTrack.GetSign = nTrack.GetSign then none
      else if sibTagQuality m k v0 pTrack nTrack then some (lKeyPos, lKeyNeg)
      else none
    | _, _ => none

/-- The block "This is a good V0 for Sibling Ancestor, testing if already on
the list": the loop over `t < ntr` that sets `PosFlag` and `NegFlag`, then
the two conditional statements `IdxForSibTagging[ntr++] = ...`. -/
def sibTagInsert (s : SibTagState) (lKeyPos lKeyNeg : ℕ) : SibTagState :=
  let flags : Bool × Bool :=
    (List.range s.ntr).foldl
      (fun f t =>
        (if lKeyPos = s.IdxForSibTagging t then true else f.1,
         if lKeyNeg = s.IdxForSibTagging t then true else f.2))
      (false, false)
  let s1 : SibTagState :=
    if flags.1 = false then
      { IdxForSibTagging := Function.update s.IdxForSibTagging s.ntr lKeyPos
        ntr := s.ntr + 1
        written := s.written ++ [s.ntr] }
    else s
  if flags.2 = false then
    { IdxForSibTagging := Function.update s1.IdxForSibTagging s1.ntr lKeyNeg
      ntr := s1.ntr + 1
      written := s1.written ++ [s1.ntr] }
  else s1

/-- The body of the loop "Looping on v0s for sibling tagging" for one V0. -/
def sibTagStep (m : TMath) (k : SibCuts) (tracks : List ESDTrack) (s : SibTagState)
    (v0 : SibTagV0) : SibTagState :=
  match sibTagKeys m k tracks v0 with
  | some keys => sibTagInsert s keys.1 keys.2
  | none => s

/-- The loop "Run on V0's to look for Siblings" over the V0s of the event. -/
def sibTagLoop (m : TMath) (k : SibCuts) (tracks : List ESDTrack) (v0s : List SibTagV0) :
    SibTagState :=
  v0s.foldl (sibTagStep m k tracks) sibTagInit

/-- The block "Tagging of True K0's dau" of the cascade loop: the values of
`lBachV0Tag`, `lNegV0Tag`, `lPosV0Tag` after the loop over `t < ntr`. -/
def cascadeV0Tags (s : SibTagState) (lBachIdx lIdxNegXi lIdxPosXi : ℕ) : Bool × Bool × Bool :=
  (List.range s.ntr).foldl
    (fun f t =>
      (if lBachIdx = s.IdxForSibTagging t then true else f.1,
       if lIdxNegXi = s.IdxForSibTagging t then true else f.2.1,
       if lIdxPosXi = s.IdxForSibTagging t then true else f.2.2))
    (false, false, false)

/-- A track of good quality with the sign given. -/
def sampleTrack (sign : ℤ) : ESDTrack :=
  { GetSign := sign
    kTPCrefit := true
    GetKinkIndex0 := 0
    GetTPCNclsF := 100
    GetTPCClusterInfo := 90
    hasInnerParam := true
    GetLengthInActiveZone := 120
    GetD := 1
    NumberOfSigmasTPCPion := 1 }

/-- An offline V0 of good quality with the daughter indices given. -/
def sampleSibTagV0 (pindex nindex : ℤ) : SibTagV0 :=
  { isNull := false
    GetOnFlyStatus := false
    chargeN := -1
    chargeP := 1
    GetPindex := pindex
    GetNindex := nindex
    tDecayVertexV0 := fun _ => 1
    GetD := 1/10
    GetV0CosineOfPointingAngle := 999/1000
    lInvMassK0s := 498/1000 }

/-- The initial values of the members `fSibCut...`. -/
def sibCutsInit : SibCuts :=
  { fSibCutV0CosineOfPointingAngle := 995/1000
    fSibCutDcaV0ToPrimVertex := 8/10
    fSibCutV0Radius := 14
    fSibCutDcaPosToPrimVertex := 5
    fSibCutDcaNegToPrimVertex := 5
    fSibCutInvMassK0s := 75/10000 }

/-- The invariant of the loop for an event of `N` tracks: the first `ntr`
entries of `IdxForSibTagging` are track indices below `N`, they are pairwise
distinct, and every slot written lies below `ntr`. -/
def SibTagInv (N : ℕ) (s : SibTagState) : Prop :=
  (∀ t, t < s.ntr → s.IdxForSibTagging t < N) ∧
  (∀ t1, t1 < s.ntr → ∀ t2, t2 < s.ntr →
    s.IdxForSibTagging t1 = s.IdxForSibTagging t2 → t1 = t2) ∧
  (∀ w, w ∈ s.written → w < s.ntr)

/-- Four tracks of alternating sign. -/
def sampleTracks : List ESDTrack :=
  [sampleTrack 1, sampleTrack (-1), sampleTrack 1, sampleTrack (-1)]



/-! ## The charge given to the cascade trajectory -/

/-- What the cascade loop reads of one entry `GetCascade(iXi)` up to the
block "Calculate Cascade DCA to PV": whether it is null, the three track
indices, whether one of the three tracks could not be retrieved, the
`kTPCrefit` bits, the numbers of TPC clusters, the local
`lSmallestTrackLength`, `xi->Charge()`, the position and momentum of the
cascade, and the primary vertex and magnetic field of its event. -/
structure CascadeESD where
  isNull : Bool
  lIdxPosXi : ℕ
  lIdxNegXi : ℕ
  lBachIdx : ℕ
  trackMissing : Bool
  pTPCrefit : Bool
  nTPCrefit : Bool
  bachTPCrefit : Bool
  lPosTPCClusters : ℤ
  lNegTPCClusters : ℤ
  lBachTPCClusters : ℤ
  lSmallestTrackLength : ℚ
  lChargeXi : ℤ
  xyzCascade : ℕ → ℚ
  pxpypzCascade : ℕ → ℚ
  lBestPrimaryVtxPos : ℕ → ℚ
  lMagneticField : ℚ

/-- The two answers of the `AliExternalTrackParam` built from position,
momentum, the zero covariance and a charge: `GetD(x, y, b)` and element 1 of
the array filled by `GetDZ(x, y, z, b, dz)`.  The class is declared outside
these sources. -/
structure TrajectoryDCA where
  GetD : (ℕ → ℚ) → (ℕ → ℚ) → ℤ → (ℕ → ℚ) → ℚ → ℚ
  GetDZ1 : (ℕ → ℚ) → (ℕ → ℚ) → ℤ → (ℕ → ℚ) → ℚ → ℚ

/-- The members of the task read and written around the block "Calculate
Cascade DCA to PV". -/
structure CascadeChargeState where
  fTreeCascVarCharge : ℤ
  fTreeCascVarCascDCAtoPVxy : ℚ
  fTreeCascVarCascDCAtoPVz : ℚ

/-- The values the constructor gives these members. -/
def cascadeChargeInit : CascadeChargeState :=
  { fTreeCascVarCharge := 0, fTreeCascVarCascDCAtoPVxy := 0, fTreeCascVarCascDCAtoPVz := 0 }

/-- Whether the body of the cascade loop reaches the block "Calculate Cascade
DCA to PV" for the entry: none of the ten `continue` statements before it is
taken.  No `continue` of the loop lies between that block and the statement
`fTreeCascVarCharge = lChargeXi`. -/
def cascadeReachesDCA (xi : CascadeESD) : Bool :=
  if xi.isNull then false
  else if xi.lBachIdx = xi.lIdxNegXi then false
  else if xi.lBachIdx = xi.lIdxPosXi then false
  else if xi.trackMissing then false
  else if !xi.pTPCrefit then false
  else if !xi.nTPCrefit then false
  else if !xi.bachTPCrefit then false
  else if xi.lPosTPCClusters < 70 ∧ xi.lSmallestTrackLength < 80 then false
  else if xi.lNegTPCClusters < 70 ∧ xi.lSmallestTrackLength < 80 then false
  else if xi.lBachTPCClusters < 70 ∧ xi.lSmallestTrackLength < 80 then false
  else true

/-- The local `lChargeCascade`, the charge given to the constructor of the
cascade trajectory, for an entry that reaches the block. -/
def lChargeCascade (s : CascadeChargeState) (xi : CascadeESD) : Option ℤ :=
  if cascadeReachesDCA xi then some s.fTreeCascVarCharge else none

/-- The body of the cascade loop for one entry, on the three members: the block
"Calculate Cascade DCA to PV" with `Int_t lChargeCascade = fTreeCascVarCharge;`,
and later the statement `fTreeCascVarCharge = lChargeXi;`. -/
def cascadeChargeStep (dca : TrajectoryDCA) (s : CascadeChargeState) (xi : CascadeESD) :
    CascadeChargeState :=
  if cascadeReachesDCA xi then
    let lChargeCascade := s.fTreeCascVarCharge
    { fTreeCascVarCascDCAtoPVxy :=
        |dca.GetD xi.xyzCascade xi.pxpypzCascade lChargeCascade xi.lBestPrimaryVtxPos
          xi.lMagneticField|
      fTreeCascVarCascDCAtoPVz :=
        dca.GetDZ1 xi.xyzCascade xi.pxpypzCascade lChargeCascade xi.lBestPrimaryVtxPos
          xi.lMagneticField
      fTreeCascVarCharge := xi.lChargeXi }
  else s

/-- The cascade loop over the entries of one or several events, in order. -/
def cascadeChargeLoop (dca : TrajectoryDCA) (s : CascadeChargeState)
    (xis : List CascadeESD) : CascadeChargeState :=
  xis.foldl (cascadeChargeStep dca) s

/-- A cascade entry that reaches the block, with the charge given. -/
def sampleCascadeESD (charge : ℤ) : CascadeESD :=
  { isNull := false
    lIdxPosXi := 0
    lIdxNegXi := 1
    lBachIdx := 2
    trackMissing := false
    pTPCrefit := true
    nTPCrefit := true
    bachTPCrefit := true
    lPosTPCClusters := 100
    lNegTPCClusters := 100
    lBachTPCClusters := 100
    lSmallestTrackLength := 120
    lChargeXi := charge
    xyzCascade := fun _ => 1
    pxpypzCascade := fun _ => 1
    lBestPrimaryVtxPos := fun _ => 0
    lMagneticField := 5 }

/-- A stand-in for the trajectory whose distances are the charge itself. -/
def chargeTrajectoryDCA : TrajectoryDCA :=
  { GetD := fun _ _ charge _ _ => charge
    GetDZ1 := fun _ _ charge _ _ => charge }

/-! ## AliSigma0ParticleBase -/

/-- The data members of an `AliSigma0ParticleBase`; the arrays `fP` and `fPMC`
of three elements are one field per element, `fPhistar` is the list of its
elements.  The getters used by the assignment operator are declared outside
these sources and are taken to return the member of their name. -/
structure AliSigma0ParticleBase where
  fP0 : ℚ
  fP1 : ℚ
  fP2 : ℚ
  fPMC0 : ℚ
  fPMC1 : ℚ
  fPMC2 : ℚ
  fPDGCode : ℤ
  fPDGCodeMother : ℤ
  fMass : ℚ
  fQ : ℤ
  fPt : ℚ
  fTrackLabel : ℤ
  fMClabel : ℤ
  fPhi : ℚ
  fEta : ℚ
  fCharge : ℤ
  fDCAz : ℚ
  fDCAr : ℚ
  fUse : Bool
  fPhistar : List ℚ
deriving DecidableEq

/-- The body of `AliSigma0ParticleBase::operator=` past the test of
self-assignment: the members of `self` after the assignments from `obj`. -/
def assignFields (self obj : AliSigma0ParticleBase) : AliSigma0ParticleBase :=
  { self with
    fP0 := obj.fP0
    fP1 := obj.fP1
    fP2 := obj.fP2
    fPMC0 := obj.fPMC0
    fPMC1 := obj.fPMC1
    fPMC2 := obj.fPMC2
    fPDGCode := obj.fPDGCode
    fMass := obj.fMass
    fQ := obj.fQ
    fPt := obj.fPt
    -- for filterbit 128
    fTrackLabel := -obj.fTrackLabel - 1
    fPhi := obj.fPhi
    fEta := obj.fEta
    fUse := obj.fUse }

/-- `AliSigma0ParticleBase::operator=` on objects held by address: `self` is
the address of `*this`, `obj` the address of the argument;
`if (this == &obj) return *this;` leaves every object as it is. -/
def sigma0Assign (heap : ℕ → AliSigma0ParticleBase) (self obj : ℕ) :
    ℕ → AliSigma0ParticleBase :=
  if self = obj then heap
  else Function.update heap self (assignFields (heap self) (heap obj))

/-- A particle with the track label and the mother code given. -/
def sampleSigma0Particle (label mother : ℤ) : AliSigma0ParticleBase :=
  { fP0 := 1, fP1 := 2, fP2 := 3, fPMC0 := -1, fPMC1 := -1, fPMC2 := -1
    fPDGCode := 3122, fPDGCodeMother := mother, fMass := 1116/1000, fQ := 0, fPt := 2
    fTrackLabel := label, fMClabel := 7, fPhi := 1, fEta := 1/2, fCharge := 0
    fDCAz := 1/10, fDCAr := 2/10, fUse := true, fPhistar := [1, 2, 3, 4, 5, 6, 7, 8, 9] }

/-- Three objects: address 0 with track label 5 and mother code 3212, every
other address with track label 40 and mother code 0. -/
def sampleSigma0Heap : ℕ → AliSigma0ParticleBase := fun a =>
  if a = 0 then sampleSigma0Particle 5 3212 else sampleSigma0Particle 40 0

/-! ## AddTopologicalQACascade -/

/-- The array `lParticleName` of `AddTopologicalQACascade`. -/
def lParticleName (i : ℕ) : String :=
  match i with
  | 0 => "XiMinus"
  | 1 => "XiPlus"
  | 2 => "OmegaMinus"
  | _ => "OmegaPlus"

/-- The array `lMassHypo` of `AddTopologicalQACascade`. -/
def lMassHypo (i : ℕ) : CascadeMassHypo :=
  match i with
  | 0 => CascadeMassHypo.kXiMinus
  | 1 => CascadeMassHypo.kXiPlus
  | 2 => CascadeMassHypo.kOmegaMinus
  | _ => CascadeMassHypo.kOmegaPlus

/-- The array `lLifetimeCut` of `AddTopologicalQACascade`. -/
def lLifetimeCutCascade (i : ℕ) : ℚ := if i < 2 then 15 else 12

/-- A result object created by `AddTopologicalQACascade`: its name and its
cut values. -/
structure NamedCascadeCuts where
  name : String
  cuts : CascadeCuts

/-- The central result of index `i` ("Central results: Stored in indices 0,
1, 2, 3"): the values `d` that the `AliCascadeResult` constructor gives a new
object (the class is declared outside these sources), the mass hypothesis
`lMassHypo[i]` and the setters of the loop body, each taken to write the cut
of its name (`SetCutVar...` the five parameters). -/
def topologicalQACentralCascade (m : TMath) (d : CascadeCuts) (i : ℕ) : NamedCascadeCuts :=
  { name := lParticleName i ++ "_VertexerLevel"
    cuts :=
      { d with
        MassHypothesis := lMassHypo i
        CutDCANegToPV := 2/10
        CutDCAPosToPV := 2/10
        CutDCAV0Daughters := 1
        CutV0CosPA := 95/100
        CutVarV0CosPA :=
          ⟨m.Exp (10853/1000), -250322/10000, m.Exp (-843948/1000000), -890794/1000000,
            57553/1000000⟩
        CutV0Radius := 3
        CutDCAV0ToPV := 1/10
        CutV0Mass := 6/1000
        CutDCABachToPV := 1/10
        CutDCACascDaughters := 1
        CutCascRadius := if i = 2 ∨ i = 3 then 1 else 12/10
        CutCascCosPA := 95/100
        CutVarCascCosPA :=
          ⟨m.Exp (486664/100000), -10786/1000, m.Exp (-133411/100000), -729825/1000000,
            695724/10000000⟩
        CutProperLifetime := lLifetimeCutCascade i
        CutLeastNumberOfClusters := 70
        CutTPCdEdx := 4
        CutXiRejection := 8/1000
        CutBachBaryonCosPA := m.Cos (4/100)
        CutVarBBCosPA :=
          ⟨m.Exp (-229048/100000), -202016/10000, m.Exp (-29581/10000), -649153/1000000,
            526455/100000000⟩ } }

/-- The name `Form("%s_%s_%i", lParticleName[i].Data(), sweep, icut)`. -/
def sweepName (i : ℕ) (sweep : String) (icut : ℕ) : String :=
  lParticleName i ++ "_" ++ sweep ++ "_" ++ toString icut

/-- The results created by one pair of loops `for i < 4`, `for icut < steps`,
in order of creation; `mk i icut` is the result created in the body. -/
def sweepResults (steps : ℕ) (mk : ℕ → ℕ → NamedCascadeCuts) : List NamedCascadeCuts :=
  (List.range 4).flatMap fun i => (List.range steps).map fun icut => mk i icut

/-- The result created in the body of a sweep: a copy of the central result
`lCascadeResult[i]` under the name of the sweep, changed by the setters of
the body. -/
def sweepResult (m : TMath) (d : CascadeCuts) (sweep : String)
    (set : CascadeCuts → CascadeCuts) (i icut : ℕ) : NamedCascadeCuts :=
  { name := sweepName i sweep icut
    cuts := set (topologicalQACentralCascade m d i).cuts }

/-- The results created by `AddTopologicalQACascade(lRecNumberOfSteps)`, in
order of creation: the four central results, the eleven sweeps of
`lNumberOfSteps` steps, the sweep of the cascade lifetime (15 steps) and the
sweep of the V0 lifetime (32 steps).  `ACos` is `TMath::ACos`. -/
def topologicalQACascadeResults (m : TMath) (ACos : ℚ → ℚ) (d : CascadeCuts)
    (lRecNumberOfSteps : ℤ) : List NamedCascadeCuts :=
  let lNumberOfSteps : ℕ := lRecNumberOfSteps.toNat
  let steps : ℚ := (lRecNumberOfSteps : ℚ)
  let lDeltaV0PA : ℚ := ACos (95/100) / steps
  let lDeltaCascPA : ℚ := ACos (95/100) / steps
  let lDeltaBBPA : ℚ := ACos (m.Cos (1/10)) / steps
  (List.range 4).map (topologicalQACentralCascade m d) ++
  -- Variable 1: DCA Neg to PV
  sweepResults lNumberOfSteps (fun i icut => sweepResult m d "DCANegToPVSweep"
    (fun c => { c with CutDCANegToPV := ((icut : ℚ) + 1) * (15/10) / steps }) i icut) ++
  -- Variable 2: DCA Pos to PV
  sweepResults lNumberOfSteps (fun i icut => sweepResult m d "DCAPosToPVSweep"
    (fun c => { c with CutDCAPosToPV := ((icut : ℚ) + 1) * (15/10) / steps }) i icut) ++
  -- Variable 3: DCA V0 Daughters
  sweepResults lNumberOfSteps (fun i icut => sweepResult m d "DCAV0DaughtersSweep"
    (fun c => { c with CutDCAV0Daughters := ((icut : ℚ) + 1) * (140/100) / steps }) i icut) ++
  -- Variable 4: V0 CosPA
  sweepResults lNumberOfSteps (fun i icut => sweepResult m d "V0CosPASweep"
    (fun c => { c with
      CutUseVarV0CosPA := false
      CutV0CosPA := m.Cos (((icut : ℚ) + 1) * lDeltaV0PA) }) i icut) ++
  -- Variable 5: V0 Radius
  sweepResults lNumberOfSteps (fun i icut => sweepResult m d "V0RadiusSweep"
    (fun c => { c with CutV0Radius := 0 + (20 - 0) * ((icut : ℚ) + 1) / steps }) i icut) ++
  -- Variable 6:
  sweepResults lNumberOfSteps (fun i icut => sweepResult m d "DCAV0ToPVSweep"
    (fun c => { c with CutDCAV0ToPV := ((icut : ℚ) + 1) * (5/10) / steps }) i icut) ++
  -- Variable 7: DCA Bach To PV
  sweepResults lNumberOfSteps (fun i icut => sweepResult m d "DCABachToPVSweep"
    (fun c => { c with CutDCABachToPV := ((icut : ℚ) + 1) * (5/10) / steps }) i icut) ++
  -- Variable 8: DCA Casc Daughters
  sweepResults lNumberOfSteps (fun i icut => sweepResult m d "DCACascDaughtersSweep"
    (fun c => { c with CutDCACascDaughters := ((icut : ℚ) + 1) * (140/100) / steps }) i icut) ++
  -- Variable 9: Cascade Radius
  sweepResults lNumberOfSteps (fun i icut => sweepResult m d "CascRadiusSweep"
    (fun c => { c with CutCascRadius := 5/10 + (7 - 5/10) * ((icut : ℚ) + 1) / steps })
    i icut) ++
  -- Variable 10: Cascade CosPA
  sweepResults lNumberOfSteps (fun i icut => sweepResult m d "CascCosPASweep"
    (fun c => { c with
      CutUseVarCascCosPA := false
      CutCascCosPA := m.Cos (((icut : ℚ) + 1) * lDeltaCascPA) }) i icut) ++
  -- Variable 11: Bach-Baryon CosPA
  sweepResults lNumberOfSteps (fun i icut => sweepResult m d "BBCosPASweep"
    (fun c => { c with
      CutUseVarBBCosPA := false
      CutBachBaryonCosPA := m.Cos (((icut : ℚ) + 1) * lDeltaBBPA) }) i icut) ++
  -- Variable 12: Cascade Lifetime Sweep
  sweepResults 15 (fun i icut => sweepResult m d "CascLifetimeSweep"
    (fun c => { c with CutProperLifetime := 5 + (20 - 5) * ((icut : ℚ) + 1) / 15 }) i icut) ++
  -- Variable 13: V0 Lifetime Sweep
  sweepResults 32 (fun i icut => sweepResult m d "MaxV0LifetimeSweep"
    (fun c => { c with CutMaxV0Lifetime := 8 + (40 - 8) * ((icut : ℚ) + 1) / 32 }) i icut)

/-- The local array `AliCascadeResult *lCascadeResult[5000]` and the counter
`lN`: the value of `lN` and the writes `lCascadeResult[lN] = new ...` made so
far, each with the slot written (oldest first). -/
structure CascadeResultArray where
  lN : ℕ
  stores : List (ℕ × NamedCascadeCuts)

/-- The statements `lCascadeResult[lN] = new AliCascadeResult(...)` ... `lN++`
for one result. -/
def storeResult (a : CascadeResultArray) (c : NamedCascadeCuts) : CascadeResultArray :=
  { lN := a.lN + 1, stores := a.stores ++ [(a.lN, c)] }

/-- `AddTopologicalQACascade(lRecNumberOfSteps)` up to the registration: the
counter `lN` and the writes into `lCascadeResult`. -/
def AddTopologicalQACascade (m : TMath) (ACos : ℚ → ℚ) (d : CascadeCuts)
    (lRecNumberOfSteps : ℤ) : CascadeResultArray :=
  (topologicalQACascadeResults m ACos d lRecNumberOfSteps).foldl storeResult
    { lN := 0, stores := [] }

/-- The loop `for (iconf = 0; iconf < lN; iconf++)
AddConfiguration(lCascadeResult[iconf]);`, the object of slot `iconf` having
the address `base + iconf`. -/
def registerTopologicalQACascade (fListCascade : Option (List ℕ)) (base lN : ℕ) :
    Option (List ℕ) :=
  (List.range lN).foldl (fun l iconf => AddConfigurationCascade l (base + iconf)) fListCascade

/-! ## The configuration loops touch one histogram per visit -/

theorem fillV0_cuts (m : TMath) (c : V0Candidate) (o : AliV0Result) :
    (fillV0 m c o).cuts = o.cuts := by
  unfold fillV0
  split_ifs <;> rfl

theorem fillV0_fHisto (m : TMath) (c : V0Candidate) (o : AliV0Result) :
    (fillV0 m c o).fHisto =
      o.fHisto ++ (if v0Accept m c o.cuts then [v0FillPoint c o.cuts] else []) := by
  unfold fillV0 v0Accept
  split_ifs <;> simp_all

theorem loopV0_cuts (m : TMath) (c : V0Candidate) (l : List ℕ) :
    ∀ (heap : V0Heap) (p : ℕ), ((loopV0 m c heap l) p).cuts = (heap p).cuts := by
  induction l with
  | nil => intro heap p; rfl
  | cons q l ih =>
    intro heap p
    show ((loopV0 m c (stepV0 m c heap q) l) p).cuts = (heap p).cuts
    rw [ih]
    unfold stepV0
    by_cases h : p = q
    · subst h; simp [fillV0_cuts]
    · simp [Function.update_noteq h]

theorem loopV0_fHisto (m : TMath) (c : V0Candidate) (l : List ℕ) :
    ∀ (heap : V0Heap) (p : ℕ),
      ((loopV0 m c heap l) p).fHisto =
        (heap p).fHisto ++
          List.replicate (if v0Accept m c (heap p).cuts then l.count p else 0)
            (v0FillPoint c (heap p).cuts) := by
  induction l with
  | nil => intro heap p; simp [loopV0]
  | cons q l ih =>
    intro heap p
    show ((loopV0 m c (stepV0 m c heap q) l) p).fHisto = _
    rw [ih]
    unfold stepV0
    by_cases h : p = q
    · subst h
      simp only [Function.update_same, fillV0_cuts, fillV0_fHisto, List.count_cons_self]
      by_cases ha : v0Accept m c (heap p).cuts = true
      · simp [ha, List.replicate_succ, List.append_assoc]
      · simp [ha]
    · have hq : (q == p) = false := by
        simpa using fun e : q = p => h e.symm
      simp [Function.update_noteq h, List.count_cons, hq]

theorem fillCascade_cuts (m : TMath) (t : CascadeTask) (c : CascadeCandidate)
    (o : AliCascadeResult) : (fillCascade m t c o).cuts = o.cuts := by
  unfold fillCascade
  split_ifs <;> rfl

theorem fillCascade_fHisto (m : TMath) (t : CascadeTask) (c : CascadeCandidate)
    (o : AliCascadeResult) :
    (fillCascade m t c o).fHisto =
      o.fHisto ++ (if cascSelection m t c o.cuts then [cascFillPoint c o.cuts] else []) := by
  unfold fillCascade
  split_ifs <;> simp_all

theorem loopCascade_cuts (m : TMath) (t : CascadeTask) (c : CascadeCandidate) (l : List ℕ) :
    ∀ (heap : CascadeHeap) (p : ℕ),
      ((loopCascade m t c heap l) p).cuts = (heap p).cuts := by
  induction l with
  | nil => intro heap p; rfl
  | cons q l ih =>
    intro heap p
    show ((loopCascade m t c (stepCascade m t c heap q) l) p).cuts = (heap p).cuts
    rw [ih]
    unfold stepCascade
    by_cases h : p = q
    · subst h; simp [fillCascade_cuts]
    · simp [Function.update_noteq h]

theorem loopCascade_fHisto (m : TMath) (t : CascadeTask) (c : CascadeCandidate)
    (l : List ℕ) :
    ∀ (heap : CascadeHeap) (p : ℕ),
      ((loopCascade m t c heap l) p).fHisto =
        (heap p).fHisto ++
          List.replicate (if cascSelection m t c (heap p).cuts then l.count p else 0)
            (cascFillPoint c (heap p).cuts) := by
  induction l with
  | nil => intro heap p; simp [loopCascade]
  | cons q l ih =>
    intro heap p
    show ((loopCascade m t c (stepCascade m t c heap q) l) p).fHisto = _
    rw [ih]
    unfold stepCascade
    by_cases h : p = q
    · subst h
      simp only [Function.update_same, fillCascade_cuts, fillCascade_fHisto,
        List.count_cons_self]
      by_cases ha : cascSelection m t c (heap p).cuts = true
      · simp [ha, List.replicate_succ, List.append_assoc]
      · simp [ha]
    · have hq : (q == p) = false := by
        simpa using fun e : q = p => h e.symm
      simp [Function.update_noteq h, List.count_cons, hq]

/-! ## The hypothesis-dependent locals -/

theorem v0Locals_dEdx_kLambda (c : V0Candidate) (r : V0Cuts)
    (h : r.MassHypothesis = V0MassHypo.kLambda) :
    (v0Locals c r).lNegdEdx = c.fTreeVariableNSigmasNegPion ∧
    (v0Locals c r).lPosdEdx = c.fTreeVariableNSigmasPosProton := by
  unfold v0Locals
  simp only [h]
  split_ifs <;> simp_all

/-! ## The selection as the conjunction of its checks -/

theorem mem_v0CheckOrder (k : V0Check) : k ∈ v0CheckOrder := by
  cases k <;> simp [v0CheckOrder]

theorem v0Selection_iff (m : TMath) (c : V0Candidate) (r : V0Cuts) :
    v0Selection m c r = true ↔ ∀ k, v0Check m c r k = true := by
  unfold v0Selection
  rw [List.all_eq_true]
  exact ⟨fun h k => h k (mem_v0CheckOrder k), fun h k _ => h k⟩

theorem v0Selection_eq_false_of_check (m : TMath) (c : V0Candidate) (r : V0Cuts)
    (k : V0Check) (h : v0Check m c r k = false) : v0Selection m c r = false := by
  cases hs : v0Selection m c r
  · rfl
  · rw [(v0Selection_iff m c r).1 hs k] at h
    exact absurd h (by decide)

theorem mem_cascCheckOrder (k : CascadeCheck) : k ∈ cascCheckOrder := by
  cases k <;> simp [cascCheckOrder]

theorem cascSelection_iff (m : TMath) (t : CascadeTask) (c : CascadeCandidate)
    (r : CascadeCuts) :
    cascSelection m t c r = true ↔ ∀ k, cascCheck m t c r k = true := by
  unfold cascSelection
  rw [List.all_eq_true]
  exact ⟨fun h k => h k (mem_cascCheckOrder k), fun h k _ => h k⟩

theorem cascSelection_eq_false_of_check (m : TMath) (t : CascadeTask) (c : CascadeCandidate)
    (r : CascadeCuts) (k : CascadeCheck) (h : cascCheck m t c r k = false) :
    cascSelection m t c r = false := by
  cases hs : cascSelection m t c r
  · rfl
  · rw [(cascSelection_iff m t c r).1 hs k] at h
    exact absurd h (by decide)

theorem cascSelection_congr (m : TMath) (t : CascadeTask) (c c' : CascadeCandidate)
    (r r' : CascadeCuts) (h : ∀ k, cascCheck m t c r k = cascCheck m t c' r' k) :
    cascSelection m t c r = cascSelection m t c' r' := by
  unfold cascSelection
  congr 1
  funext k
  exact h k

theorem v0Selection_congr (m : TMath) (c c' : V0Candidate) (r r' : V0Cuts)
    (h : ∀ k, v0Check m c r k = v0Check m c' r' k) :
    v0Selection m c r = v0Selection m c' r' := by
  unfold v0Selection
  congr 1
  funext k
  exact h k

theorem sampleCascade_passes (k : CascadeCheck) :
    cascCheck polyTMath standardCascadeTask sampleCascade wideCascadeCuts k = true := by
  cases k <;>
    (simp [cascCheck, cascLocals, lV0CosPACutCasc, lVarV0CosPACasc, lCascCosPACut,
      lVarCascCosPA, lBBCosPACut, lVarBBCosPA, lDCACascDauCut, lVarDCACascDau, varCosPAOf,
      varCosPA, lExpV0Mass, lExpV0Sigma, l276TeVV0CosPA, absRatioLt, ratioGt, hasITSrefit,
      kITSrefit, polyTMath, standardCascadeTask, wideCascadeCuts, sampleCascade] <;>
      norm_num [abs_lt, lt_abs, abs_le, le_abs])

theorem ite_gt_eq_max (a b : ℚ) : (if b > a then b else a) = max a b := by
  rcases lt_or_le a b with h | h
  · rw [if_pos h, max_eq_right h.le]
  · rw [if_neg (not_lt.2 h), max_eq_left h]

theorem ite_lt_eq_min (a b : ℚ) : (if b < a then b else a) = min a b := by
  rcases lt_or_le b a with h | h
  · rw [if_pos h, min_eq_right h.le]
  · rw [if_neg (not_lt.2 h), min_eq_left h]

theorem lV0CosPACut_eq (m : TMath) (c : V0Candidate) (r : V0Cuts) :
    lV0CosPACut m c r =
      if r.CutUseVarV0CosPA then max r.CutV0CosPA (lVarV0CosPA m c r) else r.CutV0CosPA := by
  unfold lV0CosPACut
  rw [ite_gt_eq_max]

theorem lV0CosPACutCasc_eq (m : TMath) (c : CascadeCandidate) (r : CascadeCuts) :
    lV0CosPACutCasc m c r =
      if r.CutUseVarV0CosPA then max r.CutV0CosPA (lVarV0CosPACasc m c r)
      else r.CutV0CosPA := by
  unfold lV0CosPACutCasc
  rw [ite_gt_eq_max]

theorem lCascCosPACut_eq (m : TMath) (c : CascadeCandidate) (r : CascadeCuts) :
    lCascCosPACut m c r =
      if r.CutUseVarCascCosPA then max r.CutCascCosPA (lVarCascCosPA m c r)
      else r.CutCascCosPA := by
  unfold lCascCosPACut
  rw [ite_gt_eq_max]

theorem lDCACascDauCut_eq (m : TMath) (c : CascadeCandidate) (r : CascadeCuts) :
    lDCACascDauCut m c r =
      if r.CutUseVarDCACascDau then min r.CutDCACascDaughters (lVarDCACascDau m c r)
      else r.CutDCACascDaughters := by
  unfold lDCACascDauCut
  rw [ite_lt_eq_min]

theorem sampleV0_accepted_var :
    v0Accept polyTMath sampleV0 varV0Cuts = true := by
  simp [v0Accept, v0Selection, v0CheckOrder, v0MCSelection, v0Check, v0Locals, v0LocalsInit,
    lV0CosPACut, lVarV0CosPA, varCosPA, hasITSrefit, kITSrefit, polyTMath, varV0Cuts,
    topologicalQACentralV0, lMassHypoV0, lLifetimeCut, wideV0Cuts, sampleV0]
  norm_num [abs_lt, lt_abs, abs_le, le_abs]

theorem sampleCascade_passes_var (k : CascadeCheck) :
    cascCheck polyTMath standardCascadeTask sampleCascade varCascadeCuts k = true := by
  cases k <;>
    (simp [cascCheck, cascLocals, lV0CosPACutCasc, lVarV0CosPACasc, lCascCosPACut,
      lVarCascCosPA, lBBCosPACut, lVarBBCosPA, lDCACascDauCut, lVarDCACascDau, varCosPAOf,
      varCosPA, lExpV0Mass, lExpV0Sigma, l276TeVV0CosPA, absRatioLt, ratioGt, hasITSrefit,
      kITSrefit, polyTMath, standardCascadeTask, varCascadeCuts, wideCascadeCuts,
      sampleCascade] <;>
      norm_num [abs_lt, lt_abs, abs_le, le_abs])

theorem cascLocals_lCharge (c : CascadeCandidate) (r : CascadeCuts) :
    (cascLocals c r).lCharge =
      match r.MassHypothesis with
      | .kXiMinus => -1
      | .kXiPlus => 1
      | .kOmegaMinus => -1
      | .kOmegaPlus => 1 := by
  unfold cascLocals
  cases r.MassHypothesis <;> simp <;> split_ifs <;> rfl

theorem sampleV0_passes (k : V0Check) :
    v0Check polyTMath sampleV0 (topologicalQACentralV0 wideV0Cuts 1) k = true := by
  cases k <;>
    (simp [v0Check, v0Locals, v0LocalsInit, lV0CosPACut, lVarV0CosPA, varCosPA, hasITSrefit,
      kITSrefit, polyTMath, topologicalQACentralV0, lMassHypoV0, lLifetimeCut, wideV0Cuts,
      sampleV0] <;>
      norm_num [abs_lt, lt_abs, abs_le, le_abs])

theorem sampleV0_mc :
    v0MCSelection sampleV0 (topologicalQACentralV0 wideV0Cuts 1) = true := by
  simp [v0MCSelection, topologicalQACentralV0, wideV0Cuts]

theorem v0Accept_iff_check (m : TMath) (c : V0Candidate) (r : V0Cuts) (k : V0Check)
    (hothers : ∀ k', k' ≠ k → v0Check m c r k' = true) (hmc : v0MCSelection c r = true) :
    v0Accept m c r = true ↔ v0Check m c r k = true := by
  unfold v0Accept
  rw [hmc, Bool.and_true, v0Selection_iff]
  constructor
  · intro h
    exact h k
  · intro h k'
    by_cases hk : k' = k
    · rw [hk]; exact h
    · exact hothers k' hk

theorem v0Accept_eq_false_of_check (m : TMath) (c : V0Candidate) (r : V0Cuts) (k : V0Check)
    (h : v0Check m c r k = false) : v0Accept m c r = false := by
  unfold v0Accept
  rw [v0Selection_eq_false_of_check m c r k h, Bool.false_and]

theorem cascSelection_iff_check (m : TMath) (t : CascadeTask) (c : CascadeCandidate)
    (r : CascadeCuts) (k : CascadeCheck)
    (hothers : ∀ k', k' ≠ k → cascCheck m t c r k' = true) :
    cascSelection m t c r = true ↔ cascCheck m t c r k = true := by
  rw [cascSelection_iff]
  constructor
  · intro h
    exact h k
  · intro h k'
    by_cases hk : k' = k
    · rw [hk]; exact h
    · exact hothers k' hk

/-! ## Properties of the selection and of the configuration loops -/

/-- C1. For every V0 candidate (and every cascade candidate), every heap of
result objects and every list of registered addresses, running the
configuration loop leaves the cut values of each result object unchanged and
appends to the histogram of the object at address `p` one copy of the fill
point per occurrence of `p` in the list if the candidate is accepted under
the cuts of `p`, and nothing otherwise: acceptance and fill point are
functions of the candidate and of the cuts of `p` alone, whatever the
position of `p` in the list and whatever the other registered objects. -/
theorem C1_configuration_loop_is_pure (m : TMath) (t : CascadeTask) :
    (∀ (c : V0Candidate) (heap : V0Heap) (fListV0 : List ℕ) (p : ℕ),
      ((loopV0 m c heap fListV0) p).cuts = (heap p).cuts ∧
      ((loopV0 m c heap fListV0) p).fHisto =
        (heap p).fHisto ++
          List.replicate (if v0Accept m c (heap p).cuts then fListV0.count p else 0)
            (v0FillPoint c (heap p).cuts)) ∧
    (∀ (c : CascadeCandidate) (heap : CascadeHeap) (fListCascade : List ℕ) (p : ℕ),
      ((loopCascade m t c heap fListCascade) p).cuts = (heap p).cuts ∧
      ((loopCascade m t c heap fListCascade) p).fHisto =
        (heap p).fHisto ++
          List.replicate
            (if cascSelection m t c (heap p).cuts then fListCascade.count p else 0)
            (cascFillPoint c (heap p).cuts)) :=
  ⟨fun c heap l p => ⟨loopV0_cuts m c l heap p, loopV0_fHisto m c l heap p⟩,
   fun c heap l p => ⟨loopCascade_cuts m t c l heap p, loopCascade_fHisto m t c l heap p⟩⟩

/-- C2. For a V0 candidate and a Lambda configuration with the parametric
pointing-angle cut not in use, if every check other than the pointing-angle
check passes (and the Monte Carlo requirements hold) the candidate is
accepted iff its cosine of pointing angle exceeds the scalar cut
`CutV0CosPA`.  In particular a candidate with cosine 0.999, radius 5.0 and
n-sigmas 1.0 that passes the remaining checks of the Lambda `Central`
configuration of `AddTopologicalQAV0` (cut 0.98) is accepted by it and is
rejected by the same configuration with the cut set to 0.9995. -/
theorem C2_scalar_pointing_angle_cut (m : TMath) :
    (∀ (c : V0Candidate) (r : V0Cuts),
      r.MassHypothesis = V0MassHypo.kLambda →
      r.CutUseVarV0CosPA = false →
      (∀ k, k ≠ V0Check.v0CosPA → v0Check m c r k = true) →
      v0MCSelection c r = true →
      (v0Accept m c r = true ↔ c.fTreeVariableV0CosineOfPointingAngle > r.CutV0CosPA)) ∧
    (∀ (c : V0Candidate) (d : V0Cuts),
      d.CutUseVarV0CosPA = false →
      c.fTreeVariableV0CosineOfPointingAngle = 999/1000 →
      c.fTreeVariableV0Radius = 5 →
      c.fTreeVariableNSigmasNegPion = 1 →
      c.fTreeVariableNSigmasPosProton = 1 →
      (∀ k, k ≠ V0Check.v0CosPA → k ≠ V0Check.v0RadiusMin → k ≠ V0Check.tpcdEdxNeg →
        k ≠ V0Check.tpcdEdxPos → v0Check m c (topologicalQACentralV0 d 1) k = true) →
      v0MCSelection c (topologicalQACentralV0 d 1) = true →
      v0Accept m c (topologicalQACentralV0 d 1) = true ∧
      v0Accept m c { topologicalQACentralV0 d 1 with CutV0CosPA := 9995/10000 } = false) := by
  refine ⟨?_, ?_⟩
  · intro c r _ hvar hothers hmc
    have hcut : lV0CosPACut m c r = r.CutV0CosPA := by simp [lV0CosPACut, hvar]
    unfold v0Accept
    rw [hmc, Bool.and_true, v0Selection_iff]
    constructor
    · intro h
      have := h V0Check.v0CosPA
      simpa [v0Check, hcut] using this
    · intro h k
      by_cases hk : k = V0Check.v0CosPA
      · subst hk
        simpa [v0Check, hcut] using h
      · exact hothers k hk
  · intro c d hvar hcos hrad hneg hpos hothers hmc
    constructor
    · unfold v0Accept
      rw [hmc, Bool.and_true, v0Selection_iff]
      intro k
      by_cases h1 : k = V0Check.v0CosPA
      · subst h1
        simp [v0Check, lV0CosPACut, topologicalQACentralV0, hvar, hcos]
        norm_num
      by_cases h2 : k = V0Check.v0RadiusMin
      · subst h2
        simp [v0Check, topologicalQACentralV0, hrad]
        norm_num
      by_cases h3 : k = V0Check.tpcdEdxNeg
      · subst h3
        have hl := (v0Locals_dEdx_kLambda c (topologicalQACentralV0 d 1) rfl).1
        have hcut : (topologicalQACentralV0 d 1).CutTPCdEdx = 4 := rfl
        simp only [v0Check, decide_eq_true_eq, hl, hneg, hcut]
        norm_num
      by_cases h4 : k = V0Check.tpcdEdxPos
      · subst h4
        have hl := (v0Locals_dEdx_kLambda c (topologicalQACentralV0 d 1) rfl).2
        have hcut : (topologicalQACentralV0 d 1).CutTPCdEdx = 4 := rfl
        simp only [v0Check, decide_eq_true_eq, hl, hpos, hcut]
        norm_num
      exact hothers k h1 h2 h3 h4
    · unfold v0Accept
      rw [v0Selection_eq_false_of_check m c _ V0Check.v0CosPA, Bool.false_and]
      simp [v0Check, lV0CosPACut, topologicalQACentralV0, hvar, hcos]
      norm_num

/-- A concrete instance of C2: `sampleV0` against the Lambda `Central`
configuration built on `wideV0Cuts`. -/
theorem C2_scalar_pointing_angle_cut_witness :
    (v0Accept polyTMath sampleV0 (topologicalQACentralV0 wideV0Cuts 1) = true ↔
      sampleV0.fTreeVariableV0CosineOfPointingAngle >
        (topologicalQACentralV0 wideV0Cuts 1).CutV0CosPA) ∧
    (v0Accept polyTMath sampleV0 (topologicalQACentralV0 wideV0Cuts 1) = true ∧
      v0Accept polyTMath sampleV0
        { topologicalQACentralV0 wideV0Cuts 1 with CutV0CosPA := 9995/10000 } = false) :=
  ⟨(C2_scalar_pointing_angle_cut polyTMath).1 sampleV0 (topologicalQACentralV0 wideV0Cuts 1)
      rfl rfl (fun k _ => sampleV0_passes k) sampleV0_mc,
   (C2_scalar_pointing_angle_cut polyTMath).2 sampleV0 wideV0Cuts rfl rfl rfl rfl rfl
      (fun k _ _ _ _ => sampleV0_passes k) sampleV0_mc⟩

/-- C3. Under the OmegaMinus or OmegaPlus hypothesis a cascade candidate
whose mass as Xi is not more than `CutXiRejection` away from 1.32171 is
rejected whatever its other fields and whatever the other cuts; under the
XiMinus or XiPlus hypothesis the selection does not depend on the value of
`CutXiRejection`. -/
theorem C3_xi_rejection (m : TMath) (t : CascadeTask) :
    (∀ (c : CascadeCandidate) (r : CascadeCuts),
      (r.MassHypothesis = CascadeMassHypo.kOmegaMinus ∨
        r.MassHypothesis = CascadeMassHypo.kOmegaPlus) →
      ¬ (|c.fTreeCascVarMassAsXi - 132171/100000| > r.CutXiRejection) →
      cascSelection m t c r = false) ∧
    (∀ (c : CascadeCandidate) (r : CascadeCuts) (x : ℚ),
      (r.MassHypothesis = CascadeMassHypo.kXiMinus ∨
        r.MassHypothesis = CascadeMassHypo.kXiPlus) →
      cascSelection m t c { r with CutXiRejection := x } = cascSelection m t c r) := by
  refine ⟨?_, ?_⟩
  · intro c r hhyp hmass
    apply cascSelection_eq_false_of_check m t c r CascadeCheck.xiRejection
    rcases hhyp with h | h <;> simp [cascCheck, h, hmass]
  · intro c r x hhyp
    apply cascSelection_congr
    intro k
    cases k <;>
      first
      | rfl
      | (rcases hhyp with h | h <;> simp [cascCheck, h])

/-- A concrete instance of C3: `sampleCascade` with its mass as Xi set to
1.320 against the OmegaMinus cuts `wideCascadeCuts` (`CutXiRejection` 0.008),
which accept it with the mass 1.35, and the same candidate under the XiMinus hypothesis with the rejection
margin changed to 1/2. -/
theorem C3_xi_rejection_witness :
    cascSelection polyTMath standardCascadeTask sampleCascade wideCascadeCuts = true ∧
    cascSelection polyTMath standardCascadeTask
        { sampleCascade with fTreeCascVarMassAsXi := 1320/1000 } wideCascadeCuts = false ∧
    cascSelection polyTMath standardCascadeTask sampleCascade
        { wideCascadeCuts with
          MassHypothesis := CascadeMassHypo.kXiMinus, CutXiRejection := 1/2 } =
      cascSelection polyTMath standardCascadeTask sampleCascade
        { wideCascadeCuts with MassHypothesis := CascadeMassHypo.kXiMinus } :=
  ⟨(cascSelection_iff _ _ _ _).2 sampleCascade_passes,
   (C3_xi_rejection polyTMath standardCascadeTask).1
      { sampleCascade with fTreeCascVarMassAsXi := 1320/1000 } wideCascadeCuts
      (Or.inl rfl)
      (by
        show ¬ (|(1320/1000 : ℚ) - 132171/100000| > 8/1000)
        norm_num [abs_lt, lt_abs, abs_le, le_abs]),
   (C3_xi_rejection polyTMath standardCascadeTask).2 sampleCascade
      { wideCascadeCuts with MassHypothesis := CascadeMassHypo.kXiMinus } (1/2)
      (Or.inl rfl)⟩

/-- C4. The threshold compared with the candidate's cosine of pointing angle
(V0 cosine in the V0 loop; V0 cosine and cascade cosine in the cascade loop)
is `max(scalar cut, Cos(c0*Exp(c1*pT) + c2*Exp(c3*pT) + c4))` when the
configuration's use-parametric flag is set and the scalar cut otherwise;
hence a candidate accepted with the flag switched on is accepted by the
otherwise identical configuration with the flag off. -/
theorem C4_pointing_angle_threshold (m : TMath) (t : CascadeTask) :
    (∀ (c : V0Candidate) (r : V0Cuts),
      v0Check m c r V0Check.v0CosPA =
        decide (c.fTreeVariableV0CosineOfPointingAngle >
          (if r.CutUseVarV0CosPA then
            max r.CutV0CosPA
              (m.Cos (r.CutVarV0CosPAExp0Const * m.Exp (r.CutVarV0CosPAExp0Slope * c.fTreeVariablePt)
                + r.CutVarV0CosPAExp1Const * m.Exp (r.CutVarV0CosPAExp1Slope * c.fTreeVariablePt)
                + r.CutVarV0CosPAConst))
          else r.CutV0CosPA))) ∧
    (∀ (c : CascadeCandidate) (r : CascadeCuts),
      cascCheck m t c r CascadeCheck.v0CosPA =
        decide (c.fTreeCascVarV0CosPointingAngle >
          (if r.CutUseVarV0CosPA then
            max r.CutV0CosPA
              (m.Cos (r.CutVarV0CosPA.Exp0Const * m.Exp (r.CutVarV0CosPA.Exp0Slope * c.fTreeCascVarPt)
                + r.CutVarV0CosPA.Exp1Const * m.Exp (r.CutVarV0CosPA.Exp1Slope * c.fTreeCascVarPt)
                + r.CutVarV0CosPA.Const))
          else r.CutV0CosPA))) ∧
    (∀ (c : CascadeCandidate) (r : CascadeCuts),
      cascCheck m t c r CascadeCheck.cascCosPA =
        decide (c.fTreeCascVarCascCosPointingAngle >
          (if r.CutUseVarCascCosPA then
            max r.CutCascCosPA
              (m.Cos (r.CutVarCascCosPA.Exp0Const *
                    m.Exp (r.CutVarCascCosPA.Exp0Slope * c.fTreeCascVarPt)
                + r.CutVarCascCosPA.Exp1Const *
                    m.Exp (r.CutVarCascCosPA.Exp1Slope * c.fTreeCascVarPt)
                + r.CutVarCascCosPA.Const))
          else r.CutCascCosPA))) ∧
    (∀ (c : V0Candidate) (r : V0Cuts),
      v0Accept m c { r with CutUseVarV0CosPA := true } = true →
      v0Accept m c { r with CutUseVarV0CosPA := false } = true) ∧
    (∀ (c : CascadeCandidate) (r : CascadeCuts),
      cascSelection m t c { r with CutUseVarV0CosPA := true } = true →
      cascSelection m t c { r with CutUseVarV0CosPA := false } = true) ∧
    (∀ (c : CascadeCandidate) (r : CascadeCuts),
      cascSelection m t c { r with CutUseVarCascCosPA := true } = true →
      cascSelection m t c { r with CutUseVarCascCosPA := false } = true) := by
  refine ⟨?_, ?_, ?_, ?_, ?_, ?_⟩
  · intro c r
    simp only [v0Check, lV0CosPACut_eq]
    rfl
  · intro c r
    simp only [cascCheck, lV0CosPACutCasc_eq]
    rfl
  · intro c r
    simp only [cascCheck, lCascCosPACut_eq]
    rfl
  · intro c r h
    unfold v0Accept at h ⊢
    rw [Bool.and_eq_true] at h ⊢
    refine ⟨?_, h.2⟩
    have hs := (v0Selection_iff _ _ _).1 h.1
    rw [v0Selection_iff]
    intro k
    have hk := hs k
    cases k <;>
      first
      | exact hk
      | (simp only [v0Check, lV0CosPACut_eq, decide_eq_true_eq] at hk ⊢
         exact lt_of_le_of_lt (le_max_left _ _) hk)
  · intro c r h
    have hs := (cascSelection_iff _ _ _ _).1 h
    rw [cascSelection_iff]
    intro k
    have hk := hs k
    cases k <;>
      first
      | exact hk
      | (simp only [cascCheck, lV0CosPACutCasc_eq, decide_eq_true_eq] at hk ⊢
         exact lt_of_le_of_lt (le_max_left _ _) hk)
  · intro c r h
    have hs := (cascSelection_iff _ _ _ _).1 h
    rw [cascSelection_iff]
    intro k
    have hk := hs k
    cases k <;>
      first
      | exact hk
      | (simp only [cascCheck, lCascCosPACut_eq, decide_eq_true_eq] at hk ⊢
         exact lt_of_le_of_lt (le_max_left _ _) hk)

/-- A concrete instance of the last three parts of C4: `sampleV0` and
`sampleCascade` are accepted with the parametric cuts of `varV0Cuts` and
`varCascadeCuts` in use, hence also with the flags switched off. -/
theorem C4_pointing_angle_threshold_witness :
    v0Accept polyTMath sampleV0 { varV0Cuts with CutUseVarV0CosPA := false } = true ∧
    cascSelection polyTMath standardCascadeTask sampleCascade
      { varCascadeCuts with CutUseVarV0CosPA := false } = true ∧
    cascSelection polyTMath standardCascadeTask sampleCascade
      { varCascadeCuts with CutUseVarCascCosPA := false } = true :=
  ⟨(C4_pointing_angle_threshold polyTMath standardCascadeTask).2.2.2.1 sampleV0 varV0Cuts
      sampleV0_accepted_var,
   (C4_pointing_angle_threshold polyTMath standardCascadeTask).2.2.2.2.1 sampleCascade
      varCascadeCuts ((cascSelection_iff _ _ _ _).2 sampleCascade_passes_var),
   (C4_pointing_angle_threshold polyTMath standardCascadeTask).2.2.2.2.2 sampleCascade
      varCascadeCuts ((cascSelection_iff _ _ _ _).2 sampleCascade_passes_var)⟩

/-- C5. The threshold compared with the candidate's cascade-daughter DCA is
`min(scalar cut, c0*Exp(c1*pT) + c2*Exp(c3*pT) + c4)` when the configuration's
use-parametric-DCA flag is set and the scalar cut `CutDCACascDaughters`
otherwise. -/
theorem C5_cascade_daughter_dca_threshold (m : TMath) (t : CascadeTask)
    (c : CascadeCandidate) (r : CascadeCuts) :
    cascCheck m t c r CascadeCheck.dcaCascDaughters =
      decide (c.fTreeCascVarDCACascDaughters <
        (if r.CutUseVarDCACascDau then
          min r.CutDCACascDaughters
            (r.CutVarDCACascDau.Exp0Const * m.Exp (r.CutVarDCACascDau.Exp0Slope * c.fTreeCascVarPt)
              + r.CutVarDCACascDau.Exp1Const * m.Exp (r.CutVarDCACascDau.Exp1Slope * c.fTreeCascVarPt)
              + r.CutVarDCACascDau.Const)
        else r.CutDCACascDaughters)) := by
  simp only [cascCheck, lDCACascDauCut_eq]
  rfl

/-- C6. Given `TMath::Exp(0) = 1`, parametric coefficients with
`c1 = c3 = 0` make the parametric value the same for every transverse
momentum: `Cos(c0 + c2 + c4)` for the pointing-angle cuts of both loops and
`c0 + c2 + c4` for the cascade-daughter DCA cut; and a configuration using
such a parametric cut with a scalar cut that is not tighter selects exactly
the candidates selected by the scalar-only configuration whose cut is that
constant. -/
theorem C6_constant_parametric_cut (m : TMath) (t : CascadeTask) (hexp : m.Exp 0 = 1) :
    (∀ (c : V0Candidate) (r : V0Cuts),
      r.CutVarV0CosPAExp0Slope = 0 → r.CutVarV0CosPAExp1Slope = 0 →
      lVarV0CosPA m c r =
        m.Cos (r.CutVarV0CosPAExp0Const + r.CutVarV0CosPAExp1Const + r.CutVarV0CosPAConst) ∧
      (r.CutUseVarV0CosPA = true →
        r.CutV0CosPA ≤
          m.Cos (r.CutVarV0CosPAExp0Const + r.CutVarV0CosPAExp1Const + r.CutVarV0CosPAConst) →
        v0Accept m c r =
          v0Accept m c
            { r with
              CutUseVarV0CosPA := false
              CutV0CosPA :=
                m.Cos (r.CutVarV0CosPAExp0Const + r.CutVarV0CosPAExp1Const +
                  r.CutVarV0CosPAConst) })) ∧
    (∀ (c : CascadeCandidate) (r : CascadeCuts),
      r.CutVarV0CosPA.Exp0Slope = 0 → r.CutVarV0CosPA.Exp1Slope = 0 →
      lVarV0CosPACasc m c r =
        m.Cos (r.CutVarV0CosPA.Exp0Const + r.CutVarV0CosPA.Exp1Const + r.CutVarV0CosPA.Const) ∧
      (r.CutUseVarV0CosPA = true →
        r.CutV0CosPA ≤
          m.Cos (r.CutVarV0CosPA.Exp0Const + r.CutVarV0CosPA.Exp1Const +
            r.CutVarV0CosPA.Const) →
        cascSelection m t c r =
          cascSelection m t c
            { r with
              CutUseVarV0CosPA := false
              CutV0CosPA :=
                m.Cos (r.CutVarV0CosPA.Exp0Const + r.CutVarV0CosPA.Exp1Const +
                  r.CutVarV0CosPA.Const) })) ∧
    (∀ (c : CascadeCandidate) (r : CascadeCuts),
      r.CutVarCascCosPA.Exp0Slope = 0 → r.CutVarCascCosPA.Exp1Slope = 0 →
      lVarCascCosPA m c r =
        m.Cos (r.CutVarCascCosPA.Exp0Const + r.CutVarCascCosPA.Exp1Const +
          r.CutVarCascCosPA.Const) ∧
      (r.CutUseVarCascCosPA = true →
        r.CutCascCosPA ≤
          m.Cos (r.CutVarCascCosPA.Exp0Const + r.CutVarCascCosPA.Exp1Const +
            r.CutVarCascCosPA.Const) →
        cascSelection m t c r =
          cascSelection m t c
            { r with
              CutUseVarCascCosPA := false
              CutCascCosPA :=
                m.Cos (r.CutVarCascCosPA.Exp0Const + r.CutVarCascCosPA.Exp1Const +
                  r.CutVarCascCosPA.Const) })) ∧
    (∀ (c : CascadeCandidate) (r : CascadeCuts),
      r.CutVarDCACascDau.Exp0Slope = 0 → r.CutVarDCACascDau.Exp1Slope = 0 →
      lVarDCACascDau m c r =
        r.CutVarDCACascDau.Exp0Const + r.CutVarDCACascDau.Exp1Const +
          r.CutVarDCACascDau.Const ∧
      (r.CutUseVarDCACascDau = true →
        r.CutVarDCACascDau.Exp0Const + r.CutVarDCACascDau.Exp1Const +
            r.CutVarDCACascDau.Const ≤ r.CutDCACascDaughters →
        cascSelection m t c r =
          cascSelection m t c
            { r with
              CutUseVarDCACascDau := false
              CutDCACascDaughters :=
                r.CutVarDCACascDau.Exp0Const + r.CutVarDCACascDau.Exp1Const +
                  r.CutVarDCACascDau.Const })) := by
  refine ⟨?_, ?_, ?_, ?_⟩
  · intro c r h1 h3
    have hvar : lVarV0CosPA m c r =
        m.Cos (r.CutVarV0CosPAExp0Const + r.CutVarV0CosPAExp1Const + r.CutVarV0CosPAConst) := by
      simp [lVarV0CosPA, varCosPA, h1, h3, hexp]
    refine ⟨hvar, ?_⟩
    intro huse hle
    unfold v0Accept
    congr 1
    apply v0Selection_congr
    intro k
    cases k <;>
      first
      | rfl
      | simp [v0Check, lV0CosPACut_eq, huse, hvar, max_eq_right hle]
  · intro c r h1 h3
    have hvar : lVarV0CosPACasc m c r =
        m.Cos (r.CutVarV0CosPA.Exp0Const + r.CutVarV0CosPA.Exp1Const +
          r.CutVarV0CosPA.Const) := by
      simp [lVarV0CosPACasc, varCosPAOf, varCosPA, h1, h3, hexp]
    refine ⟨hvar, ?_⟩
    intro huse hle
    apply cascSelection_congr
    intro k
    cases k <;>
      first
      | rfl
      | simp [cascCheck, lV0CosPACutCasc_eq, huse, hvar, max_eq_right hle]
  · intro c r h1 h3
    have hvar : lVarCascCosPA m c r =
        m.Cos (r.CutVarCascCosPA.Exp0Const + r.CutVarCascCosPA.Exp1Const +
          r.CutVarCascCosPA.Const) := by
      simp [lVarCascCosPA, varCosPAOf, varCosPA, h1, h3, hexp]
    refine ⟨hvar, ?_⟩
    intro huse hle
    apply cascSelection_congr
    intro k
    cases k <;>
      first
      | rfl
      | simp [cascCheck, lCascCosPACut_eq, huse, hvar, max_eq_right hle]
  · intro c r h1 h3
    have hvar : lVarDCACascDau m c r =
        r.CutVarDCACascDau.Exp0Const + r.CutVarDCACascDau.Exp1Const +
          r.CutVarDCACascDau.Const := by
      simp [lVarDCACascDau, h1, h3, hexp]
    refine ⟨hvar, ?_⟩
    intro huse hle
    apply cascSelection_congr
    intro k
    cases k <;>
      first
      | rfl
      | simp [cascCheck, lDCACascDauCut_eq, huse, hvar, min_eq_right hle]

/-- A concrete instance of C6 with `polyTMath` (whose `Exp 0` is 1): the
constant parametric cuts of `varV0Cuts` and `varCascadeCuts`. -/
theorem C6_constant_parametric_cut_witness :
    polyTMath.Exp 0 = 1 ∧
    (lVarV0CosPA polyTMath sampleV0 { varV0Cuts with CutV0CosPA := 1/2 } =
        polyTMath.Cos (0 + 0 + 1/2) ∧
      v0Accept polyTMath sampleV0 { varV0Cuts with CutV0CosPA := 1/2 } =
        v0Accept polyTMath sampleV0
          { varV0Cuts with CutUseVarV0CosPA := false, CutV0CosPA := polyTMath.Cos (0 + 0 + 1/2) }) ∧
    (lVarDCACascDau polyTMath sampleCascade varCascadeCuts = 1/4 + 1/4 + 1/4 ∧
      cascSelection polyTMath standardCascadeTask sampleCascade varCascadeCuts =
        cascSelection polyTMath standardCascadeTask sampleCascade
          { varCascadeCuts with
            CutUseVarDCACascDau := false, CutDCACascDaughters := 1/4 + 1/4 + 1/4 }) :=
  ⟨by simp [polyTMath],
   ⟨((C6_constant_parametric_cut polyTMath standardCascadeTask (by simp [polyTMath])).1
        sampleV0 { varV0Cuts with CutV0CosPA := 1/2 } rfl rfl).1,
    ((C6_constant_parametric_cut polyTMath standardCascadeTask (by simp [polyTMath])).1
        sampleV0 { varV0Cuts with CutV0CosPA := 1/2 } rfl rfl).2 rfl
        (by
          show (1/2 : ℚ) ≤ polyTMath.Cos (0 + 0 + 1/2)
          simp [polyTMath]
          norm_num)⟩,
   ⟨((C6_constant_parametric_cut polyTMath standardCascadeTask (by simp [polyTMath])).2.2.2
        sampleCascade varCascadeCuts rfl rfl).1,
    ((C6_constant_parametric_cut polyTMath standardCascadeTask (by simp [polyTMath])).2.2.2
        sampleCascade varCascadeCuts rfl rfl).2 rfl
        (by
          show (1/4 + 1/4 + 1/4 : ℚ) ≤ 1
          norm_num)⟩⟩

/-- C7. A cascade configuration with the XiMinus or OmegaMinus hypothesis
selects only candidates of reconstructed charge -1 and one with the XiPlus or
OmegaPlus hypothesis only candidates of charge +1; a candidate whose charge
is neither -1 nor +1 is rejected by every cascade configuration. -/
theorem C7_charge_consistency (m : TMath) (t : CascadeTask) :
    (∀ (c : CascadeCandidate) (r : CascadeCuts),
      cascSelection m t c r = true →
      ((r.MassHypothesis = CascadeMassHypo.kXiMinus ∨
          r.MassHypothesis = CascadeMassHypo.kOmegaMinus) → c.fTreeCascVarCharge = -1) ∧
      ((r.MassHypothesis = CascadeMassHypo.kXiPlus ∨
          r.MassHypothesis = CascadeMassHypo.kOmegaPlus) → c.fTreeCascVarCharge = 1)) ∧
    (∀ (c : CascadeCandidate) (r : CascadeCuts),
      c.fTreeCascVarCharge ≠ -1 → c.fTreeCascVarCharge ≠ 1 →
      cascSelection m t c r = false) := by
  refine ⟨?_, ?_⟩
  · intro c r h
    have hk := (cascSelection_iff _ _ _ _).1 h CascadeCheck.charge
    simp only [cascCheck, decide_eq_true_eq, cascLocals_lCharge] at hk
    constructor
    · intro hh
      rcases hh with hh | hh <;> simpa [hh] using hk
    · intro hh
      rcases hh with hh | hh <;> simpa [hh] using hk
  · intro c r hm hp
    apply cascSelection_eq_false_of_check m t c r CascadeCheck.charge
    simp only [cascCheck, decide_eq_false_iff_not, cascLocals_lCharge]
    cases r.MassHypothesis <;> simp [hm, hp]

/-- A concrete instance of C7: `sampleCascade` is selected by the OmegaMinus
cuts `wideCascadeCuts`, so its charge is -1; with its charge set to 0 it is
rejected. -/
theorem C7_charge_consistency_witness :
    sampleCascade.fTreeCascVarCharge = -1 ∧
    cascSelection polyTMath standardCascadeTask
      { sampleCascade with fTreeCascVarCharge := 0 } wideCascadeCuts = false :=
  ⟨((C7_charge_consistency polyTMath standardCascadeTask).1 sampleCascade wideCascadeCuts
      ((cascSelection_iff _ _ _ _).2 sampleCascade_passes)).1 (Or.inr rfl),
   (C7_charge_consistency polyTMath standardCascadeTask).2
      { sampleCascade with fTreeCascVarCharge := 0 } wideCascadeCuts
      (by show (0 : ℤ) ≠ -1; decide) (by show (0 : ℤ) ≠ 1; decide)⟩

/-- C8. Each check that carries an explicit "disabled" sentinel passes for
every candidate once the sentinel is configured: maximum chi2 per cluster
above 1000 and minimum track length below 0 in both loops, and in the cascade
loop maximum V0 lifetime above 1000, cascade DCA to the primary vertex above
999, V0 mass sigma above 50 and a weighted daughter DCA cut below 0. -/
theorem C8_disabled_sentinels (m : TMath) (t : CascadeTask) :
    (∀ (c : V0Candidate) (r : V0Cuts),
      (r.CutMaxChi2PerCluster > 1000 → v0Check m c r V0Check.maxChi2PerCluster = true) ∧
      (r.CutMinTrackLength < 0 → v0Check m c r V0Check.minTrackLength = true)) ∧
    (∀ (c : CascadeCandidate) (r : CascadeCuts),
      (r.CutMaxChi2PerCluster > 1000 →
        cascCheck m t c r CascadeCheck.maxChi2PerCluster = true) ∧
      (r.CutMinTrackLength < 0 → cascCheck m t c r CascadeCheck.minTrackLength = true) ∧
      (r.CutMaxV0Lifetime > 1000 → cascCheck m t c r CascadeCheck.maxV0Lifetime = true) ∧
      (r.CutDCACascadeToPV > 999 → cascCheck m t c r CascadeCheck.dcaCascadeToPV = true) ∧
      (r.CutV0MassSigma > 50 → cascCheck m t c r CascadeCheck.v0MassSigma = true) ∧
      (r.CutDCANegToPVWeighted < 0 →
        cascCheck m t c r CascadeCheck.dcaNegToPVWeighted = true) ∧
      (r.CutDCAPosToPVWeighted < 0 →
        cascCheck m t c r CascadeCheck.dcaPosToPVWeighted = true) ∧
      (r.CutDCABachToPVWeighted < 0 →
        cascCheck m t c r CascadeCheck.dcaBachToPVWeighted = true)) := by
  refine ⟨fun c r => ⟨?_, ?_⟩, fun c r => ⟨?_, ?_, ?_, ?_, ?_, ?_, ?_, ?_⟩⟩ <;>
    intro h <;> simp [v0Check, cascCheck, h]

/-- A concrete instance of C8: candidates with extreme measured values
(chi2 per cluster 10^9, track length -10^9, V0 lifetime 10^9, cascade DCA
components 10^9, V0 mass 10^9, daughter DCA -10^9) pass the checks whose
sentinels `wideV0Cuts` and `wideCascadeCuts` configure. -/
theorem C8_disabled_sentinels_witness :
    (v0Check polyTMath { sampleV0 with fTreeVariableMaxChi2PerCluster := 10^9 } wideV0Cuts
        V0Check.maxChi2PerCluster = true ∧
      v0Check polyTMath { sampleV0 with fTreeVariableMinTrackLength := -10^9 } wideV0Cuts
        V0Check.minTrackLength = true) ∧
    (cascCheck polyTMath standardCascadeTask
        { sampleCascade with fTreeCascVarMaxChi2PerCluster := 10^9 } wideCascadeCuts
        CascadeCheck.maxChi2PerCluster = true ∧
      cascCheck polyTMath standardCascadeTask
        { sampleCascade with fTreeCascVarMinTrackLength := -10^9 } wideCascadeCuts
        CascadeCheck.minTrackLength = true ∧
      cascCheck polyTMath standardCascadeTask
        { sampleCascade with fTreeCascVarV0Lifetime := 10^9 } wideCascadeCuts
        CascadeCheck.maxV0Lifetime = true ∧
      cascCheck polyTMath standardCascadeTask
        { sampleCascade with
          fTreeCascVarCascDCAtoPVz := 10^9, fTreeCascVarCascDCAtoPVxy := 10^9 }
        wideCascadeCuts CascadeCheck.dcaCascadeToPV = true ∧
      cascCheck polyTMath standardCascadeTask
        { sampleCascade with fTreeCascVarV0Mass := 10^9 } wideCascadeCuts
        CascadeCheck.v0MassSigma = true ∧
      cascCheck polyTMath standardCascadeTask
        { sampleCascade with fTreeCascVarDCANegToPrimVtx := -10^9 } wideCascadeCuts
        CascadeCheck.dcaNegToPVWeighted = true ∧
      cascCheck polyTMath standardCascadeTask
        { sampleCascade with fTreeCascVarDCAPosToPrimVtx := -10^9 } wideCascadeCuts
        CascadeCheck.dcaPosToPVWeighted = true ∧
      cascCheck polyTMath standardCascadeTask
        { sampleCascade with fTreeCascVarDCABachToPrimVtx := -10^9 } wideCascadeCuts
        CascadeCheck.dcaBachToPVWeighted = true) :=
  ⟨⟨((C8_disabled_sentinels polyTMath standardCascadeTask).1 _ wideV0Cuts).1
        (by show (100000 : ℚ) > 1000; norm_num),
    ((C8_disabled_sentinels polyTMath standardCascadeTask).1 _ wideV0Cuts).2
        (by show (-1 : ℚ) < 0; norm_num)⟩,
   ⟨((C8_disabled_sentinels polyTMath standardCascadeTask).2 _ wideCascadeCuts).1
        (by show (100000 : ℚ) > 1000; norm_num),
    ((C8_disabled_sentinels polyTMath standardCascadeTask).2 _ wideCascadeCuts).2.1
        (by show (-1 : ℚ) < 0; norm_num),
    ((C8_disabled_sentinels polyTMath standardCascadeTask).2 _ wideCascadeCuts).2.2.1
        (by show (1000000 : ℚ) > 1000; norm_num),
    ((C8_disabled_sentinels polyTMath standardCascadeTask).2 _ wideCascadeCuts).2.2.2.1
        (by show (1000 : ℚ) > 999; norm_num),
    ((C8_disabled_sentinels polyTMath standardCascadeTask).2 _ wideCascadeCuts).2.2.2.2.1
        (by show (1000 : ℚ) > 50; norm_num),
    ((C8_disabled_sentinels polyTMath standardCascadeTask).2 _ wideCascadeCuts).2.2.2.2.2.1
        (by show (-1 : ℚ) < 0; norm_num),
    ((C8_disabled_sentinels polyTMath standardCascadeTask).2 _ wideCascadeCuts).2.2.2.2.2.2.1
        (by show (-1 : ℚ) < 0; norm_num),
    ((C8_disabled_sentinels polyTMath standardCascadeTask).2 _ wideCascadeCuts).2.2.2.2.2.2.2
        (by show (-1 : ℚ) < 0; norm_num)⟩⟩

/-- C9, counterexample. `sampleV0` against the Lambda `Central` cuts of
`AddTopologicalQAV0` with `CutDCAV0Daughters` set to the candidate's own
daughter-daughter DCA, 1/2: the measured value equals the configured
maximum, every other check and the Monte Carlo requirements pass, and the
candidate is not accepted. -/
theorem C9_counterexample :
    sampleV0.fTreeVariableDcaV0Daughters =
      ({ topologicalQACentralV0 wideV0Cuts 1 with CutDCAV0Daughters := 1/2 } : V0Cuts).CutDCAV0Daughters ∧
    (∀ k, k ≠ V0Check.dcaV0Daughters →
      v0Check polyTMath sampleV0
        { topologicalQACentralV0 wideV0Cuts 1 with CutDCAV0Daughters := 1/2 } k = true) ∧
    v0MCSelection sampleV0
      { topologicalQACentralV0 wideV0Cuts 1 with CutDCAV0Daughters := 1/2 } = true ∧
    v0Accept polyTMath sampleV0
      { topologicalQACentralV0 wideV0Cuts 1 with CutDCAV0Daughters := 1/2 } = false := by
  refine ⟨rfl, ?_, sampleV0_mc, ?_⟩
  · intro k hk
    have hsame :
        v0Check polyTMath sampleV0
            { topologicalQACentralV0 wideV0Cuts 1 with CutDCAV0Daughters := 1/2 } k =
          v0Check polyTMath sampleV0 (topologicalQACentralV0 wideV0Cuts 1) k := by
      cases k <;>
        first
        | exact absurd rfl hk
        | rfl
    rw [hsame]
    exact sampleV0_passes k
  · apply v0Accept_eq_false_of_check _ _ _ V0Check.dcaV0Daughters
    simp [v0Check, sampleV0]

/-- C9, amended. The upper-bound checks of both loops are strict: a
candidate whose daughter-daughter DCA equals `CutDCAV0Daughters`, whose proper
lifetime equals `CutProperLifetime`, or one of whose |n-sigma| equals
`CutTPCdEdx` is rejected whatever its other values; and a candidate that
passes all the other checks is accepted iff the measured value is strictly
below the configured maximum. -/
theorem C9_upper_bounds_are_strict (m : TMath) (t : CascadeTask) :
    (∀ (c : V0Candidate) (r : V0Cuts),
      (c.fTreeVariableDcaV0Daughters = r.CutDCAV0Daughters → v0Accept m c r = false) ∧
      (c.fTreeVariableDistOverTotMom * (v0Locals c r).lPDGMass = r.CutProperLifetime →
        v0Accept m c r = false) ∧
      (|(v0Locals c r).lNegdEdx| = r.CutTPCdEdx → v0Accept m c r = false) ∧
      (|(v0Locals c r).lPosdEdx| = r.CutTPCdEdx → v0Accept m c r = false) ∧
      (v0MCSelection c r = true →
        ((∀ k, k ≠ V0Check.dcaV0Daughters → v0Check m c r k = true) →
          (v0Accept m c r = true ↔ c.fTreeVariableDcaV0Daughters < r.CutDCAV0Daughters)) ∧
        ((∀ k, k ≠ V0Check.properLifetime → v0Check m c r k = true) →
          (v0Accept m c r = true ↔
            c.fTreeVariableDistOverTotMom * (v0Locals c r).lPDGMass < r.CutProperLifetime)) ∧
        ((∀ k, k ≠ V0Check.tpcdEdxNeg → v0Check m c r k = true) →
          (v0Accept m c r = true ↔ |(v0Locals c r).lNegdEdx| < r.CutTPCdEdx)) ∧
        ((∀ k, k ≠ V0Check.tpcdEdxPos → v0Check m c r k = true) →
          (v0Accept m c r = true ↔ |(v0Locals c r).lPosdEdx| < r.CutTPCdEdx)))) ∧
    (∀ (c : CascadeCandidate) (r : CascadeCuts),
      (c.fTreeCascVarDCAV0Daughters = r.CutDCAV0Daughters → cascSelection m t c r = false) ∧
      (c.fTreeCascVarDistOverTotMom * (cascLocals c r).lPDGMass = r.CutProperLifetime →
        cascSelection m t c r = false) ∧
      (|(cascLocals c r).lNegdEdx| = r.CutTPCdEdx → cascSelection m t c r = false) ∧
      (|(cascLocals c r).lPosdEdx| = r.CutTPCdEdx → cascSelection m t c r = false) ∧
      (|(cascLocals c r).lBachdEdx| = r.CutTPCdEdx → cascSelection m t c r = false) ∧
      ((∀ k, k ≠ CascadeCheck.dcaV0Daughters → cascCheck m t c r k = true) →
        (cascSelection m t c r = true ↔
          c.fTreeCascVarDCAV0Daughters < r.CutDCAV0Daughters)) ∧
      ((∀ k, k ≠ CascadeCheck.properLifetime → cascCheck m t c r k = true) →
        (cascSelection m t c r = true ↔
          c.fTreeCascVarDistOverTotMom * (cascLocals c r).lPDGMass < r.CutProperLifetime)) ∧
      ((∀ k, k ≠ CascadeCheck.tpcdEdxNeg → cascCheck m t c r k = true) →
        (cascSelection m t c r = true ↔ |(cascLocals c r).lNegdEdx| < r.CutTPCdEdx)) ∧
      ((∀ k, k ≠ CascadeCheck.tpcdEdxPos → cascCheck m t c r k = true) →
        (cascSelection m t c r = true ↔ |(cascLocals c r).lPosdEdx| < r.CutTPCdEdx)) ∧
      ((∀ k, k ≠ CascadeCheck.tpcdEdxBach → cascCheck m t c r k = true) →
        (cascSelection m t c r = true ↔ |(cascLocals c r).lBachdEdx| < r.CutTPCdEdx))) := by
  refine ⟨fun c r => ⟨?_, ?_, ?_, ?_, fun hmc => ⟨?_, ?_, ?_, ?_⟩⟩,
    fun c r => ⟨?_, ?_, ?_, ?_, ?_, ?_, ?_, ?_, ?_, ?_⟩⟩
  · intro h
    apply v0Accept_eq_false_of_check m c r V0Check.dcaV0Daughters
    simp [v0Check, h]
  · intro h
    apply v0Accept_eq_false_of_check m c r V0Check.properLifetime
    simp [v0Check, h]
  · intro h
    apply v0Accept_eq_false_of_check m c r V0Check.tpcdEdxNeg
    simp [v0Check, h]
  · intro h
    apply v0Accept_eq_false_of_check m c r V0Check.tpcdEdxPos
    simp [v0Check, h]
  · intro ho
    rw [v0Accept_iff_check m c r V0Check.dcaV0Daughters ho hmc]
    simp [v0Check]
  · intro ho
    rw [v0Accept_iff_check m c r V0Check.properLifetime ho hmc]
    simp [v0Check]
  · intro ho
    rw [v0Accept_iff_check m c r V0Check.tpcdEdxNeg ho hmc]
    simp [v0Check]
  · intro ho
    rw [v0Accept_iff_check m c r V0Check.tpcdEdxPos ho hmc]
    simp [v0Check]
  · intro h
    apply cascSelection_eq_false_of_check m t c r CascadeCheck.dcaV0Daughters
    simp [cascCheck, h]
  · intro h
    apply cascSelection_eq_false_of_check m t c r CascadeCheck.properLifetime
    simp [cascCheck, h]
  · intro h
    apply cascSelection_eq_false_of_check m t c r CascadeCheck.tpcdEdxNeg
    simp [cascCheck, h]
  · intro h
    apply cascSelection_eq_false_of_check m t c r CascadeCheck.tpcdEdxPos
    simp [cascCheck, h]
  · intro h
    apply cascSelection_eq_false_of_check m t c r CascadeCheck.tpcdEdxBach
    simp [cascCheck, h]
  · intro ho
    rw [cascSelection_iff_check m t c r CascadeCheck.dcaV0Daughters ho]
    simp [cascCheck]
  · intro ho
    rw [cascSelection_iff_check m t c r CascadeCheck.properLifetime ho]
    simp [cascCheck]
  · intro ho
    rw [cascSelection_iff_check m t c r CascadeCheck.tpcdEdxNeg ho]
    simp [cascCheck]
  · intro ho
    rw [cascSelection_iff_check m t c r CascadeCheck.tpcdEdxPos ho]
    simp [cascCheck]
  · intro ho
    rw [cascSelection_iff_check m t c r CascadeCheck.tpcdEdxBach ho]
    simp [cascCheck]

/-- A concrete instance of the amended C9: `sampleV0` is rejected when
`CutDCAV0Daughters` equals its daughter-daughter DCA 1/2 and accepted by the
Lambda `Central` cuts, whose bound 1.2 is strictly above; `sampleCascade` is
rejected when `CutDCAV0Daughters` equals its value 1/2 and selected by
`wideCascadeCuts`, whose bound is 1. -/
theorem C9_upper_bounds_are_strict_witness :
    v0Accept polyTMath sampleV0
      { topologicalQACentralV0 wideV0Cuts 1 with CutDCAV0Daughters := 1/2 } = false ∧
    (v0Accept polyTMath sampleV0 (topologicalQACentralV0 wideV0Cuts 1) = true ↔
      sampleV0.fTreeVariableDcaV0Daughters <
        (topologicalQACentralV0 wideV0Cuts 1).CutDCAV0Daughters) ∧
    cascSelection polyTMath standardCascadeTask sampleCascade
      { wideCascadeCuts with CutDCAV0Daughters := 1/2 } = false ∧
    (cascSelection polyTMath standardCascadeTask sampleCascade wideCascadeCuts = true ↔
      sampleCascade.fTreeCascVarDCAV0Daughters < wideCascadeCuts.CutDCAV0Daughters) :=
  ⟨((C9_upper_bounds_are_strict polyTMath standardCascadeTask).1 sampleV0
      { topologicalQACentralV0 wideV0Cuts 1 with CutDCAV0Daughters := 1/2 }).1 rfl,
   (((C9_upper_bounds_are_strict polyTMath standardCascadeTask).1 sampleV0
      (topologicalQACentralV0 wideV0Cuts 1)).2.2.2.2 sampleV0_mc).1
      (fun k _ => sampleV0_passes k),
   ((C9_upper_bounds_are_strict polyTMath standardCascadeTask).2 sampleCascade
      { wideCascadeCuts with CutDCAV0Daughters := 1/2 }).1 rfl,
   ((C9_upper_bounds_are_strict polyTMath standardCascadeTask).2 sampleCascade
      wideCascadeCuts).2.2.2.2.2.1 (fun k _ => sampleCascade_passes k)⟩

theorem v0Check_tpcdEdx_276Cuts (m : TMath) (c : V0Candidate) (central : V0Cuts) (i : ℕ) :
    (v0Check m c (standardV0_276Cuts central i) V0Check.tpcdEdxNeg = true ↔
      |(v0Locals c (standardV0_276Cuts central i)).lNegdEdx| < 1000000) ∧
    (v0Check m c (standardV0_276Cuts central i) V0Check.tpcdEdxPos = true ↔
      |(v0Locals c (standardV0_276Cuts central i)).lPosdEdx| < 1000000) := by
  constructor <;> simp only [v0Check, decide_eq_true_eq] <;> exact Iff.rfl

/-- C10, evaluation at the failing input. The Lambda `_276Cuts` configuration
of `AddStandardV0Configuration` has the TPC dE/dx cut 10^6, the value the
source sets under the comment "no cut here".  `sampleV0`, whose negative
daughter has the pion n-sigma 1, passes the TPC dE/dx check of the negative
daughter in this configuration; the same candidate with that n-sigma set to
10^6 fails the check, so the selection of the configuration rejects it. -/
theorem C10_no_cut_value_rejects :
    (standardV0_276Cuts { wideV0Cuts with MassHypothesis := V0MassHypo.kLambda } 1).CutTPCdEdx
      = 1000000 ∧
    v0Check polyTMath sampleV0
      (standardV0_276Cuts { wideV0Cuts with MassHypothesis := V0MassHypo.kLambda } 1)
      V0Check.tpcdEdxNeg = true ∧
    v0Check polyTMath { sampleV0 with fTreeVariableNSigmasNegPion := 1000000 }
      (standardV0_276Cuts { wideV0Cuts with MassHypothesis := V0MassHypo.kLambda } 1)
      V0Check.tpcdEdxNeg = false ∧
    v0Selection polyTMath { sampleV0 with fTreeVariableNSigmasNegPion := 1000000 }
      (standardV0_276Cuts { wideV0Cuts with MassHypothesis := V0MassHypo.kLambda } 1)
      = false := by
  have hfail : v0Check polyTMath { sampleV0 with fTreeVariableNSigmasNegPion := 1000000 }
      (standardV0_276Cuts { wideV0Cuts with MassHypothesis := V0MassHypo.kLambda } 1)
      V0Check.tpcdEdxNeg = false := by
    simp [v0Check, v0Locals, v0LocalsInit, standardV0_276Cuts, wideV0Cuts]
  refine ⟨rfl, ?_, hfail, v0Selection_eq_false_of_check _ _ _ _ hfail⟩
  simp [v0Check, v0Locals, v0LocalsInit, standardV0_276Cuts, wideV0Cuts, sampleV0]

/-! ## Fill points and rapidity of the two loops -/

theorem v0Locals_lMass (c : V0Candidate) (r : V0Cuts) :
    (v0Locals c r).lMass =
      match r.MassHypothesis with
      | .kK0Short => c.fTreeVariableInvMassK0s
      | .kLambda => c.fTreeVariableInvMassLambda
      | .kAntiLambda => c.fTreeVariableInvMassAntiLambda := by
  unfold v0Locals
  cases r.MassHypothesis <;> simp <;> split_ifs <;> rfl

theorem v0Locals_lRap (c : V0Candidate) (r : V0Cuts) :
    (v0Locals c r).lRap =
      if r.CutMCUseMCProperties then c.fTreeVariableRapMC
      else
        match r.MassHypothesis with
        | .kK0Short => c.fTreeVariableRapK0Short
        | .kLambda => c.fTreeVariableRapLambda
        | .kAntiLambda => c.fTreeVariableRapLambda := by
  unfold v0Locals
  cases r.MassHypothesis <;> simp <;> split_ifs <;> rfl

theorem cascLocals_lMass (c : CascadeCandidate) (r : CascadeCuts) :
    (cascLocals c r).lMass =
      match r.MassHypothesis with
      | .kXiMinus => c.fTreeCascVarMassAsXi
      | .kXiPlus => c.fTreeCascVarMassAsXi
      | .kOmegaMinus => c.fTreeCascVarMassAsOmega
      | .kOmegaPlus => c.fTreeCascVarMassAsOmega := by
  unfold cascLocals
  cases r.MassHypothesis <;> simp <;> split_ifs <;> rfl

theorem cascLocals_lRap (c : CascadeCandidate) (r : CascadeCuts) :
    (cascLocals c r).lRap =
      if r.CutMCUseMCProperties then c.fTreeCascVarRapMC
      else
        match r.MassHypothesis with
        | .kXiMinus => c.fTreeCascVarRapXi
        | .kXiPlus => c.fTreeCascVarRapXi
        | .kOmegaMinus => c.fTreeCascVarRapOmega
        | .kOmegaPlus => c.fTreeCascVarRapOmega := by
  unfold cascLocals
  cases r.MassHypothesis <;> simp <;> split_ifs <;> rfl

theorem cascLocals_lPDGCode (c : CascadeCandidate) (r : CascadeCuts) :
    (cascLocals c r).lPDGCode =
      match r.MassHypothesis with
      | .kXiMinus => 3312
      | .kXiPlus => -3312
      | .kOmegaMinus => 3334
      | .kOmegaPlus => -3334 := by
  unfold cascLocals
  cases r.MassHypothesis <;> simp <;> split_ifs <;> rfl

/-- C11. When a candidate is accepted under the cuts of a result object, one
visit of the configuration loop appends exactly one point to the object's
histogram: (event centrality, pT*, invariant mass under the object's mass
hypothesis), pT* being the Monte Carlo transverse momentum if
`CutMCUseMCProperties` is set and the reconstructed one otherwise; and the
rapidity compared with the rapidity window is the Monte Carlo rapidity if
that flag is set and the reconstructed rapidity of the hypothesis otherwise.
This holds in the V0 loop and in the cascade loop. -/
theorem C11_fill_point_and_rapidity (m : TMath) (t : CascadeTask) :
    (∀ (c : V0Candidate) (o : AliV0Result),
      v0Accept m c o.cuts = true →
      (fillV0 m c o).fHisto =
        o.fHisto ++
          [{ x := c.fCentrality
             y := if o.cuts.CutMCUseMCProperties then c.fTreeVariablePtMC
                  else c.fTreeVariablePt
             z := match o.cuts.MassHypothesis with
                  | .kK0Short => c.fTreeVariableInvMassK0s
                  | .kLambda => c.fTreeVariableInvMassLambda
                  | .kAntiLambda => c.fTreeVariableInvMassAntiLambda }]) ∧
    (∀ (c : V0Candidate) (r : V0Cuts) (lRap : ℚ),
      lRap = (if r.CutMCUseMCProperties then c.fTreeVariableRapMC
              else match r.MassHypothesis with
                   | .kK0Short => c.fTreeVariableRapK0Short
                   | .kLambda => c.fTreeVariableRapLambda
                   | .kAntiLambda => c.fTreeVariableRapLambda) →
      v0Check m c r V0Check.rapidityMin = decide (lRap > r.CutMinRapidity) ∧
      v0Check m c r V0Check.rapidityMax = decide (lRap < r.CutMaxRapidity)) ∧
    (∀ (c : CascadeCandidate) (o : AliCascadeResult),
      cascSelection m t c o.cuts = true →
      (fillCascade m t c o).fHisto =
        o.fHisto ++
          [{ x := c.fCentrality
             y := if o.cuts.CutMCUseMCProperties then c.fTreeCascVarPtMC
                  else c.fTreeCascVarPt
             z := match o.cuts.MassHypothesis with
                  | .kXiMinus => c.fTreeCascVarMassAsXi
                  | .kXiPlus => c.fTreeCascVarMassAsXi
                  | .kOmegaMinus => c.fTreeCascVarMassAsOmega
                  | .kOmegaPlus => c.fTreeCascVarMassAsOmega }]) ∧
    (∀ (c : CascadeCandidate) (r : CascadeCuts) (lRap : ℚ),
      lRap = (if r.CutMCUseMCProperties then c.fTreeCascVarRapMC
              else match r.MassHypothesis with
                   | .kXiMinus => c.fTreeCascVarRapXi
                   | .kXiPlus => c.fTreeCascVarRapXi
                   | .kOmegaMinus => c.fTreeCascVarRapOmega
                   | .kOmegaPlus => c.fTreeCascVarRapOmega) →
      cascCheck m t c r CascadeCheck.rapidityMin = decide (lRap > r.CutMinRapidity) ∧
      cascCheck m t c r CascadeCheck.rapidityMax = decide (lRap < r.CutMaxRapidity)) := by
  refine ⟨?_, ?_, ?_, ?_⟩
  · intro c o h
    rw [fillV0_fHisto, if_pos h]
    congr 2
    simp only [v0FillPoint, v0FillPt, v0Locals_lMass]
    cases o.cuts.CutMCUseMCProperties <;> rfl
  · intro c r lRap hl
    subst hl
    refine ⟨?_, ?_⟩ <;> simp only [v0Check, v0Locals_lRap]
  · intro c o h
    rw [fillCascade_fHisto, if_pos h]
    congr 2
    simp only [cascFillPoint, cascFillPt, cascLocals_lMass]
    cases o.cuts.CutMCUseMCProperties <;> rfl
  · intro c r lRap hl
    subst hl
    refine ⟨?_, ?_⟩ <;> simp only [cascCheck, cascLocals_lRap]

/-- A concrete instance of C11: `sampleV0` on a result object with the Lambda
`Central` cuts gets the point (5, 3/2, 1.116) and `sampleCascade` on a result
object with `wideCascadeCuts` the point (5, 2, 1.672). -/
theorem C11_fill_point_and_rapidity_witness :
    (fillV0 polyTMath sampleV0 (sampleV0Heap 0)).fHisto = [⟨5, 3/2, 1116/1000⟩] ∧
    (fillCascade polyTMath standardCascadeTask sampleCascade (sampleCascadeHeap 0)).fHisto =
      [⟨5, 2, 1672/1000⟩] :=
  ⟨(C11_fill_point_and_rapidity polyTMath standardCascadeTask).1 sampleV0 (sampleV0Heap 0)
      ((v0Accept_iff_check _ _ _ V0Check.v0CosPA (fun k _ => sampleV0_passes k)
        sampleV0_mc).2 (sampleV0_passes _)),
   (C11_fill_point_and_rapidity polyTMath standardCascadeTask).2.2.1 sampleCascade
      (sampleCascadeHeap 0) ((cascSelection_iff _ _ _ _).2 sampleCascade_passes)⟩

/-! ## The feed-down matrix -/

theorem fillV0_fHistoFeeddown (m : TMath) (c : V0Candidate) (o : AliV0Result) :
    (fillV0 m c o).fHistoFeeddown =
      if v0Selection m c o.cuts = true ∧ v0FeeddownCondition c o.cuts = true then
        o.fHistoFeeddown.map (fun h => h ++ [v0FeeddownPoint c])
      else o.fHistoFeeddown := by
  unfold fillV0
  split_ifs <;> simp_all

theorem v0Locals_codes (c : V0Candidate) (r : V0Cuts) :
    (v0Locals c r).lPDGCode =
        (match r.MassHypothesis with
          | .kK0Short => 310
          | .kLambda => 3122
          | .kAntiLambda => -3122) ∧
    (v0Locals c r).lPDGCodeXiMother =
        (match r.MassHypothesis with
          | .kK0Short => 0
          | .kLambda => 3312
          | .kAntiLambda => -3312) := by
  unfold v0Locals
  cases r.MassHypothesis <;> simp <;> split_ifs <;> exact ⟨rfl, rfl⟩

/-- C12, counterexample. `sampleV0` with its true PDG code set to 310, on a
result object with the Lambda `Central` cuts that owns an empty feed-down
matrix: the true-mother code is the expected 3312 and the reconstructed
Lambda mass is within 0.010 of 1.116, yet the matrix is not filled. -/
theorem C12_counterexample :
    (sampleV0Heap 0).fHistoFeeddown = some [] ∧
    (sampleV0Heap 0).cuts.MassHypothesis = V0MassHypo.kLambda ∧
    ({ sampleV0 with fTreeVariablePID := 310 } : V0Candidate).fTreeVariablePIDMother = 3312 ∧
    |({ sampleV0 with fTreeVariablePID := 310 } : V0Candidate).fTreeVariableInvMassLambda
        - 1116/1000| < 10/1000 ∧
    (fillV0 polyTMath { sampleV0 with fTreeVariablePID := 310 }
      (sampleV0Heap 0)).fHistoFeeddown = some [] := by
  refine ⟨rfl, rfl, rfl, ?_, ?_⟩
  · show |(1116/1000 : ℚ) - 1116/1000| < 10/1000
    norm_num
  · rw [fillV0_fHistoFeeddown, if_neg]
    · rfl
    · intro h
      have h2 := h.2
      simp [v0FeeddownCondition, (v0Locals_codes _ _).1, (v0Locals_codes _ _).2,
        sampleV0Heap, topologicalQACentralV0, lMassHypoV0, sampleV0] at h2

/-- C12, amended. For a result object that owns a feed-down matrix, one
visit of the V0 loop appends the point (pT, true-mother pT, centrality) to
the matrix when the candidate passes the selection of the object's cuts
(checks 1 to 10), its true-mother primary status is 1, its true-mother code
is the expected one (3312 for Lambda, -3312 for AntiLambda), its own true
code is the code of the hypothesis (3122, -3122) and the reconstructed mass
of the hypothesis is within 0.010 of 1.116; in every other case the matrix is
left as it is. -/
theorem C12_feeddown_fill (m : TMath) (c : V0Candidate) (o : AliV0Result) (h : TH3F)
    (hown : o.fHistoFeeddown = some h) :
    ((v0Selection m c o.cuts = true ∧
        c.fTreeVariablePrimaryStatusMother = 1 ∧
        c.fTreeVariablePIDMother =
          (match o.cuts.MassHypothesis with
            | .kK0Short => 0
            | .kLambda => 3312
            | .kAntiLambda => -3312) ∧
        c.fTreeVariablePID =
          (match o.cuts.MassHypothesis with
            | .kK0Short => 310
            | .kLambda => 3122
            | .kAntiLambda => -3122) ∧
        |(match o.cuts.MassHypothesis with
            | .kK0Short => c.fTreeVariableInvMassK0s
            | .kLambda => c.fTreeVariableInvMassLambda
            | .kAntiLambda => c.fTreeVariableInvMassAntiLambda) - 1116/1000| < 10/1000) →
      (fillV0 m c o).fHistoFeeddown =
        some (h ++ [{ x := c.fTreeVariablePt, y := c.fTreeVariablePtMother,
                      z := c.fCentrality }])) ∧
    (¬ (v0Selection m c o.cuts = true ∧
        c.fTreeVariablePrimaryStatusMother = 1 ∧
        c.fTreeVariablePIDMother =
          (match o.cuts.MassHypothesis with
            | .kK0Short => 0
            | .kLambda => 3312
            | .kAntiLambda => -3312) ∧
        c.fTreeVariablePID =
          (match o.cuts.MassHypothesis with
            | .kK0Short => 310
            | .kLambda => 3122
            | .kAntiLambda => -3122) ∧
        |(match o.cuts.MassHypothesis with
            | .kK0Short => c.fTreeVariableInvMassK0s
            | .kLambda => c.fTreeVariableInvMassLambda
            | .kAntiLambda => c.fTreeVariableInvMassAntiLambda) - 1116/1000| < 10/1000) →
      (fillV0 m c o).fHistoFeeddown = some h) := by
  have hcond : v0FeeddownCondition c o.cuts = true ↔
      (c.fTreeVariablePrimaryStatusMother = 1 ∧
        c.fTreeVariablePIDMother =
          (match o.cuts.MassHypothesis with
            | .kK0Short => 0
            | .kLambda => 3312
            | .kAntiLambda => -3312) ∧
        c.fTreeVariablePID =
          (match o.cuts.MassHypothesis with
            | .kK0Short => 310
            | .kLambda => 3122
            | .kAntiLambda => -3122) ∧
        |(match o.cuts.MassHypothesis with
            | .kK0Short => c.fTreeVariableInvMassK0s
            | .kLambda => c.fTreeVariableInvMassLambda
            | .kAntiLambda => c.fTreeVariableInvMassAntiLambda) - 1116/1000| < 10/1000) := by
    simp only [v0FeeddownCondition, (v0Locals_codes c o.cuts).1, (v0Locals_codes c o.cuts).2,
      v0Locals_lMass, Bool.and_eq_true, decide_eq_true_eq]
    tauto
  rw [fillV0_fHistoFeeddown, hown]
  constructor
  · intro hc
    rw [if_pos ⟨hc.1, hcond.2 hc.2⟩]
    rfl
  · intro hc
    rw [if_neg]
    intro hh
    exact hc ⟨hh.1, hcond.1 hh.2⟩

/-- A concrete instance of the amended C12: `sampleV0` (true code 3122,
true-mother code 3312 of primary status 1, Lambda mass 1.116) passes the
Lambda `Central` selection and its point (3/2, 2, 5) enters the feed-down
matrix. -/
theorem C12_feeddown_fill_witness :
    (fillV0 polyTMath sampleV0 (sampleV0Heap 0)).fHistoFeeddown = some [⟨3/2, 2, 5⟩] :=
  (C12_feeddown_fill polyTMath sampleV0 (sampleV0Heap 0) [] rfl).1
    ⟨(v0Selection_iff _ _ _).2 sampleV0_passes, rfl, rfl, rfl, by
      show |(1116/1000 : ℚ) - 1116/1000| < 10/1000
      norm_num⟩

/-- C13. For cascade cuts whose physical-primary, PDG-association,
select-bump and use-MC-properties flags are all off, replacing the
truth-association values of a candidate (true PDG code, primary status, the
three mother labels, the bachelor-mother code, true pT and true rapidity) by
any other values changes neither the selection nor the point
(centrality, pT, mass) that is filled; switching the physical-primary flag on
adds exactly the condition primary status = 1 to the selection, and switching
the PDG-association flag on adds exactly the condition true PDG code = code
of the hypothesis (3312, -3312, 3334, -3334). -/
theorem C13_truth_fields_and_gates (m : TMath) (t : CascadeTask) :
    (∀ (c : CascadeCandidate) (r : CascadeCuts)
        (aPID aPrimary aPosLabel aNegLabel aBachLabel aPIDBachMother : ℤ) (aPtMC aRapMC : ℚ),
      r.CutMCPhysicalPrimary = false → r.CutMCPDGCodeAssociation = false →
      r.CutMCSelectBump = false → r.CutMCUseMCProperties = false →
      cascSelection m t
          { c with
            fTreeCascVarPID := aPID
            fTreeCascVarIsPhysicalPrimary := aPrimary
            fTreeCascVarPosLabelMother := aPosLabel
            fTreeCascVarNegLabelMother := aNegLabel
            fTreeCascVarBachLabelMother := aBachLabel
            fTreeCascVarPIDBachelorMother := aPIDBachMother
            fTreeCascVarPtMC := aPtMC
            fTreeCascVarRapMC := aRapMC } r = cascSelection m t c r ∧
      cascFillPoint
          { c with
            fTreeCascVarPID := aPID
            fTreeCascVarIsPhysicalPrimary := aPrimary
            fTreeCascVarPosLabelMother := aPosLabel
            fTreeCascVarNegLabelMother := aNegLabel
            fTreeCascVarBachLabelMother := aBachLabel
            fTreeCascVarPIDBachelorMother := aPIDBachMother
            fTreeCascVarPtMC := aPtMC
            fTreeCascVarRapMC := aRapMC } r = cascFillPoint c r) ∧
    (∀ (c : CascadeCandidate) (r : CascadeCuts),
      r.CutMCPhysicalPrimary = false →
      cascSelection m t c { r with CutMCPhysicalPrimary := true } =
        (cascSelection m t c r && decide (c.fTreeCascVarIsPhysicalPrimary = 1))) ∧
    (∀ (c : CascadeCandidate) (r : CascadeCuts),
      r.CutMCPDGCodeAssociation = false →
      cascSelection m t c { r with CutMCPDGCodeAssociation := true } =
        (cascSelection m t c r &&
          decide (c.fTreeCascVarPID =
            match r.MassHypothesis with
            | .kXiMinus => 3312
            | .kXiPlus => -3312
            | .kOmegaMinus => 3334
            | .kOmegaPlus => -3334))) := by
  refine ⟨?_, ?_, ?_⟩
  · intro c r aPID aPrimary aPosLabel aNegLabel aBachLabel aPIDBachMother aPtMC aRapMC
      h1 h2 h3 h4
    constructor
    · apply cascSelection_congr
      intro k
      cases k <;>
        first
        | rfl
        | simp [cascCheck, cascLocals, h1, h2, h3, h4]
    · simp [cascFillPoint, cascFillPt, cascLocals, h4]
  · intro c r hflag
    rw [Bool.eq_iff_iff, Bool.and_eq_true, cascSelection_iff, cascSelection_iff,
      decide_eq_true_eq]
    constructor
    · intro h
      refine ⟨fun k => ?_, ?_⟩
      · have hk := h k
        cases k <;>
          first
          | exact hk
          | simp [cascCheck, hflag]
      · simpa [cascCheck] using h CascadeCheck.mcPhysicalPrimary
    · rintro ⟨h, hp⟩ k
      have hk := h k
      cases k <;>
        first
        | exact hk
        | simp [cascCheck, hp]
  · intro c r hflag
    rw [Bool.eq_iff_iff, Bool.and_eq_true, cascSelection_iff, cascSelection_iff,
      decide_eq_true_eq]
    constructor
    · intro h
      refine ⟨fun k => ?_, ?_⟩
      · have hk := h k
        cases k <;>
          first
          | exact hk
          | simp [cascCheck, hflag]
      · have hk := h CascadeCheck.mcPDGCodeAssociation
        simp only [cascCheck, cascLocals_lPDGCode, Bool.not_true, Bool.false_or,
          decide_eq_true_eq] at hk
        exact hk
    · rintro ⟨h, hp⟩ k
      have hk := h k
      cases k <;>
        first
        | exact hk
        | (simp only [cascCheck, cascLocals_lPDGCode, Bool.not_true, Bool.false_or,
            decide_eq_true_eq]
           exact hp)

/-- A concrete instance of C13: `sampleCascade` against `wideCascadeCuts`
(all four flags off) with its truth values replaced, and the two gates
switched on. -/
theorem C13_truth_fields_and_gates_witness :
    (cascSelection polyTMath standardCascadeTask
        { sampleCascade with
          fTreeCascVarPID := 0
          fTreeCascVarIsPhysicalPrimary := 0
          fTreeCascVarPosLabelMother := -1
          fTreeCascVarNegLabelMother := -1
          fTreeCascVarBachLabelMother := -1
          fTreeCascVarPIDBachelorMother := -9999
          fTreeCascVarPtMC := -100
          fTreeCascVarRapMC := -20 } wideCascadeCuts =
        cascSelection polyTMath standardCascadeTask sampleCascade wideCascadeCuts) ∧
    cascSelection polyTMath standardCascadeTask sampleCascade
        { wideCascadeCuts with CutMCPhysicalPrimary := true } =
      (cascSelection polyTMath standardCascadeTask sampleCascade wideCascadeCuts &&
        decide (sampleCascade.fTreeCascVarIsPhysicalPrimary = 1)) ∧
    cascSelection polyTMath standardCascadeTask sampleCascade
        { wideCascadeCuts with CutMCPDGCodeAssociation := true } =
      (cascSelection polyTMath standardCascadeTask sampleCascade wideCascadeCuts &&
        decide (sampleCascade.fTreeCascVarPID = 3334)) :=
  ⟨((C13_truth_fields_and_gates polyTMath standardCascadeTask).1 sampleCascade
      wideCascadeCuts 0 0 (-1) (-1) (-1) (-9999) (-100) (-20) rfl rfl rfl rfl).1,
   (C13_truth_fields_and_gates polyTMath standardCascadeTask).2.1 sampleCascade
      wideCascadeCuts rfl,
   (C13_truth_fields_and_gates polyTMath standardCascadeTask).2.2 sampleCascade
      wideCascadeCuts rfl⟩

/-! ## Monte Carlo association of V0 and cascade candidates -/

theorem primaryStatus_eq (stack : AliStack) (lbl init : ℤ) :
    primaryStatus stack lbl init =
      if stack.IsSecondaryFromMaterial lbl then 3
      else if stack.IsSecondaryFromWeakDecay lbl then 2
      else if stack.IsPhysicalPrimary lbl then 1
      else init := by
  unfold primaryStatus
  split_ifs <;> rfl

/-- C14. V0 truth association: if the mother labels of the positive and of
the negative daughter are equal and greater than -1, the true PDG code is the
code of that mother and the true pT is that mother's pT, and the
grand-mother's code, pT and primary status are recorded when the mother's own
mother label is greater than -1 and keep their unassociated values -1, -1 and
0 when it is not; if the two mother labels differ or are negative, true PDG
code, mother code, true pT and primary status keep their unassociated values
-1, -1, -1 and 0. -/
theorem C14_v0_truth_association (stack : AliStack) (posLabel negLabel : ℤ) :
    (((stack.Particle |posLabel|).FirstMother = (stack.Particle |negLabel|).FirstMother ∧
        (stack.Particle |posLabel|).FirstMother > -1) →
      (v0MCAssociation stack posLabel negLabel).fTreeVariablePID =
          (stack.Particle (stack.Particle |posLabel|).FirstMother).PdgCode ∧
      (v0MCAssociation stack posLabel negLabel).fTreeVariablePtMC =
          (stack.Particle (stack.Particle |posLabel|).FirstMother).Pt ∧
      ((stack.Particle (stack.Particle |posLabel|).FirstMother).FirstMother > -1 →
        (v0MCAssociation stack posLabel negLabel).fTreeVariablePIDMother =
            (stack.Particle
              (stack.Particle (stack.Particle |posLabel|).FirstMother).FirstMother).PdgCode ∧
        (v0MCAssociation stack posLabel negLabel).fTreeVariablePtMother =
            (stack.Particle
              (stack.Particle (stack.Particle |posLabel|).FirstMother).FirstMother).Pt ∧
        (v0MCAssociation stack posLabel negLabel).fTreeVariablePrimaryStatusMother =
            (if stack.IsSecondaryFromMaterial
                (stack.Particle (stack.Particle |posLabel|).FirstMother).FirstMother then 3
             else if stack.IsSecondaryFromWeakDecay
                (stack.Particle (stack.Particle |posLabel|).FirstMother).FirstMother then 2
             else if stack.IsPhysicalPrimary
                (stack.Particle (stack.Particle |posLabel|).FirstMother).FirstMother then 1
             else 0)) ∧
      (¬ ((stack.Particle (stack.Particle |posLabel|).FirstMother).FirstMother > -1) →
        (v0MCAssociation stack posLabel negLabel).fTreeVariablePIDMother = -1 ∧
        (v0MCAssociation stack posLabel negLabel).fTreeVariablePtMother = -1 ∧
        (v0MCAssociation stack posLabel negLabel).fTreeVariablePrimaryStatusMother = 0)) ∧
    (¬ ((stack.Particle |posLabel|).FirstMother = (stack.Particle |negLabel|).FirstMother ∧
        (stack.Particle |posLabel|).FirstMother > -1) →
      (v0MCAssociation stack posLabel negLabel).fTreeVariablePID = -1 ∧
      (v0MCAssociation stack posLabel negLabel).fTreeVariablePIDMother = -1 ∧
      (v0MCAssociation stack posLabel negLabel).fTreeVariablePtMC = -1 ∧
      (v0MCAssociation stack posLabel negLabel).fTreeVariablePrimaryStatus = 0) := by
  constructor
  · intro h
    refine ⟨?_, ?_, ?_, ?_⟩
    · unfold v0MCAssociation
      simp only [if_pos h]
      split_ifs <;> rfl
    · unfold v0MCAssociation
      simp only [if_pos h]
      split_ifs <;> rfl
    · intro hg
      unfold v0MCAssociation
      simp only [if_pos h, if_pos hg, primaryStatus_eq]
      refine ⟨?_, ?_, ?_⟩ <;> split_ifs <;> rfl
    · intro hg
      unfold v0MCAssociation
      simp only [if_pos h, if_neg hg]
      refine ⟨?_, ?_, ?_⟩ <;> split_ifs <;> rfl
  · intro h
    unfold v0MCAssociation
    simp only [if_neg h, and_self]

/-- A concrete instance of C14 on `sampleStack`: the V0 of the tracks 7 and 8
(common mother 5, a Lambda whose mother 3 is a primary Xi-) and the V0 of the
tracks 7 and 9 (different mothers). -/
theorem C14_v0_truth_association_witness :
    ((v0MCAssociation sampleStack 7 8).fTreeVariablePID = 3122 ∧
      (v0MCAssociation sampleStack 7 8).fTreeVariablePtMC = 3/2 ∧
      (v0MCAssociation sampleStack 7 8).fTreeVariablePIDMother = 3312 ∧
      (v0MCAssociation sampleStack 7 8).fTreeVariablePtMother = 2 ∧
      (v0MCAssociation sampleStack 7 8).fTreeVariablePrimaryStatusMother = 1) ∧
    ((v0MCAssociation sampleStack 7 9).fTreeVariablePID = -1 ∧
      (v0MCAssociation sampleStack 7 9).fTreeVariablePIDMother = -1 ∧
      (v0MCAssociation sampleStack 7 9).fTreeVariablePtMC = -1 ∧
      (v0MCAssociation sampleStack 7 9).fTreeVariablePrimaryStatus = 0) :=
  ⟨⟨((C14_v0_truth_association sampleStack 7 8).1 (by decide)).1,
    ((C14_v0_truth_association sampleStack 7 8).1 (by decide)).2.1,
    (((C14_v0_truth_association sampleStack 7 8).1 (by decide)).2.2.1 (by decide)).1,
    (((C14_v0_truth_association sampleStack 7 8).1 (by decide)).2.2.1 (by decide)).2.1,
    (((C14_v0_truth_association sampleStack 7 8).1 (by decide)).2.2.1 (by decide)).2.2⟩,
   (C14_v0_truth_association sampleStack 7 9).2 (by decide)⟩

theorem regularMCAssociation_eq (m : TMath) (stack : AliStack)
    (lblPos lblNeg lblBach : ℤ) (s : CascadeMCInfo) :
    (((stack.Particle lblPos).FirstMother = (stack.Particle lblNeg).FirstMother ∧
        0 ≤ (stack.Particle lblPos).FirstMother ∧
        0 ≤ (stack.Particle (stack.Particle lblPos).FirstMother).FirstMother ∧
        |(stack.Particle lblBach).FirstMother| =
          (stack.Particle (stack.Particle lblPos).FirstMother).FirstMother) →
      (regularMCAssociation m stack lblPos lblNeg lblBach s).lPDGCodeCascade =
          (stack.Particle |(stack.Particle lblBach).FirstMother|).PdgCode ∧
      (regularMCAssociation m stack lblPos lblNeg lblBach s).lXiTransvMomMC =
          (stack.Particle |(stack.Particle lblBach).FirstMother|).Pt ∧
      (regularMCAssociation m stack lblPos lblNeg lblBach s).fTreeCascVarIsPhysicalPrimary =
          primaryStatus stack |(stack.Particle lblBach).FirstMother|
            s.fTreeCascVarIsPhysicalPrimary) ∧
    (¬ ((stack.Particle lblPos).FirstMother = (stack.Particle lblNeg).FirstMother ∧
        0 ≤ (stack.Particle lblPos).FirstMother ∧
        0 ≤ (stack.Particle (stack.Particle lblPos).FirstMother).FirstMother ∧
        |(stack.Particle lblBach).FirstMother| =
          (stack.Particle (stack.Particle lblPos).FirstMother).FirstMother) →
      regularMCAssociation m stack lblPos lblNeg lblBach s = s) := by
  constructor
  · rintro ⟨h1, h2, h3, h4⟩
    have h2' : 0 ≤ (stack.Particle lblNeg).FirstMother := h1 ▸ h2
    have h3' : 0 ≤ (stack.Particle (stack.Particle lblNeg).FirstMother).FirstMother :=
      h1 ▸ h3
    have h5 : (stack.Particle (stack.Particle lblPos).FirstMother).FirstMother =
        (stack.Particle (stack.Particle lblNeg).FirstMother).FirstMother := by rw [h1]
    have h6 : (stack.Particle |(stack.Particle lblBach).FirstMother|).PdgCode =
          (stack.Particle (stack.Particle (stack.Particle lblPos).FirstMother).FirstMother).PdgCode ∧
        (stack.Particle |(stack.Particle lblBach).FirstMother|).PdgCode =
          (stack.Particle (stack.Particle (stack.Particle lblNeg).FirstMother).FirstMother).PdgCode := by
      rw [h4, ← h5]
      exact ⟨rfl, rfl⟩
    unfold regularMCAssociation
    simp only [ne_eq, not_not, not_lt]
    rw [if_pos h1, if_pos h2, if_pos h2', if_pos h5, if_pos h3, if_pos h3', if_pos h4,
      if_pos h6]
    refine ⟨?_, ?_, ?_⟩ <;> split_ifs <;> rfl
  · intro h
    unfold regularMCAssociation
    simp only [ne_eq, not_not, not_lt]
    split_ifs with a1 a2 a3 a4 a5 a6 a7 a8 a9 <;> first | rfl | exact absurd ⟨a1, a2, a5, a7⟩ h

theorem cascadeMotherInfo_frame (stack : AliStack) (lblPos lblNeg lblBach : ℤ)
    (s : CascadeMCInfo) :
    (cascadeMotherInfo stack lblPos lblNeg lblBach s).lPDGCodeCascade = s.lPDGCodeCascade ∧
    (cascadeMotherInfo stack lblPos lblNeg lblBach s).lXiTransvMomMC = s.lXiTransvMomMC ∧
    (cascadeMotherInfo stack lblPos lblNeg lblBach s).fTreeCascVarIsPhysicalPrimary =
      s.fTreeCascVarIsPhysicalPrimary ∧
    (cascadeMotherInfo stack lblPos lblNeg lblBach s).lRapMC = s.lRapMC := by
  unfold cascadeMotherInfo
  dsimp only
  refine ⟨?_, ?_, ?_, ?_⟩ <;> split_ifs <;> rfl

theorem cascadeMCAssociation_lPDGCodeCascade (m : TMath) (stack : AliStack)
    (lChargeXi posLabel negLabel bachLabel : ℤ) :
    ((((stack.Particle |posLabel|).FirstMother = (stack.Particle |negLabel|).FirstMother ∧
          0 ≤ (stack.Particle |posLabel|).FirstMother ∧
          0 ≤ (stack.Particle (stack.Particle |posLabel|).FirstMother).FirstMother ∧
          |(stack.Particle |bachLabel|).FirstMother| =
            (stack.Particle (stack.Particle |posLabel|).FirstMother).FirstMother)) →
      (cascadeMCAssociation m stack lChargeXi posLabel negLabel bachLabel).lPDGCodeCascade =
        (stack.Particle |(stack.Particle |bachLabel|).FirstMother|).PdgCode) ∧
    (¬ (((stack.Particle |posLabel|).FirstMother = (stack.Particle |negLabel|).FirstMother ∧
          0 ≤ (stack.Particle |posLabel|).FirstMother ∧
          0 ≤ (stack.Particle (stack.Particle |posLabel|).FirstMother).FirstMother ∧
          |(stack.Particle |bachLabel|).FirstMother| =
            (stack.Particle (stack.Particle |posLabel|).FirstMother).FirstMother)) →
      (cascadeMCAssociation m stack lChargeXi posLabel negLabel bachLabel).lPDGCodeCascade =
        0) := by
  constructor
  · intro h
    show (regularMCAssociation m stack |posLabel| |negLabel| |bachLabel| _).lPDGCodeCascade = _
    exact ((regularMCAssociation_eq m stack _ _ _ _).1 h).1
  · intro h
    show (regularMCAssociation m stack |posLabel| |negLabel| |bachLabel| _).lPDGCodeCascade = _
    rw [(regularMCAssociation_eq m stack _ _ _ _).2 h]
    exact (cascadeMotherInfo_frame stack _ _ _ cascadeMCInit).1

/-- C15, counterexample. On `sampleStack` the V0 daughters 7 and 8 have the
same valid mother label 5.  With the bachelor 10, whose mother label is that
same label 5, the true identity stays 0; with the bachelor 9, whose mother
label 3 is not the shared mother label of the V0 daughters, the true identity
is set to 3312. -/
theorem C15_counterexample :
    (sampleStack.Particle 7).FirstMother = (sampleStack.Particle 8).FirstMother ∧
    (sampleStack.Particle 7).FirstMother > -1 ∧
    (sampleStack.Particle 10).FirstMother = (sampleStack.Particle 7).FirstMother ∧
    (cascadeMCAssociation polyTMath sampleStack (-1) 7 8 10).lPDGCodeCascade = 0 ∧
    (sampleStack.Particle 9).FirstMother ≠ (sampleStack.Particle 7).FirstMother ∧
    (cascadeMCAssociation polyTMath sampleStack (-1) 7 8 9).lPDGCodeCascade = 3312 := by
  refine ⟨by decide, by decide, by decide, ?_, by decide, ?_⟩
  · exact (cascadeMCAssociation_lPDGCodeCascade polyTMath sampleStack (-1) 7 8 10).2
      (by decide)
  · exact (cascadeMCAssociation_lPDGCodeCascade polyTMath sampleStack (-1) 7 8 9).1
      (by decide)

/-- C15, amended. Cascade truth association: the true identity is set to the
PDG code of the bachelor's mother when the two V0 daughters have the same
valid mother label, that common mother has itself a valid mother label, and
the bachelor's mother label equals the label of the common mother's mother;
it keeps its unassociated value 0 when the V0 daughters' mother labels differ
or are negative, when the common mother's mother label is negative, or when
the bachelor's mother label is valid and differs from the label of the common
mother's mother. -/
theorem C15_cascade_truth_association (m : TMath) (stack : AliStack)
    (lChargeXi posLabel negLabel bachLabel : ℤ) :
    (((stack.Particle |posLabel|).FirstMother = (stack.Particle |negLabel|).FirstMother ∧
        0 ≤ (stack.Particle |posLabel|).FirstMother ∧
        0 ≤ (stack.Particle (stack.Particle |posLabel|).FirstMother).FirstMother ∧
        (stack.Particle |bachLabel|).FirstMother =
          (stack.Particle (stack.Particle |posLabel|).FirstMother).FirstMother) →
      (cascadeMCAssociation m stack lChargeXi posLabel negLabel bachLabel).lPDGCodeCascade =
        (stack.Particle (stack.Particle |bachLabel|).FirstMother).PdgCode) ∧
    (¬ ((stack.Particle |posLabel|).FirstMother = (stack.Particle |negLabel|).FirstMother ∧
        0 ≤ (stack.Particle |posLabel|).FirstMother ∧
        0 ≤ (stack.Particle (stack.Particle |posLabel|).FirstMother).FirstMother) →
      (cascadeMCAssociation m stack lChargeXi posLabel negLabel bachLabel).lPDGCodeCascade =
        0) ∧
    ((0 ≤ (stack.Particle |bachLabel|).FirstMother ∧
        (stack.Particle |bachLabel|).FirstMother ≠
          (stack.Particle (stack.Particle |posLabel|).FirstMother).FirstMother) →
      (cascadeMCAssociation m stack lChargeXi posLabel negLabel bachLabel).lPDGCodeCascade =
        0) := by
  refine ⟨?_, ?_, ?_⟩
  · rintro ⟨h1, h2, h3, h4⟩
    have habs : |(stack.Particle |bachLabel|).FirstMother| =
        (stack.Particle |bachLabel|).FirstMother := abs_of_nonneg (h4 ▸ h3)
    have := (cascadeMCAssociation_lPDGCodeCascade m stack lChargeXi posLabel negLabel
      bachLabel).1 ⟨h1, h2, h3, habs.trans h4⟩
    rw [habs] at this
    exact this
  · intro h
    apply (cascadeMCAssociation_lPDGCodeCascade m stack lChargeXi posLabel negLabel
      bachLabel).2
    intro hh
    exact h ⟨hh.1, hh.2.1, hh.2.2.1⟩
  · rintro ⟨h0, hne⟩
    apply (cascadeMCAssociation_lPDGCodeCascade m stack lChargeXi posLabel negLabel
      bachLabel).2
    intro hh
    rw [abs_of_nonneg h0] at hh
    exact hne hh.2.2.2

/-- A concrete instance of the amended C15 on `sampleStack`: the cascade of
the tracks 7, 8 and the bachelor 9 (Xi- of label 3) is associated with 3312;
with the bachelor 10, daughter of the Lambda 5, it is not. -/
theorem C15_cascade_truth_association_witness :
    (cascadeMCAssociation polyTMath sampleStack (-1) 7 8 9).lPDGCodeCascade = 3312 ∧
    (cascadeMCAssociation polyTMath sampleStack (-1) 7 9 8).lPDGCodeCascade = 0 ∧
    (cascadeMCAssociation polyTMath sampleStack (-1) 7 8 10).lPDGCodeCascade = 0 :=
  ⟨(C15_cascade_truth_association polyTMath sampleStack (-1) 7 8 9).1 (by decide),
   (C15_cascade_truth_association polyTMath sampleStack (-1) 7 9 8).2.1 (by decide),
   (C15_cascade_truth_association polyTMath sampleStack (-1) 7 8 10).2.2 (by decide)⟩

/-- C16, evaluation at the failing input. On `sampleStack` the bachelor 14
has mother label -1; the V0 daughters 12 and 13 have the common mother 11,
whose mother has label 1.  The association compares the absolute value of the
bachelor's mother label, 1, with that label and succeeds: true identity 3312,
true pT 3, primary status 1. -/
theorem C16_bachelor_without_mother_is_associated :
    (sampleStack.Particle 14).FirstMother = -1 ∧
    (cascadeMCAssociation polyTMath sampleStack (-1) 12 13 14).lPDGCodeCascade = 3312 ∧
    (cascadeMCAssociation polyTMath sampleStack (-1) 12 13 14).lXiTransvMomMC = 3 ∧
    (cascadeMCAssociation polyTMath sampleStack (-1) 12 13 14).fTreeCascVarIsPhysicalPrimary
      = 1 := by
  have h := (regularMCAssociation_eq polyTMath sampleStack |12| |13| |14|
    (cascadeMotherInfo sampleStack |12| |13| |14| cascadeMCInit)).1 (by decide)
  refine ⟨by decide, h.1, h.2.1, ?_⟩
  refine h.2.2.trans ?_
  rw [(cascadeMotherInfo_frame sampleStack _ _ _ cascadeMCInit).2.2.1]
  decide

theorem swappedPDGCode_of_neg (stack : AliStack) (lChargeXi lblPos lblNeg lblBach : ℤ)
    (h : lChargeXi < 0) :
    swappedPDGCode stack lChargeXi lblPos lblNeg lblBach =
      swappedPDGCode stack (-1) lblPos lblNeg lblBach := by
  unfold swappedPDGCode
  simp only [h, if_true, show ((-1 : ℤ) < 0) from by decide]

theorem swappedPDGCode_of_nonneg (stack : AliStack) (lChargeXi lblPos lblNeg lblBach : ℤ)
    (h : ¬ lChargeXi < 0) :
    swappedPDGCode stack lChargeXi lblPos lblNeg lblBach =
      swappedPDGCode stack 1 lblPos lblNeg lblBach := by
  unfold swappedPDGCode
  simp only [h, if_false, show ¬ ((1 : ℤ) < 0) from by decide]

theorem swappedPDGCode_neg_eq (stack : AliStack) (lblPos lblNeg lblBach : ℤ) :
    (((stack.Particle lblPos).FirstMother = (stack.Particle lblBach).FirstMother ∧
        0 ≤ (stack.Particle lblPos).FirstMother ∧
        0 ≤ (stack.Particle (stack.Particle lblPos).FirstMother).FirstMother ∧
        |(stack.Particle lblNeg).FirstMother| =
          (stack.Particle (stack.Particle lblPos).FirstMother).FirstMother) →
      swappedPDGCode stack (-1) lblPos lblNeg lblBach =
        (stack.Particle |(stack.Particle lblNeg).FirstMother|).PdgCode) ∧
    (¬ ((stack.Particle lblPos).FirstMother = (stack.Particle lblBach).FirstMother ∧
        0 ≤ (stack.Particle lblPos).FirstMother ∧
        0 ≤ (stack.Particle (stack.Particle lblPos).FirstMother).FirstMother ∧
        |(stack.Particle lblNeg).FirstMother| =
          (stack.Particle (stack.Particle lblPos).FirstMother).FirstMother) →
      swappedPDGCode stack (-1) lblPos lblNeg lblBach = 0) := by
  constructor
  · rintro ⟨h1, h2, h3, h4⟩
    have h2' : 0 ≤ (stack.Particle lblBach).FirstMother := h1 ▸ h2
    have h3' : 0 ≤ (stack.Particle (stack.Particle lblBach).FirstMother).FirstMother :=
      h1 ▸ h3
    have h5 : (stack.Particle (stack.Particle lblPos).FirstMother).FirstMother =
        (stack.Particle (stack.Particle lblBach).FirstMother).FirstMother := by rw [h1]
    have h6 : (stack.Particle |(stack.Particle lblNeg).FirstMother|).PdgCode =
          (stack.Particle (stack.Particle (stack.Particle lblPos).FirstMother).FirstMother).PdgCode ∧
        (stack.Particle |(stack.Particle lblNeg).FirstMother|).PdgCode =
          (stack.Particle (stack.Particle (stack.Particle lblBach).FirstMother).FirstMother).PdgCode := by
      rw [h4, ← h5]
      exact ⟨rfl, rfl⟩
    unfold swappedPDGCode
    simp only [show ((-1 : ℤ) < 0) from by decide, if_true, ne_eq, not_not, not_lt]
    rw [if_pos h1, if_pos h2, if_pos h2', if_pos h5, if_pos h3, if_pos h3', if_pos h4,
      if_pos h6]
  · intro h
    unfold swappedPDGCode
    simp only [show ((-1 : ℤ) < 0) from by decide, if_true, ne_eq, not_not, not_lt]
    split_ifs with a1 a2 a3 a4 a5 a6 a7 a8 <;> first | rfl | exact absurd ⟨a1, a2, a5, a7⟩ h

theorem swappedPDGCode_pos_eq (stack : AliStack) (lblPos lblNeg lblBach : ℤ) :
    (((stack.Particle lblBach).FirstMother = (stack.Particle lblNeg).FirstMother ∧
        0 ≤ (stack.Particle lblBach).FirstMother ∧
        0 ≤ (stack.Particle (stack.Particle lblBach).FirstMother).FirstMother ∧
        |(stack.Particle lblPos).FirstMother| =
          (stack.Particle (stack.Particle lblBach).FirstMother).FirstMother) →
      swappedPDGCode stack 1 lblPos lblNeg lblBach =
        (stack.Particle |(stack.Particle lblPos).FirstMother|).PdgCode) ∧
    (¬ ((stack.Particle lblBach).FirstMother = (stack.Particle lblNeg).FirstMother ∧
        0 ≤ (stack.Particle lblBach).FirstMother ∧
        0 ≤ (stack.Particle (stack.Particle lblBach).FirstMother).FirstMother ∧
        |(stack.Particle lblPos).FirstMother| =
          (stack.Particle (stack.Particle lblBach).FirstMother).FirstMother) →
      swappedPDGCode stack 1 lblPos lblNeg lblBach = 0) := by
  constructor
  · rintro ⟨h1, h2, h3, h4⟩
    have h2' : 0 ≤ (stack.Particle lblNeg).FirstMother := h1 ▸ h2
    have h3' : 0 ≤ (stack.Particle (stack.Particle lblNeg).FirstMother).FirstMother :=
      h1 ▸ h3
    have h5 : (stack.Particle (stack.Particle lblBach).FirstMother).FirstMother =
        (stack.Particle (stack.Particle lblNeg).FirstMother).FirstMother := by rw [h1]
    have h6 : (stack.Particle |(stack.Particle lblPos).FirstMother|).PdgCode =
          (stack.Particle (stack.Particle (stack.Particle lblBach).FirstMother).FirstMother).PdgCode ∧
        (stack.Particle |(stack.Particle lblPos).FirstMother|).PdgCode =
          (stack.Particle (stack.Particle (stack.Particle lblNeg).FirstMother).FirstMother).PdgCode := by
      rw [h4, ← h5]
      exact ⟨rfl, rfl⟩
    unfold swappedPDGCode
    simp only [show ¬ ((1 : ℤ) < 0) from by decide, if_false, ne_eq, not_not, not_lt]
    rw [if_pos h1, if_pos h2, if_pos h2', if_pos h5, if_pos h3, if_pos h3', if_pos h4,
      if_pos h6]
  · intro h
    unfold swappedPDGCode
    simp only [show ¬ ((1 : ℤ) < 0) from by decide, if_false, ne_eq, not_not, not_lt]
    split_ifs with a1 a2 a3 a4 a5 a6 a7 a8 <;> first | rfl | exact absurd ⟨a1, a2, a5, a7⟩ h

/-- C17. The swapped association writes only `lPDGCodeCascadeSwapped`: true
identity, true pT, true rapidity and primary status are what the regular
association left; and the swapped identity is the identity the regular walk
finds after exchanging the bachelor with the negative V0 daughter when the
reconstructed charge is negative and with the positive V0 daughter
otherwise. -/
theorem C17_swapped_association (m : TMath) (stack : AliStack)
    (lChargeXi lblPosV0Dghter lblNegV0Dghter lblBach : ℤ) (s : CascadeMCInfo) :
    ((swappedMCAssociation stack lChargeXi lblPosV0Dghter lblNegV0Dghter lblBach
        s).lPDGCodeCascade = s.lPDGCodeCascade ∧
      (swappedMCAssociation stack lChargeXi lblPosV0Dghter lblNegV0Dghter lblBach
        s).lXiTransvMomMC = s.lXiTransvMomMC ∧
      (swappedMCAssociation stack lChargeXi lblPosV0Dghter lblNegV0Dghter lblBach
        s).lRapMC = s.lRapMC ∧
      (swappedMCAssociation stack lChargeXi lblPosV0Dghter lblNegV0Dghter lblBach
        s).fTreeCascVarIsPhysicalPrimary = s.fTreeCascVarIsPhysicalPrimary) ∧
    (swappedMCAssociation stack lChargeXi lblPosV0Dghter lblNegV0Dghter lblBach
        s).lPDGCodeCascadeSwapped =
      (if lChargeXi < 0 then
        (regularMCAssociation m stack lblPosV0Dghter lblBach lblNegV0Dghter
          cascadeMCInit).lPDGCodeCascade
       else
        (regularMCAssociation m stack lblBach lblNegV0Dghter lblPosV0Dghter
          cascadeMCInit).lPDGCodeCascade) := by
  refine ⟨⟨rfl, rfl, rfl, rfl⟩, ?_⟩
  show swappedPDGCode stack lChargeXi lblPosV0Dghter lblNegV0Dghter lblBach = _
  by_cases h : lChargeXi < 0
  · rw [if_pos h, swappedPDGCode_of_neg stack lChargeXi _ _ _ h]
    by_cases hc :
        (stack.Particle lblPosV0Dghter).FirstMother = (stack.Particle lblBach).FirstMother ∧
        0 ≤ (stack.Particle lblPosV0Dghter).FirstMother ∧
        0 ≤ (stack.Particle (stack.Particle lblPosV0Dghter).FirstMother).FirstMother ∧
        |(stack.Particle lblNegV0Dghter).FirstMother| =
          (stack.Particle (stack.Particle lblPosV0Dghter).FirstMother).FirstMother
    · rw [(swappedPDGCode_neg_eq stack _ _ _).1 hc, ((regularMCAssociation_eq m stack _ _ _ _).1 hc).1]
    · rw [(swappedPDGCode_neg_eq stack _ _ _).2 hc, (regularMCAssociation_eq m stack _ _ _ _).2 hc]
      rfl
  · rw [if_neg h, swappedPDGCode_of_nonneg stack lChargeXi _ _ _ h]
    by_cases hc :
        (stack.Particle lblBach).FirstMother = (stack.Particle lblNegV0Dghter).FirstMother ∧
        0 ≤ (stack.Particle lblBach).FirstMother ∧
        0 ≤ (stack.Particle (stack.Particle lblBach).FirstMother).FirstMother ∧
        |(stack.Particle lblPosV0Dghter).FirstMother| =
          (stack.Particle (stack.Particle lblBach).FirstMother).FirstMother
    · rw [(swappedPDGCode_pos_eq stack _ _ _).1 hc, ((regularMCAssociation_eq m stack _ _ _ _).1 hc).1]
    · rw [(swappedPDGCode_pos_eq stack _ _ _).2 hc, (regularMCAssociation_eq m stack _ _ _ _).2 hc]
      rfl

/-! ## Sibling tagging -/

theorem ite_lt_lt_iff (a b c : ℚ) : (if b < a then b else a) < c ↔ a < c ∨ b < c := by
  split_ifs with h
  · constructor
    · intro h1; exact Or.inr h1
    · rintro (h1 | h1)
      · exact lt_trans h h1
      · exact h1
  · constructor
    · intro h1; exact Or.inl h1
    · rintro (h1 | h1)
      · exact h1
      · exact lt_of_le_of_lt (not_lt.1 h) h1

theorem sibStep_pass (stack : AliStack) (lblTrack lblMotherTrack : ℤ) (s : SibInfo) (v : SibV0)
    (h : v.isNull = false ∧ ¬ (v.chargeN > 0 ∧ v.chargeP > 0) ∧
      ¬ (v.chargeN < 0 ∧ v.chargeP < 0) ∧ v.trackMissing = false ∧
      ((lblTrack = |v.labelN| ∧ (stack.Particle |v.labelP|).FirstMother = lblMotherTrack) ∨
        (lblTrack ≠ |v.labelN| ∧ lblTrack = |v.labelP| ∧
          (stack.Particle |v.labelN|).FirstMother = lblMotherTrack)) ∧
      v.tpcRefitP = true ∧ v.tpcRefitN = true ∧
      8/10 ≤ v.crossedRowsOverFindableP ∧ 8/10 ≤ v.crossedRowsOverFindableN ∧
      ((70 ≤ v.crossedRowsP ∧ 70 ≤ v.crossedRowsN) ∨
        (v.hasInnerParamP = true ∧ 80 ≤ v.lengthInActiveZoneP ∧
          v.hasInnerParamN = true ∧ 80 ≤ v.lengthInActiveZoneN))) :
    sibStep stack lblTrack lblMotherTrack s v = { IsValid := 1, vars := v.vars } := by
  obtain ⟨h1, h2, h3, h4, h5, h6, h7, h8, h9, h10⟩ := h
  have hP : |v.labelP| ≠ -9999 := fun e => by
    have := abs_nonneg v.labelP; omega
  have hN : |v.labelN| ≠ -9999 := fun e => by
    have := abs_nonneg v.labelN; omega
  have hratio : ¬ (v.crossedRowsOverFindableP < 8/10 ∨ v.crossedRowsOverFindableN < 8/10) := by
    rintro (h | h) <;> linarith
  have hlen : ¬ ((v.crossedRowsP < 70 ∨ v.crossedRowsN < 70) ∧
      (((1000 : ℚ) < 80 ∨ (if v.hasInnerParamP = true then v.lengthInActiveZoneP else -1) < 80) ∨
        (if v.hasInnerParamN = true then v.lengthInActiveZoneN else -1) < 80)) := by
    rintro ⟨hc, hl⟩
    rcases h10 with ⟨a, b⟩ | ⟨a, b, c, d⟩
    · rcases hc with hc | hc <;> linarith
    · rw [if_pos a, if_pos c] at hl
      rcases hl with (hl | hl) | hl <;> linarith
  unfold sibStep
  simp only [h1, h4, h6, h7, if_neg h2, if_neg h3, ite_lt_lt_iff, if_neg hratio, if_neg hlen]
  rcases h5 with ⟨e, hm⟩ | ⟨ne, e, hm⟩
  · simp [← e, hP, hm]
  · simp [← e, hN, hm, ne]

theorem sibStep_skip (stack : AliStack) (lblTrack lblMotherTrack : ℤ) (s : SibInfo) (v : SibV0)
    (h : ¬ (v.isNull = false ∧ ¬ (v.chargeN > 0 ∧ v.chargeP > 0) ∧
      ¬ (v.chargeN < 0 ∧ v.chargeP < 0) ∧ v.trackMissing = false ∧
      ((lblTrack = |v.labelN| ∧ (stack.Particle |v.labelP|).FirstMother = lblMotherTrack) ∨
        (lblTrack ≠ |v.labelN| ∧ lblTrack = |v.labelP| ∧
          (stack.Particle |v.labelN|).FirstMother = lblMotherTrack)) ∧
      v.tpcRefitP = true ∧ v.tpcRefitN = true ∧
      8/10 ≤ v.crossedRowsOverFindableP ∧ 8/10 ≤ v.crossedRowsOverFindableN ∧
      ((70 ≤ v.crossedRowsP ∧ 70 ≤ v.crossedRowsN) ∨
        (v.hasInnerParamP = true ∧ 80 ≤ v.lengthInActiveZoneP ∧
          v.hasInnerParamN = true ∧ 80 ≤ v.lengthInActiveZoneN)))) :
    sibStep stack lblTrack lblMotherTrack s v = s := by
  unfold sibStep
  dsimp only
  generalize hsib : (if lblTrack = |v.labelN| then |v.labelP|
    else if lblTrack = |v.labelP| then |v.labelN| else -9999) = sib
  generalize hr : (if v.crossedRowsOverFindableN < v.crossedRowsOverFindableP
    then v.crossedRowsOverFindableN else v.crossedRowsOverFindableP) = ratio
  generalize hpl : (if v.hasInnerParamP = true then v.lengthInActiveZoneP else -1) = pl
  generalize hnl : (if v.hasInnerParamN = true then v.lengthInActiveZoneN else -1) = nl
  generalize hl : (if nl < (if pl < 1000 then pl else 1000) then nl
    else (if pl < 1000 then pl else 1000)) = len
  by_cases a1 : v.isNull = true
  · rw [if_pos a1]
  rw [if_neg a1]
  by_cases a2 : v.chargeN > 0 ∧ v.chargeP > 0
  · rw [if_pos a2]
  rw [if_neg a2]
  by_cases a3 : v.chargeN < 0 ∧ v.chargeP < 0
  · rw [if_pos a3]
  rw [if_neg a3]
  by_cases a4 : v.trackMissing = true
  · rw [if_pos a4]
  rw [if_neg a4]
  by_cases a5 : sib = -9999
  · rw [if_pos a5]
  rw [if_neg a5]
  by_cases a6 : (stack.Particle sib).FirstMother ≠ lblMotherTrack
  · rw [if_pos a6]
  rw [if_neg a6]
  by_cases a7 : (!v.tpcRefitP) = true
  · rw [if_pos a7]
  rw [if_neg a7]
  by_cases a8 : (!v.tpcRefitN) = true
  · rw [if_pos a8]
  rw [if_neg a8]
  by_cases a9 : ratio < 8 / 10
  · rw [if_pos a9]
  rw [if_neg a9]
  by_cases a10 : (v.crossedRowsP < 70 ∨ v.crossedRowsN < 70) ∧ len < 80
  · rw [if_pos a10]
  rw [if_neg a10]
  exfalso
  apply h
  have b1 : v.isNull = false := by simpa using a1
  have b4 : v.trackMissing = false := by simpa using a4
  have b7 : v.tpcRefitP = true := by simpa using a7
  have b8 : v.tpcRefitN = true := by simpa using a8
  have b6 : (stack.Particle sib).FirstMother = lblMotherTrack := not_not.1 a6
  have b5 : (lblTrack = |v.labelN| ∧ (stack.Particle |v.labelP|).FirstMother = lblMotherTrack) ∨
      (lblTrack ≠ |v.labelN| ∧ lblTrack = |v.labelP| ∧
        (stack.Particle |v.labelN|).FirstMother = lblMotherTrack) := by
    by_cases e1 : lblTrack = |v.labelN|
    · rw [if_pos e1] at hsib
      exact Or.inl ⟨e1, hsib ▸ b6⟩
    · rw [if_neg e1] at hsib
      by_cases e2 : lblTrack = |v.labelP|
      · rw [if_pos e2] at hsib
        exact Or.inr ⟨e1, e2, hsib ▸ b6⟩
      · rw [if_neg e2] at hsib
        exact absurd hsib.symm a5
  have b9 : 8/10 ≤ v.crossedRowsOverFindableP ∧ 8/10 ≤ v.crossedRowsOverFindableN := by
    rw [← hr, ite_lt_lt_iff, not_or, not_lt, not_lt] at a9
    exact a9
  have b10 : (70 ≤ v.crossedRowsP ∧ 70 ≤ v.crossedRowsN) ∨
      (v.hasInnerParamP = true ∧ 80 ≤ v.lengthInActiveZoneP ∧
        v.hasInnerParamN = true ∧ 80 ≤ v.lengthInActiveZoneN) := by
    by_cases hc : v.crossedRowsP < 70 ∨ v.crossedRowsN < 70
    · right
      have hlen : ¬ len < 80 := fun hl80 => a10 ⟨hc, hl80⟩
      rw [← hl, ite_lt_lt_iff, ite_lt_lt_iff, not_or, not_or, not_lt, not_lt, not_lt] at hlen
      obtain ⟨⟨_, hp⟩, hn⟩ := hlen
      have ip : v.hasInnerParamP = true := by
        by_contra hi
        rw [← hpl, if_neg hi] at hp
        norm_num at hp
      have inn : v.hasInnerParamN = true := by
        by_contra hi
        rw [← hnl, if_neg hi] at hn
        norm_num at hn
      rw [← hpl, if_pos ip] at hp
      rw [← hnl, if_pos inn] at hn
      exact ⟨ip, hp, inn, hn⟩
    · left
      rw [not_or, not_lt, not_lt] at hc
      exact hc
  exact ⟨b1, a2, a3, b4, b5, b7, b8, b9.1, b9.2, b10⟩

theorem foldl_flag_iff {α σ : Type} (step : σ → α → σ) (P : α → Prop) (flag : σ → ℤ)
    (hpass : ∀ s v, P v → flag (step s v) = 1) (hskip : ∀ s v, ¬ P v → step s v = s) :
    ∀ (l : List α) (s : σ),
      (flag (l.foldl step s) = 1 ↔ flag s = 1 ∨ ∃ v ∈ l, P v) ∧
      (flag (l.foldl step s) = 1 ∨ l.foldl step s = s) := by
  intro l
  induction l with
  | nil => intro s; simp
  | cons v l ih =>
    intro s
    rw [List.foldl_cons]
    by_cases hv : P v
    · have h1 := hpass s v hv
      refine ⟨?_, ?_⟩
      · rw [(ih (step s v)).1]
        constructor
        · intro _
          exact Or.inr ⟨v, List.mem_cons_self v l, hv⟩
        · intro _
          exact Or.inl h1
      · left
        exact ((ih (step s v)).1).2 (Or.inl h1)
    · rw [hskip s v hv]
      refine ⟨?_, (ih s).2⟩
      rw [(ih s).1]
      constructor
      · rintro (h | ⟨w, hw, hp⟩)
        · exact Or.inl h
        · exact Or.inr ⟨w, List.mem_cons_of_mem v hw, hp⟩
      · rintro (h | ⟨w, hw, hp⟩)
        · exact Or.inl h
        · rcases List.mem_cons.1 hw with e | e
          · exact absurd (e ▸ hp) hv
          · exact Or.inr ⟨w, e, hp⟩

/-- C18, counterexample. On `sampleStack` the bachelor of label 21 has the
mother 20, a K0s.  The only V0 of the event has the tracks 21 and 22 as
daughters, and the other daughter 22 has the same mother label 20 as the
bachelor, but its positive track lacks the TPC refit: the bachelor-sibling
validity flag is 0. -/
theorem C18_counterexample :
    |(cascadeMCAssociation polyTMath sampleStack 1 7 8 21).fTreeCascVarPIDBachelorMother|
      = 310 ∧
    (∃ v ∈ [({ sampleSibV0 with tpcRefitP := false } : SibV0)],
      (21 = |v.labelP| ∧
        (sampleStack.Particle |v.labelN|).FirstMother = (sampleStack.Particle 21).FirstMother)) ∧
    (bachSibTag sampleStack (cascadeMCAssociation polyTMath sampleStack 1 7 8 21) 21
      [{ sampleSibV0 with tpcRefitP := false }]).IsValid = 0 := by
  refine ⟨by decide, ⟨_, List.mem_singleton.2 rfl, by decide⟩, by decide⟩

/-- C18, amended. In a sibling block whose daughter's immediate mother has
|PDG| = 310, the validity flag is set to 1 exactly when some entry of the
event's V0 array is present, is not like-sign, has both daughter tracks
retrievable, holds the daughter's label as one of its two daughter labels
while its other daughter has the daughter's mother label, and passes the
track-quality requirements of the block (TPC refit on both tracks, both
ratios of crossed rows over findable clusters at least 0.8, and at least 70
crossed rows on both tracks or a length in the active zone of at least 80 on
both); otherwise the flag is 0.  When the mother's |PDG| is not 310 the flag
stays -1.  The bachelor, negative and positive blocks are this block for
their own daughter. -/
theorem C18_sibling_validity_flag (stack : AliStack)
    (pidMother lblTrack lblMotherTrack : ℤ) (v0s : List SibV0) :
    (|pidMother| = 310 →
      ((sibTag stack pidMother lblTrack lblMotherTrack v0s).IsValid = 1 ↔
        ∃ v ∈ v0s,
          (v.isNull = false ∧ ¬ (v.chargeN > 0 ∧ v.chargeP > 0) ∧
          ¬ (v.chargeN < 0 ∧ v.chargeP < 0) ∧ v.trackMissing = false ∧
          ((lblTrack = |v.labelN| ∧
              (stack.Particle |v.labelP|).FirstMother = lblMotherTrack) ∨
            (lblTrack ≠ |v.labelN| ∧ lblTrack = |v.labelP| ∧
              (stack.Particle |v.labelN|).FirstMother = lblMotherTrack)) ∧
          v.tpcRefitP = true ∧ v.tpcRefitN = true ∧
          8/10 ≤ v.crossedRowsOverFindableP ∧ 8/10 ≤ v.crossedRowsOverFindableN ∧
          ((70 ≤ v.crossedRowsP ∧ 70 ≤ v.crossedRowsN) ∨
            (v.hasInnerParamP = true ∧ 80 ≤ v.lengthInActiveZoneP ∧
              v.hasInnerParamN = true ∧ 80 ≤ v.lengthInActiveZoneN)))) ∧
      ((sibTag stack pidMother lblTrack lblMotherTrack v0s).IsValid = 1 ∨
        (sibTag stack pidMother lblTrack lblMotherTrack v0s).IsValid = 0)) ∧
    (|pidMother| ≠ 310 →
      (sibTag stack pidMother lblTrack lblMotherTrack v0s).IsValid = -1) := by
  constructor
  · intro hpid
    have key := foldl_flag_iff (sibStep stack lblTrack lblMotherTrack)
      (fun v => (v.isNull = false ∧ ¬ (v.chargeN > 0 ∧ v.chargeP > 0) ∧
          ¬ (v.chargeN < 0 ∧ v.chargeP < 0) ∧ v.trackMissing = false ∧
          ((lblTrack = |v.labelN| ∧
              (stack.Particle |v.labelP|).FirstMother = lblMotherTrack) ∨
            (lblTrack ≠ |v.labelN| ∧ lblTrack = |v.labelP| ∧
              (stack.Particle |v.labelN|).FirstMother = lblMotherTrack)) ∧
          v.tpcRefitP = true ∧ v.tpcRefitN = true ∧
          8/10 ≤ v.crossedRowsOverFindableP ∧ 8/10 ≤ v.crossedRowsOverFindableN ∧
          ((70 ≤ v.crossedRowsP ∧ 70 ≤ v.crossedRowsN) ∨
            (v.hasInnerParamP = true ∧ 80 ≤ v.lengthInActiveZoneP ∧
              v.hasInnerParamN = true ∧ 80 ≤ v.lengthInActiveZoneN))))
      SibInfo.IsValid
      (fun s v hv => by rw [sibStep_pass stack lblTrack lblMotherTrack s v hv])
      (fun s v hv => sibStep_skip stack lblTrack lblMotherTrack s v hv)
      v0s { sibInit with IsValid := 0 }
    unfold sibTag
    rw [if_pos hpid]
    constructor
    · rw [key.1]
      constructor
      · rintro (h | h)
        · exact absurd h (by decide)
        · exact h
      · intro h
        exact Or.inr h
    · rcases key.2 with h | h
      · exact Or.inl h
      · right
        rw [h]
  · intro hpid
    unfold sibTag
    rw [if_neg hpid]
    rfl

/-- A concrete instance of the amended C18 on `sampleStack`: for the
bachelor of label 21 (mother 20, a K0s) the V0 `sampleSibV0` of the tracks 21
and 22 sets the flag to 1. -/
theorem C18_sibling_validity_flag_witness :
    (sibTag sampleStack 310 21 20 [sampleSibV0]).IsValid = 1 :=
  (((C18_sibling_validity_flag sampleStack 310 21 20 [sampleSibV0]).1 (by decide)).1).2
    ⟨sampleSibV0, List.mem_singleton.2 rfl, rfl, by decide, by decide, rfl,
      Or.inr ⟨by decide, by decide, by decide⟩, rfl, rfl,
      by norm_num [sampleSibV0], by norm_num [sampleSibV0],
      Or.inl ⟨by norm_num [sampleSibV0], by norm_num [sampleSibV0]⟩⟩

/-! ## Registration and the histogram contents -/

theorem processV0s_cuts (m : TMath) (l : List ℕ) (cands : List V0Candidate) :
    ∀ (heap : V0Heap) (p : ℕ), ((processV0s m cands heap l) p).cuts = (heap p).cuts := by
  induction cands with
  | nil => intro heap p; rfl
  | cons c cs ih =>
    intro heap p
    show ((processV0s m cs (loopV0 m c heap l) l) p).cuts = (heap p).cuts
    rw [ih, loopV0_cuts]

theorem processV0s_fHisto (m : TMath) (l : List ℕ) (cands : List V0Candidate) :
    ∀ (heap : V0Heap) (p : ℕ),
      ((processV0s m cands heap l) p).fHisto =
        cands.foldl
          (fun acc c => acc ++
            List.replicate (if v0Accept m c (heap p).cuts then l.count p else 0)
              (v0FillPoint c (heap p).cuts))
          (heap p).fHisto := by
  induction cands with
  | nil => intro heap p; rfl
  | cons c cs ih =>
    intro heap p
    show ((processV0s m cs (loopV0 m c heap l) l) p).fHisto = _
    rw [ih, loopV0_cuts, loopV0_fHisto, List.foldl_cons]

theorem processCascades_cuts (m : TMath) (t : CascadeTask) (l : List ℕ)
    (cands : List CascadeCandidate) :
    ∀ (heap : CascadeHeap) (p : ℕ),
      ((processCascades m t cands heap l) p).cuts = (heap p).cuts := by
  induction cands with
  | nil => intro heap p; rfl
  | cons c cs ih =>
    intro heap p
    show ((processCascades m t cs (loopCascade m t c heap l) l) p).cuts = (heap p).cuts
    rw [ih, loopCascade_cuts]

theorem processCascades_fHisto (m : TMath) (t : CascadeTask) (l : List ℕ)
    (cands : List CascadeCandidate) :
    ∀ (heap : CascadeHeap) (p : ℕ),
      ((processCascades m t cands heap l) p).fHisto =
        cands.foldl
          (fun acc c => acc ++
            List.replicate (if cascSelection m t c (heap p).cuts then l.count p else 0)
              (cascFillPoint c (heap p).cuts))
          (heap p).fHisto := by
  induction cands with
  | nil => intro heap p; rfl
  | cons c cs ih =>
    intro heap p
    show ((processCascades m t cs (loopCascade m t c heap l) l) p).fHisto = _
    rw [ih, loopCascade_cuts, loopCascade_fHisto, List.foldl_cons]

theorem count_registered_once (l : Option (List ℕ)) (p : ℕ) :
    ((l.getD []) ++ [p]).count p = (l.getD []).count p + 1 := by
  simp

theorem count_registered_twice (l : Option (List ℕ)) (p : ℕ) :
    (((l.getD []) ++ [p]) ++ [p]).count p = (l.getD []).count p + 2 := by
  simp

/-- C19, counterexample. With the result object of address 0 registered once
in an empty list, the candidate `sampleV0` leaves one point in its histogram;
with the same object registered twice it leaves the point twice.  The same
holds for the cascade `sampleCascade` and the cascade list. -/
theorem C19_counterexample :
    ((processV0s polyTMath [sampleV0] sampleV0Heap
        ((AddConfigurationV0 none 0).getD [])) 0).fHisto =
      [v0FillPoint sampleV0 (sampleV0Heap 0).cuts] ∧
    ((processV0s polyTMath [sampleV0] sampleV0Heap
        ((AddConfigurationV0 (AddConfigurationV0 none 0) 0).getD [])) 0).fHisto =
      [v0FillPoint sampleV0 (sampleV0Heap 0).cuts,
        v0FillPoint sampleV0 (sampleV0Heap 0).cuts] ∧
    ((processCascades polyTMath standardCascadeTask [sampleCascade] sampleCascadeHeap
        ((AddConfigurationCascade none 0).getD [])) 0).fHisto =
      [cascFillPoint sampleCascade (sampleCascadeHeap 0).cuts] ∧
    ((processCascades polyTMath standardCascadeTask [sampleCascade] sampleCascadeHeap
        ((AddConfigurationCascade (AddConfigurationCascade none 0) 0).getD [])) 0).fHisto =
      [cascFillPoint sampleCascade (sampleCascadeHeap 0).cuts,
        cascFillPoint sampleCascade (sampleCascadeHeap 0).cuts] := by
  have hv : v0Accept polyTMath sampleV0 (sampleV0Heap 0).cuts = true := by
    unfold v0Accept
    rw [Bool.and_eq_true]
    exact ⟨(v0Selection_iff _ _ _).2 sampleV0_passes, sampleV0_mc⟩
  have hc : cascSelection polyTMath standardCascadeTask sampleCascade
      (sampleCascadeHeap 0).cuts = true :=
    (cascSelection_iff _ _ _ _).2 sampleCascade_passes
  refine ⟨?_, ?_, ?_, ?_⟩
  · rw [processV0s_fHisto, List.foldl_cons, List.foldl_nil, if_pos hv]
    rfl
  · rw [processV0s_fHisto, List.foldl_cons, List.foldl_nil, if_pos hv]
    rfl
  · rw [processCascades_fHisto, List.foldl_cons, List.foldl_nil, if_pos hc]
    rfl
  · rw [processCascades_fHisto, List.foldl_cons, List.foldl_nil, if_pos hc]
    rfl

/-- C19, amended. `AddConfiguration` appends the object to the list without
looking for it there, and the configuration loop visits every entry of the
list.  After processing any sequence of candidates the histogram of a
configuration object holds its initial contents followed, for every accepted
candidate in order, by the candidate's point once per entry of the list that
holds the object: one more than before when the object is registered once,
two more when it is registered twice.  This holds for the V0 list and for the
cascade list. -/
theorem C19_registration_counts (m : TMath) (t : CascadeTask) :
    (∀ (cands : List V0Candidate) (heap : V0Heap) (fListV0 : Option (List ℕ)) (p : ℕ),
      ((processV0s m cands heap ((AddConfigurationV0 fListV0 p).getD [])) p).fHisto =
        cands.foldl
          (fun acc c => acc ++
            List.replicate
              (if v0Accept m c (heap p).cuts then (fListV0.getD []).count p + 1 else 0)
              (v0FillPoint c (heap p).cuts))
          (heap p).fHisto ∧
      ((processV0s m cands heap
          ((AddConfigurationV0 (AddConfigurationV0 fListV0 p) p).getD [])) p).fHisto =
        cands.foldl
          (fun acc c => acc ++
            List.replicate
              (if v0Accept m c (heap p).cuts then (fListV0.getD []).count p + 2 else 0)
              (v0FillPoint c (heap p).cuts))
          (heap p).fHisto) ∧
    (∀ (cands : List CascadeCandidate) (heap : CascadeHeap) (fListCascade : Option (List ℕ))
        (p : ℕ),
      ((processCascades m t cands heap
          ((AddConfigurationCascade fListCascade p).getD [])) p).fHisto =
        cands.foldl
          (fun acc c => acc ++
            List.replicate
              (if cascSelection m t c (heap p).cuts then (fListCascade.getD []).count p + 1
                else 0)
              (cascFillPoint c (heap p).cuts))
          (heap p).fHisto ∧
      ((processCascades m t cands heap
          ((AddConfigurationCascade (AddConfigurationCascade fListCascade p) p).getD []))
            p).fHisto =
        cands.foldl
          (fun acc c => acc ++
            List.replicate
              (if cascSelection m t c (heap p).cuts then (fListCascade.getD []).count p + 2
                else 0)
              (cascFillPoint c (heap p).cuts))
          (heap p).fHisto) := by
  refine ⟨fun cands heap fListV0 p => ⟨?_, ?_⟩, fun cands heap fListCascade p => ⟨?_, ?_⟩⟩
  · rw [processV0s_fHisto, ← count_registered_once]
    rfl
  · rw [processV0s_fHisto, ← count_registered_twice]
    rfl
  · rw [processCascades_fHisto, ← count_registered_once]
    rfl
  · rw [processCascades_fHisto, ← count_registered_twice]
    rfl

/-! ## Random denial -/

theorem lKeepV0_iff (f : TreeSettings) (u : ℚ) (h : f.fkDownScaleV0 = true) :
    lKeepV0 f u = true ↔ u ≤ f.fDownScaleFactorV0 := by
  unfold lKeepV0
  rw [h, Bool.true_and]
  by_cases hu : u > f.fDownScaleFactorV0
  · simp [hu]
  · simp [hu, not_lt.1 hu]

theorem lKeepCascadeRandom_iff (f : TreeSettings) (u : ℚ) (h : f.fkDownScaleCascade = true) :
    lKeepCascadeRandom f u = true ↔ u ≤ f.fDownScaleFactorCascade := by
  unfold lKeepCascadeRandom
  rw [h, Bool.true_and]
  by_cases hu : u > f.fDownScaleFactorCascade
  · simp [hu]
  · simp [hu, not_lt.1 hu]

theorem lKeepCascade_iff (f : TreeSettings) (u : ℚ) (c : CascadeCandidate) :
    lKeepCascade f u c = true ↔
      lKeepCascadeRandom f u = true ∧
        f.fMinPtToSave ≤ c.fTreeCascVarPt ∧ c.fTreeCascVarPt ≤ f.fMaxPtToSave := by
  unfold lKeepCascade
  dsimp only
  by_cases h1 : c.fTreeCascVarPt > f.fMaxPtToSave
  · rw [if_pos h1]
    constructor
    · intro h; exact absurd h (by decide)
    · rintro ⟨_, _, h⟩; exact absurd h1 (not_lt.2 h)
  · rw [if_neg h1]
    by_cases h2 : c.fTreeCascVarPt < f.fMinPtToSave
    · rw [if_pos h2]
      constructor
      · intro h; exact absurd h (by decide)
      · rintro ⟨_, h, _⟩; exact absurd h2 (not_lt.2 h)
    · rw [if_neg h2]
      constructor
      · intro h; exact ⟨h, not_lt.1 h2, not_lt.1 h1⟩
      · rintro ⟨h, _, _⟩; exact h

/-- C20. With V0 downscaling enabled the local `lKeepV0` is true after the
random denial exactly when the uniform draw is at most `fDownScaleFactorV0`,
a draw equal to the factor included, and the V0 tree is filled exactly when
it would be filled at a kept draw and the draw is at most the factor; with
cascade downscaling enabled the same holds for the random denial of
`lKeepCascade` and `fDownScaleFactorCascade`, the cascade's `lKeepCascade`
being that outcome restricted to transverse momenta within
[`fMinPtToSave`, `fMaxPtToSave`].  The result objects left by the
configuration loop of the candidate are the same for any two draws. -/
theorem C20_downscaling_gate (m : TMath) (t : CascadeTask) (f : TreeSettings)
    (hV0 : f.fkDownScaleV0 = true) (hCasc : f.fkDownScaleCascade = true) :
    (∀ u : ℚ, lKeepV0 f u = true ↔ u ≤ f.fDownScaleFactorV0) ∧
    lKeepV0 f f.fDownScaleFactorV0 = true ∧
    (∀ (u : ℚ) (c : V0Candidate),
      v0TreeFilled m f u c = true ↔
        v0TreeFilled m f f.fDownScaleFactorV0 c = true ∧ u ≤ f.fDownScaleFactorV0) ∧
    (∀ u : ℚ, lKeepCascadeRandom f u = true ↔ u ≤ f.fDownScaleFactorCascade) ∧
    lKeepCascadeRandom f f.fDownScaleFactorCascade = true ∧
    (∀ (u : ℚ) (c : CascadeCandidate),
      lKeepCascade f u c = true ↔
        u ≤ f.fDownScaleFactorCascade ∧
          f.fMinPtToSave ≤ c.fTreeCascVarPt ∧ c.fTreeCascVarPt ≤ f.fMaxPtToSave) ∧
    (∀ (u : ℚ) (c : CascadeCandidate),
      cascadeTreeFilled f u c = true ↔
        cascadeTreeFilled f f.fDownScaleFactorCascade c = true ∧
          u ≤ f.fDownScaleFactorCascade) ∧
    (∀ (u u' : ℚ) (fListV0 : List ℕ) (c : V0Candidate) (out : V0Output),
      (processV0Candidate m f fListV0 u c out).heap =
        (processV0Candidate m f fListV0 u' c out).heap) ∧
    (∀ (u u' : ℚ) (fListCascade : List ℕ) (c : CascadeCandidate) (out : CascadeOutput),
      (processCascadeCandidate m t f fListCascade u c out).heap =
        (processCascadeCandidate m t f fListCascade u' c out).heap) := by
  have kV0 : lKeepV0 f f.fDownScaleFactorV0 = true := (lKeepV0_iff f _ hV0).2 le_rfl
  have kC : lKeepCascadeRandom f f.fDownScaleFactorCascade = true :=
    (lKeepCascadeRandom_iff f _ hCasc).2 le_rfl
  refine ⟨fun u => lKeepV0_iff f u hV0, kV0, ?_, fun u => lKeepCascadeRandom_iff f u hCasc,
    kC, ?_, ?_, ?_, ?_⟩
  · intro u c
    unfold v0TreeFilled
    rw [kV0, ← lKeepV0_iff f u hV0]
    simp only [Bool.and_eq_true, Bool.and_true]
    tauto
  · intro u c
    rw [lKeepCascade_iff, lKeepCascadeRandom_iff f u hCasc]
  · intro u c
    have e : ∀ v, lKeepCascade f v c =
        (lKeepCascadeRandom f v && lKeepCascade f f.fDownScaleFactorCascade c) := by
      intro v
      rw [Bool.eq_iff_iff, Bool.and_eq_true, lKeepCascade_iff, lKeepCascade_iff, kC]
      tauto
    unfold cascadeTreeFilled
    rw [e u, ← lKeepCascadeRandom_iff f u hCasc]
    simp only [Bool.and_eq_true]
    tauto
  · intro u u' fListV0 c out
    rfl
  · intro u u' fListCascade c out
    unfold processCascadeCandidate
    split_ifs <;> rfl

/-- A concrete instance of C20: with the factor 1/10 of `sampleTreeSettings`
a draw of exactly 1/10 is kept by both random denials. -/
theorem C20_downscaling_gate_witness :
    lKeepV0 sampleTreeSettings (1/10) = true ∧
    lKeepCascadeRandom sampleTreeSettings (1/10) = true :=
  ⟨(C20_downscaling_gate polyTMath standardCascadeTask sampleTreeSettings rfl rfl).2.1,
    (C20_downscaling_gate polyTMath standardCascadeTask sampleTreeSettings rfl rfl).2.2.2.2.1⟩

/-! ## Guarded divisions -/

/-- C22, counterexample. For E = 1 and pz = 2 neither guard of `MyRapidity`
is zero, the quotient (E+pz)/(E-pz+1e-13) is negative, and the function
returns half the logarithm of that negative quotient, not the sentinel. -/
theorem C22_counterexample :
    ((1 : ℚ) - 2 + 1/10000000000000 ≠ 0) ∧ ((1 : ℚ) + 2 ≠ 0) ∧
    ((1 : ℚ) + 2) / (1 - 2 + 1/10000000000000) < 0 ∧
    MyRapidity polyTMath 1 2 =
      1/2 * polyTMath.Log (((1 : ℚ) + 2) / (1 - 2 + 1/10000000000000)) ∧
    MyRapidity polyTMath 1 2 ≠ -100 := by
  refine ⟨by norm_num, by norm_num, by norm_num, ?_, ?_⟩
  · simp [MyRapidity]
    norm_num
  · simp [MyRapidity, polyTMath]
    norm_num

/-- C22, amended. For every pair (E, pz), `MyRapidity` returns the sentinel
-100 exactly in the case E - pz + 1e-13 = 0 or E + pz = 0, and otherwise
returns 0.5*ln((E+pz)/(E-pz+1e-13)) with a non-zero denominator and a non-zero
argument of the logarithm; the argument is strictly positive exactly when
E + pz and E - pz + 1e-13 have the same sign, in particular whenever
|pz| < E. -/
theorem C22_rapidity_guards (m : TMath) (rE rPz : ℚ) :
    ((rE - rPz + 1/10000000000000 = 0 ∨ rE + rPz = 0) → MyRapidity m rE rPz = -100) ∧
    (¬ (rE - rPz + 1/10000000000000 = 0 ∨ rE + rPz = 0) →
      MyRapidity m rE rPz = 1/2 * m.Log ((rE + rPz) / (rE - rPz + 1/10000000000000)) ∧
      rE - rPz + 1/10000000000000 ≠ 0 ∧
      (rE + rPz) / (rE - rPz + 1/10000000000000) ≠ 0) ∧
    (0 < (rE + rPz) / (rE - rPz + 1/10000000000000) ↔
      (0 < rE + rPz ∧ 0 < rE - rPz + 1/10000000000000) ∨
      (rE + rPz < 0 ∧ rE - rPz + 1/10000000000000 < 0)) ∧
    (|rPz| < rE →
      0 < (rE + rPz) / (rE - rPz + 1/10000000000000) ∧
      MyRapidity m rE rPz = 1/2 * m.Log ((rE + rPz) / (rE - rPz + 1/10000000000000))) := by
  have hbranch : ∀ (h1 : rE - rPz + 1/10000000000000 ≠ 0) (h2 : rE + rPz ≠ 0),
      MyRapidity m rE rPz = 1/2 * m.Log ((rE + rPz) / (rE - rPz + 1/10000000000000)) := by
    intro h1 h2
    unfold MyRapidity
    dsimp only
    rw [if_pos ⟨h1, h2⟩]
  refine ⟨?_, ?_, div_pos_iff, ?_⟩
  · intro h
    unfold MyRapidity
    dsimp only
    rw [if_neg]
    rintro ⟨h1, h2⟩
    rcases h with h | h
    · exact h1 h
    · exact h2 h
  · intro h
    rw [not_or] at h
    exact ⟨hbranch h.1 h.2, h.1, div_ne_zero h.2 h.1⟩
  · intro h
    have hb := abs_lt.1 h
    have h1 : 0 < rE + rPz := by linarith [hb.1]
    have h2 : 0 < rE - rPz + 1/10000000000000 := by linarith [hb.2]
    exact ⟨div_pos h1 h2, hbranch (ne_of_gt h2) (ne_of_gt h1)⟩

/-- A concrete instance of the amended C22: for E = 2 and pz = 1 the argument
of the logarithm is positive and the formula is returned. -/
theorem C22_rapidity_guards_witness :
    0 < ((2 : ℚ) + 1) / (2 - 1 + 1/10000000000000) ∧
    MyRapidity polyTMath 2 1 =
      1/2 * polyTMath.Log (((2 : ℚ) + 1) / (2 - 1 + 1/10000000000000)) :=
  (C22_rapidity_guards polyTMath 2 1).2.2.2 (by norm_num [abs_lt])

/-! ## AliNuclexEventCuts: the centrality getters -/

/-- C23. `GetCentrality` and `GetCentralityEstimator` end in `::Fatal`
exactly when the estimator index is greater than 1; for the indices 0 and 1
they return the stored percentile and the stored estimator name of that
index. -/
theorem C23_centrality_getters (fCentPercentiles : ℕ → ℚ) (fCentEstimators : ℕ → String)
    (estimator : ℕ) :
    ((∃ e, GetCentrality fCentPercentiles estimator = Except.error e) ↔ estimator > 1) ∧
    ((∃ e, GetCentralityEstimator fCentEstimators estimator = Except.error e) ↔
      estimator > 1) ∧
    (estimator = 0 ∨ estimator = 1 →
      GetCentrality fCentPercentiles estimator = Except.ok (fCentPercentiles estimator) ∧
      GetCentralityEstimator fCentEstimators estimator =
        Except.ok (fCentEstimators estimator)) := by
  by_cases h : estimator > 1
  · refine ⟨⟨fun _ => h, fun _ => ⟨_, if_pos h⟩⟩, ⟨fun _ => h, fun _ => ⟨_, if_pos h⟩⟩, ?_⟩
    intro h01
    omega
  · have e1 : GetCentrality fCentPercentiles estimator =
        Except.ok (fCentPercentiles estimator) := if_neg h
    have e2 : GetCentralityEstimator fCentEstimators estimator =
        Except.ok (fCentEstimators estimator) := if_neg h
    refine ⟨⟨?_, fun h' => absurd h' h⟩, ⟨?_, fun h' => absurd h' h⟩, fun _ => ⟨e1, e2⟩⟩
    · rintro ⟨e, he⟩
      rw [e1] at he
      cases he
    · rintro ⟨e, he⟩
      rw [e2] at he
      cases he

/-- A concrete instance of C23: with the estimator names of the constructor,
index 1 gives "CL0" and index 2 ends in the fatal error. -/
theorem C23_centrality_getters_witness :
    GetCentralityEstimator fCentEstimatorsInit 1 = Except.ok "CL0" ∧
    ∃ e, GetCentralityEstimator fCentEstimatorsInit 2 = Except.error e :=
  ⟨((C23_centrality_getters (fun _ => 0) fCentEstimatorsInit 1).2.2 (Or.inr rfl)).2,
    ((C23_centrality_getters (fun _ => 0) fCentEstimatorsInit 2).2.1).2 (by decide)⟩

/-! ## The parametric bachelor-baryon pointing angle cut -/

theorem lBBCosPACut_eq (m : TMath) (c : CascadeCandidate) (r : CascadeCuts) :
    lBBCosPACut m c r =
      if r.CutUseVarBBCosPA then max r.CutBachBaryonCosPA (lVarBBCosPA m c r)
      else r.CutBachBaryonCosPA := by
  unfold lBBCosPACut
  rw [ite_gt_eq_max]

theorem lVarBBCosPA_varBB :
    lVarBBCosPA polyTMath sampleCascade varBBCascadeCuts = 1 := by
  simp [lVarBBCosPA, varCosPAOf, varCosPA, polyTMath, varBBCascadeCuts]

/-- C24, counterexample. With the cuts `varBBCascadeCuts` the scalar ceiling
is 1/4 and the parametric value 1: the ceiling applied is 1, the larger of the
two, and `sampleCascade`, whose wrong-hypothesis cosine 1/2 is not below the
smaller value 1/4, passes check 7. -/
theorem C24_counterexample :
    varBBCascadeCuts.CutUseVarBBCosPA = true ∧
    varBBCascadeCuts.CutBachBaryonCosPA = 1/4 ∧
    lVarBBCosPA polyTMath sampleCascade varBBCascadeCuts = 1 ∧
    lBBCosPACut polyTMath sampleCascade varBBCascadeCuts = 1 ∧
    lBBCosPACut polyTMath sampleCascade varBBCascadeCuts ≠
      min varBBCascadeCuts.CutBachBaryonCosPA
        (lVarBBCosPA polyTMath sampleCascade varBBCascadeCuts) ∧
    ¬ (sampleCascade.fTreeCascVarWrongCosPA <
      min varBBCascadeCuts.CutBachBaryonCosPA
        (lVarBBCosPA polyTMath sampleCascade varBBCascadeCuts)) ∧
    cascCheck polyTMath standardCascadeTask sampleCascade varBBCascadeCuts
      CascadeCheck.bachBaryonCosPA = true := by
  have hcut : lBBCosPACut polyTMath sampleCascade varBBCascadeCuts = 1 := by
    rw [lBBCosPACut_eq, lVarBBCosPA_varBB]
    show max (1/4 : ℚ) 1 = 1
    norm_num
  have hs : varBBCascadeCuts.CutBachBaryonCosPA = 1/4 := rfl
  have hw : sampleCascade.fTreeCascVarWrongCosPA = 1/2 := rfl
  refine ⟨rfl, rfl, lVarBBCosPA_varBB, hcut, ?_, ?_, ?_⟩
  · rw [hcut, lVarBBCosPA_varBB, hs]
    norm_num
  · rw [lVarBBCosPA_varBB, hs, hw]
    norm_num
  · show decide (sampleCascade.fTreeCascVarWrongCosPA <
      lBBCosPACut polyTMath sampleCascade varBBCascadeCuts) = true
    rw [hcut, hw]
    norm_num

/-- C24, amended. When the parametric form of the bachelor-baryon
pointing-angle cut is enabled, the ceiling applied to the candidate's
wrong-hypothesis cosine is the numerically larger of the scalar and the
parametric value, which for this inverted check is the looser of the two:
check 7 passes exactly when the cosine is below the larger value, and every
candidate that passes with the scalar or with the parametric ceiling alone
passes. -/
theorem C24_bach_baryon_ceiling (m : TMath) (t : CascadeTask) (c : CascadeCandidate)
    (r : CascadeCuts) (huse : r.CutUseVarBBCosPA = true) :
    lBBCosPACut m c r = max r.CutBachBaryonCosPA (lVarBBCosPA m c r) ∧
    (cascCheck m t c r CascadeCheck.bachBaryonCosPA = true ↔
      c.fTreeCascVarWrongCosPA < max r.CutBachBaryonCosPA (lVarBBCosPA m c r)) ∧
    (cascCheck m t c r CascadeCheck.bachBaryonCosPA = true ↔
      c.fTreeCascVarWrongCosPA < r.CutBachBaryonCosPA ∨
        c.fTreeCascVarWrongCosPA < lVarBBCosPA m c r) := by
  have hcut : lBBCosPACut m c r = max r.CutBachBaryonCosPA (lVarBBCosPA m c r) := by
    rw [lBBCosPACut_eq, if_pos huse]
  have hchk : cascCheck m t c r CascadeCheck.bachBaryonCosPA = true ↔
      c.fTreeCascVarWrongCosPA < max r.CutBachBaryonCosPA (lVarBBCosPA m c r) := by
    show decide (c.fTreeCascVarWrongCosPA < lBBCosPACut m c r) = true ↔ _
    rw [hcut, decide_eq_true_iff]
  exact ⟨hcut, hchk, hchk.trans lt_max_iff⟩

/-- A concrete instance of the amended C24: with `varBBCascadeCuts` the
ceiling is `max (1/4) 1`. -/
theorem C24_bach_baryon_ceiling_witness :
    lBBCosPACut polyTMath sampleCascade varBBCascadeCuts =
      max varBBCascadeCuts.CutBachBaryonCosPA
        (lVarBBCosPA polyTMath sampleCascade varBBCascadeCuts) :=
  (C24_bach_baryon_ceiling polyTMath standardCascadeTask sampleCascade varBBCascadeCuts
    rfl).1

/-! ## AddStandardV0Configuration: the one-by-one sweeps -/

theorem sweepSkipped_table :
    (List.range 12).map (sweepSkipped 0) =
      [true, true, false, false, true, false, false, false, false, true, false, true] ∧
    (List.range 12).map (sweepSkipped 1) =
      [false, true, false, false, true, false, false, false, false, true, false, true] ∧
    (List.range 12).map (sweepSkipped 2) =
      [true, false, false, false, true, false, false, false, false, true, false, true] := by
  refine ⟨?_, ?_, ?_⟩ <;>
    simp [List.range, List.range.loop, sweepSkipped, lCutsTight, lCutsLoose, lcutsV0,
      lcutsV0Rows, lNCutsForSyst, lMeanLifetime] <;>
    norm_num [abs_lt, lt_abs, abs_le, le_abs] <;>
    norm_num [abs_div]

theorem cutsActuallyDifferent_table :
    (List.range 12).map (cutsActuallyDifferent 0) =
      [false, false, true, true, false, true, true, true, true, false, true, true] ∧
    (List.range 12).map (cutsActuallyDifferent 1) =
      [true, false, true, true, false, true, true, true, true, false, true, true] ∧
    (List.range 12).map (cutsActuallyDifferent 2) =
      [false, true, true, true, false, true, true, true, true, false, true, true] := by
  refine ⟨?_, ?_, ?_⟩ <;>
    simp [List.range, List.range.loop, cutsActuallyDifferent, lCutsTight, lCutsLoose, lcutsV0,
      lcutsV0Rows, lNCutsForSyst, lMeanLifetime] <;>
    norm_num [abs_lt, lt_abs, abs_le, le_abs] <;>
    norm_num [abs_div]

theorem sweepSkipped_crossed_rows (i : ℕ) (h : i < 3) : sweepSkipped i 11 = true := by
  have t := sweepSkipped_table
  simp only [List.range, List.range.loop, List.map] at t
  interval_cases i
  · have := t.1
    simp only [List.cons.injEq] at this
    exact this.2.2.2.2.2.2.2.2.2.2.2.1
  · have := t.2.1
    simp only [List.cons.injEq] at this
    exact this.2.2.2.2.2.2.2.2.2.2.2.1
  · have := t.2.2
    simp only [List.cons.injEq] at this
    exact this.2.2.2.2.2.2.2.2.2.2.2.1

theorem mem_tighteningSweep (e : SweepEntry) (h : e ∈ tighteningSweep) :
    e.i < 3 ∧ sweepSkipped e.i e.iCut = false := by
  unfold tighteningSweep at h
  rw [List.mem_flatMap] at h
  obtain ⟨i, hi, h⟩ := h
  rw [List.mem_flatMap] at h
  obtain ⟨iCut, _, h⟩ := h
  by_cases hs : sweepSkipped i iCut = true
  · rw [if_pos hs] at h
    cases h
  · rw [if_neg hs, List.mem_map] at h
    obtain ⟨iSweep, _, rfl⟩ := h
    exact ⟨List.mem_range.1 hi, by simpa using hs⟩

theorem mem_looseningSweep (e : SweepEntry) (h : e ∈ looseningSweep) :
    e.i < 3 ∧ sweepSkipped e.i e.iCut = false := by
  unfold looseningSweep at h
  rw [List.mem_flatMap] at h
  obtain ⟨i, hi, h⟩ := h
  rw [List.mem_flatMap] at h
  obtain ⟨iCut, _, h⟩ := h
  by_cases hs : sweepSkipped i iCut = true
  · rw [if_pos hs] at h
    cases h
  · rw [if_neg hs, List.mem_map] at h
    obtain ⟨iSweep, _, rfl⟩ := h
    exact ⟨List.mem_range.1 hi, by simpa using hs⟩

/-- C25, evaluation at the failing input. For each of the three species the
cut of index 11, the least number of crossed rows, has the tight value 70 and
the loose value -1, which differ by 71 times the size of the loose value; the
condition of the `continue` divides by the loose value itself, -71 < 0.01
holds, and neither the tightening nor the loosening loop creates a result for
this cut.  For the other eleven cuts of every species the sweep is created
exactly when the two values differ by at least 1% or the cut is V0CosPA. -/
theorem C25_crossed_rows_sweep_is_skipped :
    (lCutsTight 0 11 = 70 ∧ lCutsLoose 0 11 = -1) ∧
    (|lCutsTight 0 11 - lCutsLoose 0 11| / lCutsLoose 0 11 = -71) ∧
    (cutsActuallyDifferent 0 11 = true ∧ cutsActuallyDifferent 1 11 = true ∧
      cutsActuallyDifferent 2 11 = true) ∧
    (sweepSkipped 0 11 = true ∧ sweepSkipped 1 11 = true ∧ sweepSkipped 2 11 = true) ∧
    tighteningSweep.filter (fun e => decide (e.iCut = 11)) = [] ∧
    looseningSweep.filter (fun e => decide (e.iCut = 11)) = [] ∧
    (List.range 11).map (fun j => !sweepSkipped 0 j) =
      (List.range 11).map (cutsActuallyDifferent 0) ∧
    (List.range 11).map (fun j => !sweepSkipped 1 j) =
      (List.range 11).map (cutsActuallyDifferent 1) ∧
    (List.range 11).map (fun j => !sweepSkipped 2 j) =
      (List.range 11).map (cutsActuallyDifferent 2) := by
  have hd := cutsActuallyDifferent_table
  have hs := sweepSkipped_table
  simp only [List.range, List.range.loop, List.map, List.cons.injEq] at hd hs
  refine ⟨⟨rfl, rfl⟩, ?_, ?_, ?_, ?_, ?_, ?_, ?_, ?_⟩
  · show |(70 : ℚ) - -1| / -1 = -71
    norm_num
  · exact ⟨hd.1.2.2.2.2.2.2.2.2.2.2.2.1, hd.2.1.2.2.2.2.2.2.2.2.2.2.2.1,
      hd.2.2.2.2.2.2.2.2.2.2.2.2.2.1⟩
  · exact ⟨sweepSkipped_crossed_rows 0 (by decide), sweepSkipped_crossed_rows 1 (by decide),
      sweepSkipped_crossed_rows 2 (by decide)⟩
  · rw [List.filter_eq_nil_iff]
    intro e he h11
    have := mem_tighteningSweep e he
    rw [of_decide_eq_true h11, sweepSkipped_crossed_rows e.i this.1] at this
    exact absurd this.2 (by decide)
  · rw [List.filter_eq_nil_iff]
    intro e he h11
    have := mem_looseningSweep e he
    rw [of_decide_eq_true h11, sweepSkipped_crossed_rows e.i this.1] at this
    exact absurd this.2 (by decide)
  · simp only [List.range, List.range.loop, List.map, List.cons.injEq]
    simp [hd.1, hs.1]
  · simp only [List.range, List.range.loop, List.map, List.cons.injEq]
    simp [hd.2.1, hs.2.1]
  · simp only [List.range, List.range.loop, List.map, List.cons.injEq]
    simp [hd.2.2, hs.2.2]

/-! ## AliNuclexEventCuts::AcceptEvent -/

theorem cutStage_frame (reject : Bool) (bin : CutStatBin) (s : Bool × NuclexQA)
    (hbin : bin ≠ CutStatBin.kAllCuts) :
    (cutStage reject bin s).2.fVtz = s.2.fVtz ∧
    (cutStage reject bin s).2.fDeltaTrackSPDvtz = s.2.fDeltaTrackSPDvtz ∧
    (cutStage reject bin s).2.fCentrality = s.2.fCentrality ∧
    (cutStage reject bin s).2.fEstimCorrelation = s.2.fEstimCorrelation ∧
    (cutStage reject bin s).2.fMultCentCorrelation = s.2.fMultCentCorrelation ∧
    (cutStage reject bin s).2.fCutStats.count CutStatBin.kAllCuts =
      s.2.fCutStats.count CutStatBin.kAllCuts := by
  unfold cutStage
  cases reject
  · refine ⟨rfl, rfl, rfl, rfl, rfl, ?_⟩
    simp [fillCutStats, List.count_append, List.count_cons, hbin]
  · exact ⟨rfl, rfl, rfl, rfl, rfl, rfl⟩

theorem cutsBeforeCentrality_frame (m : TMath) (k : NuclexCuts) (ev : NuclexEvent)
    (q : NuclexQA) :
    (cutsBeforeCentrality m k ev q).2.fVtz = q.fVtz ∧
    (cutsBeforeCentrality m k ev q).2.fDeltaTrackSPDvtz = q.fDeltaTrackSPDvtz ∧
    (cutsBeforeCentrality m k ev q).2.fCentrality = q.fCentrality ∧
    (cutsBeforeCentrality m k ev q).2.fEstimCorrelation = q.fEstimCorrelation ∧
    (cutsBeforeCentrality m k ev q).2.fMultCentCorrelation = q.fMultCentCorrelation ∧
    (cutsBeforeCentrality m k ev q).2.fCutStats.count CutStatBin.kAllCuts =
      q.fCutStats.count CutStatBin.kAllCuts := by
  unfold cutsBeforeCentrality
  dsimp only
  have h0 : (fillCutStats q CutStatBin.kNoCuts).fCutStats.count CutStatBin.kAllCuts =
      q.fCutStats.count CutStatBin.kAllCuts := by
    simp [fillCutStats, List.count_append]
  generalize hs0 : ((true, fillCutStats q CutStatBin.kNoCuts) : Bool × NuclexQA) = s0
  have f0 : s0.2.fVtz = q.fVtz ∧ s0.2.fDeltaTrackSPDvtz = q.fDeltaTrackSPDvtz ∧
      s0.2.fCentrality = q.fCentrality ∧ s0.2.fEstimCorrelation = q.fEstimCorrelation ∧
      s0.2.fMultCentCorrelation = q.fMultCentCorrelation ∧
      s0.2.fCutStats.count CutStatBin.kAllCuts = q.fCutStats.count CutStatBin.kAllCuts := by
    subst hs0
    exact ⟨rfl, rfl, rfl, rfl, rfl, h0⟩
  have step : ∀ (r : Bool) (b : CutStatBin) (s : Bool × NuclexQA), b ≠ CutStatBin.kAllCuts →
      (s.2.fVtz = q.fVtz ∧ s.2.fDeltaTrackSPDvtz = q.fDeltaTrackSPDvtz ∧
        s.2.fCentrality = q.fCentrality ∧ s.2.fEstimCorrelation = q.fEstimCorrelation ∧
        s.2.fMultCentCorrelation = q.fMultCentCorrelation ∧
        s.2.fCutStats.count CutStatBin.kAllCuts = q.fCutStats.count CutStatBin.kAllCuts) →
      ((cutStage r b s).2.fVtz = q.fVtz ∧
        (cutStage r b s).2.fDeltaTrackSPDvtz = q.fDeltaTrackSPDvtz ∧
        (cutStage r b s).2.fCentrality = q.fCentrality ∧
        (cutStage r b s).2.fEstimCorrelation = q.fEstimCorrelation ∧
        (cutStage r b s).2.fMultCentCorrelation = q.fMultCentCorrelation ∧
        (cutStage r b s).2.fCutStats.count CutStatBin.kAllCuts =
          q.fCutStats.count CutStatBin.kAllCuts) := by
    intro r b s hb hs
    obtain ⟨a1, a2, a3, a4, a5, a6⟩ := cutStage_frame r b s hb
    exact ⟨a1.trans hs.1, a2.trans hs.2.1, a3.trans hs.2.2.1, a4.trans hs.2.2.2.1,
      a5.trans hs.2.2.2.2.1, a6.trans hs.2.2.2.2.2⟩
  exact step _ _ _ (by decide) (step _ _ _ (by decide) (step _ _ _ (by decide)
    (step _ _ _ (by decide) (step _ _ _ (by decide) f0))))

theorem centralityStage_frame (k : NuclexCuts) (ev : NuclexEvent) (s : Bool × NuclexQA) :
    (centralityStage k ev s).2.fVtz = s.2.fVtz ∧
    (centralityStage k ev s).2.fDeltaTrackSPDvtz = s.2.fDeltaTrackSPDvtz ∧
    (centralityStage k ev s).2.fMultCentCorrelation = s.2.fMultCentCorrelation ∧
    (centralityStage k ev s).2.fCentrality 1 = s.2.fCentrality 1 ∧
    (centralityStage k ev s).2.fEstimCorrelation 1 = s.2.fEstimCorrelation 1 ∧
    ((centralityStage k ev s).2.fCentrality 0).length =
      (s.2.fCentrality 0).length + (if k.fCentralityFramework = 0 then 0 else 1) ∧
    ((centralityStage k ev s).2.fEstimCorrelation 0).length =
      (s.2.fEstimCorrelation 0).length + (if k.fCentralityFramework = 0 then 0 else 1) ∧
    (centralityStage k ev s).2.fCutStats.count CutStatBin.kAllCuts =
      s.2.fCutStats.count CutStatBin.kAllCuts := by
  unfold centralityStage
  by_cases h : k.fCentralityFramework = 0
  · rw [if_neg (not_not.2 h), if_pos h]
    refine ⟨rfl, rfl, rfl, rfl, rfl, rfl, rfl, ?_⟩
    simp [fillCutStats, List.count_append]
  · rw [if_pos h, if_neg h]
    dsimp only
    generalize (if k.fCentralityFramework = 2 then ev.GetCentralityPercentile 0
      else ev.GetMultiplicityPercentile 0) = p0
    generalize (if k.fCentralityFramework = 2 then ev.GetCentralityPercentile 1
      else ev.GetMultiplicityPercentile 1) = p1
    obtain ⟨a1, a2, a3, a4, a5, a6⟩ := cutStage_frame
      (decide (|p1 - p0| > k.fMaxDeltaEstimators) || decide (p0 < k.fMinCentrality) ||
        decide (p0 > k.fMaxCentrality))
      CutStatBin.kMultiplicity
      (s.1, { s.2 with
        fCentPercentiles := Function.update (Function.update s.2.fCentPercentiles 0 p0) 1 p1
        fCentrality := Function.update s.2.fCentrality 0 (s.2.fCentrality 0 ++ [p0])
        fEstimCorrelation :=
          Function.update s.2.fEstimCorrelation 0 (s.2.fEstimCorrelation 0 ++ [(p0, p1)]) })
      (by decide)
    rw [a1, a2, a3, a4, a5, a6]
    refine ⟨rfl, rfl, rfl, ?_, ?_, ?_, ?_, rfl⟩
    · simp [Function.update]
    · simp [Function.update]
    · simp [Function.update]
    · simp [Function.update]

theorem monitoringLoop_eq (ev : NuclexEvent) (pass : Bool) (q : NuclexQA) :
    monitoringLoop ev pass q =
      if pass then
        (true, fillCutStats (fillMonitoring ev 1 (fillMonitoring ev 0 q)) CutStatBin.kAllCuts)
      else (false, fillMonitoring ev 0 q) := by
  cases pass <;> simp [monitoringLoop, monitoringStep, List.range, List.range.loop]

theorem fillMonitoring_frame (ev : NuclexEvent) (b : ℕ) (q : NuclexQA) :
    (∀ i, ((fillMonitoring ev b q).fVtz i).length =
      (q.fVtz i).length + (if i = b then 1 else 0)) ∧
    (∀ i, ((fillMonitoring ev b q).fDeltaTrackSPDvtz i).length =
      (q.fDeltaTrackSPDvtz i).length + (if i = b then 1 else 0)) ∧
    (∀ i, ((fillMonitoring ev b q).fCentrality i).length =
      (q.fCentrality i).length + (if i = b then 1 else 0)) ∧
    (∀ i, ((fillMonitoring ev b q).fEstimCorrelation i).length =
      (q.fEstimCorrelation i).length + (if i = b then 1 else 0)) ∧
    (∀ i, ((fillMonitoring ev b q).fMultCentCorrelation i).length =
      (q.fMultCentCorrelation i).length + (if i = b then 1 else 0)) ∧
    (fillMonitoring ev b q).fCutStats = q.fCutStats := by
  unfold fillMonitoring
  refine ⟨fun i => ?_, fun i => ?_, fun i => ?_, fun i => ?_, fun i => ?_, rfl⟩ <;>
    by_cases h : i = b <;> simp [Function.update, h]

theorem AcceptEvent_counts (m : TMath) (k : NuclexCuts) (ev : NuclexEvent) (q : NuclexQA) :
    (((AcceptEvent m k ev q).2.fVtz 0).length = (q.fVtz 0).length + 1 ∧
      ((AcceptEvent m k ev q).2.fDeltaTrackSPDvtz 0).length =
        (q.fDeltaTrackSPDvtz 0).length + 1 ∧
      ((AcceptEvent m k ev q).2.fMultCentCorrelation 0).length =
        (q.fMultCentCorrelation 0).length + 1 ∧
      ((AcceptEvent m k ev q).2.fCentrality 0).length =
        (q.fCentrality 0).length + (if k.fCentralityFramework = 0 then 1 else 2) ∧
      ((AcceptEvent m k ev q).2.fEstimCorrelation 0).length =
        (q.fEstimCorrelation 0).length + (if k.fCentralityFramework = 0 then 1 else 2)) ∧
    (((AcceptEvent m k ev q).2.fVtz 1).length =
        (q.fVtz 1).length + (if (AcceptEvent m k ev q).1 then 1 else 0) ∧
      ((AcceptEvent m k ev q).2.fDeltaTrackSPDvtz 1).length =
        (q.fDeltaTrackSPDvtz 1).length + (if (AcceptEvent m k ev q).1 then 1 else 0) ∧
      ((AcceptEvent m k ev q).2.fMultCentCorrelation 1).length =
        (q.fMultCentCorrelation 1).length + (if (AcceptEvent m k ev q).1 then 1 else 0) ∧
      ((AcceptEvent m k ev q).2.fCentrality 1).length =
        (q.fCentrality 1).length + (if (AcceptEvent m k ev q).1 then 1 else 0) ∧
      ((AcceptEvent m k ev q).2.fEstimCorrelation 1).length =
        (q.fEstimCorrelation 1).length + (if (AcceptEvent m k ev q).1 then 1 else 0)) ∧
    (AcceptEvent m k ev q).2.fCutStats.count CutStatBin.kAllCuts =
      q.fCutStats.count CutStatBin.kAllCuts + (if (AcceptEvent m k ev q).1 then 1 else 0) := by
  obtain ⟨a1, a2, a3, a4, a5, a6⟩ := cutsBeforeCentrality_frame m k ev q
  obtain ⟨b1, b2, b3, b4, b5, b6, b7, b8⟩ :=
    centralityStage_frame k ev (cutsBeforeCentrality m k ev q)
  rw [a3] at b4 b6
  rw [a4] at b5 b7
  rw [a1] at b1
  rw [a2] at b2
  rw [a5] at b3
  rw [a6] at b8
  unfold AcceptEvent
  dsimp only
  rw [monitoringLoop_eq]
  generalize centralityStage k ev (cutsBeforeCentrality m k ev q) = s6 at *
  obtain ⟨c1, c2, c3, c4, c5, c6⟩ := fillMonitoring_frame ev 0 s6.2
  obtain ⟨d1, d2, d3, d4, d5, d6⟩ := fillMonitoring_frame ev 1 (fillMonitoring ev 0 s6.2)
  by_cases hp : s6.1 = true
  · rw [if_pos hp]
    simp only [fillCutStats, d1, d2, d3, d4, d5, d6, c1, c2, c3, c4, c5, c6, b1, b2, b3, b4,
      b5, b6, b7, b8, List.count_append]
    by_cases hf : k.fCentralityFramework = 0 <;> simp [hf]
  · rw [if_neg hp]
    simp only [c1, c2, c3, c4, c5, c6, b1, b2, b3, b4, b5, b6, b7, b8]
    by_cases hf : k.fCentralityFramework = 0 <;> simp [hf]

theorem AcceptEvent_sample :
    (AcceptEvent polyTMath openNuclexCuts sampleNuclexEvent emptyNuclexQA).1 = true := by
  simp [AcceptEvent, monitoringLoop_eq, centralityStage, cutsBeforeCentrality, cutStage,
    vertexRejected, openNuclexCuts, sampleNuclexEvent, polyTMath]
  norm_num [abs_lt, lt_abs, abs_le, le_abs]

/-- C26, evaluation at the failing input. The event `sampleNuclexEvent`,
handed to `AcceptEvent` with the cuts `openNuclexCuts` (centrality framework
1) and freshly booked, empty QA histograms, passes all cuts: the raw
histograms of the vertex z, of the vertex difference and of the
multiplicity-centrality correlation receive one entry each, but the raw
histograms of the centrality and of the estimator correlation receive two;
every selected histogram receives one entry and the last bin of the cut
statistics is incremented once. -/
theorem C26_raw_centrality_filled_twice :
    (AcceptEvent polyTMath openNuclexCuts sampleNuclexEvent emptyNuclexQA).1 = true ∧
    ((AcceptEvent polyTMath openNuclexCuts sampleNuclexEvent emptyNuclexQA).2.fVtz 0).length
      = 1 ∧
    ((AcceptEvent polyTMath openNuclexCuts sampleNuclexEvent
      emptyNuclexQA).2.fDeltaTrackSPDvtz 0).length = 1 ∧
    ((AcceptEvent polyTMath openNuclexCuts sampleNuclexEvent
      emptyNuclexQA).2.fMultCentCorrelation 0).length = 1 ∧
    ((AcceptEvent polyTMath openNuclexCuts sampleNuclexEvent
      emptyNuclexQA).2.fCentrality 0).length = 2 ∧
    ((AcceptEvent polyTMath openNuclexCuts sampleNuclexEvent
      emptyNuclexQA).2.fEstimCorrelation 0).length = 2 ∧
    ((AcceptEvent polyTMath openNuclexCuts sampleNuclexEvent emptyNuclexQA).2.fVtz 1).length
      = 1 ∧
    ((AcceptEvent polyTMath openNuclexCuts sampleNuclexEvent
      emptyNuclexQA).2.fCentrality 1).length = 1 ∧
    ((AcceptEvent polyTMath openNuclexCuts sampleNuclexEvent
      emptyNuclexQA).2.fEstimCorrelation 1).length = 1 ∧
    (AcceptEvent polyTMath openNuclexCuts sampleNuclexEvent
      emptyNuclexQA).2.fCutStats.count CutStatBin.kAllCuts = 1 := by
  obtain ⟨⟨a1, a2, a3, a4, a5⟩, ⟨b1, _, _, b4, b5⟩, c⟩ :=
    AcceptEvent_counts polyTMath openNuclexCuts sampleNuclexEvent emptyNuclexQA
  rw [AcceptEvent_sample] at b1 b4 b5 c
  exact ⟨AcceptEvent_sample, a1, a2, a3, a4, a5, b1, b4, b5, c⟩

/-! ## The index list for sibling tagging -/

theorem sibTagKeys_some (m : TMath) (k : SibCuts) (tracks : List ESDTrack) (v0 : SibTagV0)
    (kp kn : ℕ) (h : sibTagKeys m k tracks v0 = some (kp, kn)) :
    kp < tracks.length ∧ kn < tracks.length ∧ kp ≠ kn := by
  unfold sibTagKeys at h
  dsimp only at h
  split_ifs at h
  split at h
  · rename_i pTrack nTrack hp hn
    split_ifs at h with hsign
    simp only [Option.some.injEq, Prod.mk.injEq] at h
    obtain ⟨rfl, rfl⟩ := h
    refine ⟨(List.getElem?_eq_some.1 hp).1, (List.getElem?_eq_some.1 hn).1, ?_⟩
    intro e
    rw [e, hn] at hp
    simp only [Option.some.injEq] at hp
    exact hsign (by rw [hp])
  · cases h

theorem foldl_pair_flags (arr : ℕ → ℕ) (a b : ℕ) (l : List ℕ) :
    ∀ f0 : Bool × Bool,
      ((l.foldl (fun f t => (if a = arr t then true else f.1,
          if b = arr t then true else f.2)) f0).1 = true ↔
        f0.1 = true ∨ ∃ t ∈ l, a = arr t) ∧
      ((l.foldl (fun f t => (if a = arr t then true else f.1,
          if b = arr t then true else f.2)) f0).2 = true ↔
        f0.2 = true ∨ ∃ t ∈ l, b = arr t) := by
  induction l with
  | nil => intro f0; simp
  | cons x l ih =>
    intro f0
    rw [List.foldl_cons]
    obtain ⟨h1, h2⟩ := ih (if a = arr x then true else f0.1, if b = arr x then true else f0.2)
    rw [h1, h2]
    constructor
    · by_cases e : a = arr x <;> simp [e]
    · by_cases e : b = arr x <;> simp [e]

theorem foldl_triple_flags (arr : ℕ → ℕ) (a b c : ℕ) (l : List ℕ) :
    ∀ f0 : Bool × Bool × Bool,
      ((l.foldl (fun f t => (if a = arr t then true else f.1,
          if b = arr t then true else f.2.1, if c = arr t then true else f.2.2)) f0).1 = true ↔
        f0.1 = true ∨ ∃ t ∈ l, a = arr t) ∧
      ((l.foldl (fun f t => (if a = arr t then true else f.1,
          if b = arr t then true else f.2.1, if c = arr t then true else f.2.2)) f0).2.1
            = true ↔
        f0.2.1 = true ∨ ∃ t ∈ l, b = arr t) ∧
      ((l.foldl (fun f t => (if a = arr t then true else f.1,
          if b = arr t then true else f.2.1, if c = arr t then true else f.2.2)) f0).2.2
            = true ↔
        f0.2.2 = true ∨ ∃ t ∈ l, c = arr t) := by
  induction l with
  | nil => intro f0; simp
  | cons x l ih =>
    intro f0
    rw [List.foldl_cons]
    obtain ⟨h1, h2, h3⟩ := ih (if a = arr x then true else f0.1,
      if b = arr x then true else f0.2.1, if c = arr x then true else f0.2.2)
    rw [h1, h2, h3]
    refine ⟨?_, ?_, ?_⟩
    · by_cases e : a = arr x <;> simp [e]
    · by_cases e : b = arr x <;> simp [e]
    · by_cases e : c = arr x <;> simp [e]

theorem sibTagPush_inv (N : ℕ) (s : SibTagState) (key : ℕ) (h : SibTagInv N s)
    (hkey : key < N) (hnew : ∀ t, t < s.ntr → s.IdxForSibTagging t ≠ key) :
    SibTagInv N
      { IdxForSibTagging := Function.update s.IdxForSibTagging s.ntr key
        ntr := s.ntr + 1
        written := s.written ++ [s.ntr] } := by
  obtain ⟨h1, h2, h3⟩ := h
  refine ⟨?_, ?_, ?_⟩
  · intro t ht
    show Function.update s.IdxForSibTagging s.ntr key t < N
    by_cases e : t = s.ntr
    · rw [e, Function.update_same]
      exact hkey
    · rw [Function.update_noteq e]
      exact h1 t (by change t < s.ntr + 1 at ht; omega)
  · intro t1 ht1 t2 ht2
    show Function.update s.IdxForSibTagging s.ntr key t1 =
      Function.update s.IdxForSibTagging s.ntr key t2 → t1 = t2
    change t1 < s.ntr + 1 at ht1
    change t2 < s.ntr + 1 at ht2
    by_cases e1 : t1 = s.ntr <;> by_cases e2 : t2 = s.ntr
    · intro _
      rw [e1, e2]
    · rw [e1, Function.update_same, Function.update_noteq e2]
      intro e
      exact absurd e.symm (hnew t2 (by omega))
    · rw [e2, Function.update_same, Function.update_noteq e1]
      intro e
      exact absurd e (hnew t1 (by omega))
    · rw [Function.update_noteq e1, Function.update_noteq e2]
      exact h2 t1 (by omega) t2 (by omega)
  · intro w hw
    show w < s.ntr + 1
    change w ∈ s.written ++ [s.ntr] at hw
    rcases List.mem_append.1 hw with hw | hw
    · have := h3 w hw
      omega
    · rw [List.mem_singleton.1 hw]
      omega

theorem sibTagInsert_inv (N : ℕ) (s : SibTagState) (kp kn : ℕ) (h : SibTagInv N s)
    (hp : kp < N) (hn : kn < N) (hne : kp ≠ kn) : SibTagInv N (sibTagInsert s kp kn) := by
  obtain ⟨f1, f2⟩ := foldl_pair_flags s.IdxForSibTagging kp kn (List.range s.ntr) (false, false)
  unfold sibTagInsert
  dsimp only
  generalize (List.range s.ntr).foldl
    (fun f t => (if kp = s.IdxForSibTagging t then true else f.1,
      if kn = s.IdxForSibTagging t then true else f.2)) (false, false) = flags at f1 f2
  have np : flags.1 = false → ∀ t, t < s.ntr → s.IdxForSibTagging t ≠ kp := by
    intro hf t ht e
    have : flags.1 = true := f1.2 (Or.inr ⟨t, List.mem_range.2 ht, e.symm⟩)
    rw [hf] at this
    cases this
  have nn : flags.2 = false → ∀ t, t < s.ntr → s.IdxForSibTagging t ≠ kn := by
    intro hf t ht e
    have : flags.2 = true := f2.2 (Or.inr ⟨t, List.mem_range.2 ht, e.symm⟩)
    rw [hf] at this
    cases this
  by_cases hf1 : flags.1 = false <;> by_cases hf2 : flags.2 = false
  · rw [if_pos hf1, if_pos hf2]
    refine sibTagPush_inv N _ kn (sibTagPush_inv N s kp h hp (np hf1)) hn ?_
    intro t ht
    show Function.update s.IdxForSibTagging s.ntr kp t ≠ kn
    change t < s.ntr + 1 at ht
    by_cases e : t = s.ntr
    · rw [e, Function.update_same]
      exact hne
    · rw [Function.update_noteq e]
      exact nn hf2 t (by omega)
  · rw [if_pos hf1, if_neg hf2]
    exact sibTagPush_inv N s kp h hp (np hf1)
  · rw [if_neg hf1, if_pos hf2]
    exact sibTagPush_inv N s kn h hn (nn hf2)
  · rw [if_neg hf1, if_neg hf2]
    exact h

theorem sibTagStep_inv (m : TMath) (k : SibCuts) (tracks : List ESDTrack) (s : SibTagState)
    (v0 : SibTagV0) (h : SibTagInv tracks.length s) :
    SibTagInv tracks.length (sibTagStep m k tracks s v0) := by
  unfold sibTagStep
  cases hk : sibTagKeys m k tracks v0 with
  | none => exact h
  | some keys =>
    obtain ⟨kp, kn⟩ := keys
    obtain ⟨a, b, c⟩ := sibTagKeys_some m k tracks v0 kp kn hk
    exact sibTagInsert_inv _ s kp kn h a b c

theorem sibTagLoop_inv (m : TMath) (k : SibCuts) (tracks : List ESDTrack)
    (v0s : List SibTagV0) : SibTagInv tracks.length (sibTagLoop m k tracks v0s) := by
  unfold sibTagLoop
  have : ∀ s, SibTagInv tracks.length s →
      SibTagInv tracks.length (v0s.foldl (sibTagStep m k tracks) s) := by
    induction v0s with
    | nil => intro s hs; exact hs
    | cons v l ih =>
      intro s hs
      rw [List.foldl_cons]
      exact ih _ (sibTagStep_inv m k tracks s v hs)
  apply this
  refine ⟨?_, ?_, ?_⟩
  · intro t ht
    exact absurd ht (Nat.not_lt_zero t)
  · intro t1 ht1
    exact absurd ht1 (Nat.not_lt_zero t1)
  · intro w hw
    cases hw

theorem SibTagInv_ntr_le (N : ℕ) (s : SibTagState) (h : SibTagInv N s) : s.ntr ≤ N := by
  have := Finset.card_le_card_of_injOn (s := Finset.range s.ntr) (t := Finset.range N)
    s.IdxForSibTagging
    (fun a ha => Finset.mem_range.2 (h.1 a (Finset.mem_range.1 ha)))
    (fun a ha b hb e => h.2.1 a (Finset.mem_range.1 (Finset.mem_coe.1 ha)) b
      (Finset.mem_range.1 (Finset.mem_coe.1 hb)) e)
  simpa using this

/-- C27. After the loop "Run on V0's to look for Siblings" has processed any
list of V0s of an event, the first `ntr` entries of `IdxForSibTagging` are
pairwise distinct indices of tracks of the event, `ntr` does not exceed the
number of tracks, every slot of the array that was written lies below the
number of tracks, and in the cascade loop each of the three tags (bachelor,
negative, positive) is set exactly when the daughter's track index is one of
the first `ntr` entries. -/
theorem C27_sibling_index_list (m : TMath) (k : SibCuts) (tracks : List ESDTrack)
    (v0s : List SibTagV0) :
    (∀ t1, t1 < (sibTagLoop m k tracks v0s).ntr →
      ∀ t2, t2 < (sibTagLoop m k tracks v0s).ntr →
        (sibTagLoop m k tracks v0s).IdxForSibTagging t1 =
          (sibTagLoop m k tracks v0s).IdxForSibTagging t2 → t1 = t2) ∧
    (∀ t, t < (sibTagLoop m k tracks v0s).ntr →
      (sibTagLoop m k tracks v0s).IdxForSibTagging t < tracks.length) ∧
    (sibTagLoop m k tracks v0s).ntr ≤ tracks.length ∧
    (∀ w, w ∈ (sibTagLoop m k tracks v0s).written → w < tracks.length) ∧
    (∀ lBachIdx lIdxNegXi lIdxPosXi : ℕ,
      ((cascadeV0Tags (sibTagLoop m k tracks v0s) lBachIdx lIdxNegXi lIdxPosXi).1 = true ↔
        ∃ t, t < (sibTagLoop m k tracks v0s).ntr ∧
          (sibTagLoop m k tracks v0s).IdxForSibTagging t = lBachIdx) ∧
      ((cascadeV0Tags (sibTagLoop m k tracks v0s) lBachIdx lIdxNegXi lIdxPosXi).2.1 = true ↔
        ∃ t, t < (sibTagLoop m k tracks v0s).ntr ∧
          (sibTagLoop m k tracks v0s).IdxForSibTagging t = lIdxNegXi) ∧
      ((cascadeV0Tags (sibTagLoop m k tracks v0s) lBachIdx lIdxNegXi lIdxPosXi).2.2 = true ↔
        ∃ t, t < (sibTagLoop m k tracks v0s).ntr ∧
          (sibTagLoop m k tracks v0s).IdxForSibTagging t = lIdxPosXi)) := by
  have hinv := sibTagLoop_inv m k tracks v0s
  have hle := SibTagInv_ntr_le _ _ hinv
  generalize sibTagLoop m k tracks v0s = s at hinv hle
  refine ⟨hinv.2.1, hinv.1, hle, fun w hw => lt_of_lt_of_le (hinv.2.2 w hw) hle, ?_⟩
  intro a b c
  obtain ⟨h1, h2, h3⟩ := foldl_triple_flags s.IdxForSibTagging a b c (List.range s.ntr)
    (false, false, false)
  unfold cascadeV0Tags
  rw [h1, h2, h3]
  refine ⟨?_, ?_, ?_⟩ <;>
  · constructor
    · rintro (h | ⟨t, ht, e⟩)
      · cases h
      · exact ⟨t, List.mem_range.1 ht, e.symm⟩
    · rintro ⟨t, ht, e⟩
      exact Or.inr ⟨t, List.mem_range.2 ht, e.symm⟩

/-- A concrete instance of C27: for an event of the four tracks
`sampleTracks` and three V0s over them, `ntr` does not exceed 4. -/
theorem C27_sibling_index_list_witness :
    (sibTagLoop polyTMath sibCutsInit sampleTracks
      [sampleSibTagV0 0 1, sampleSibTagV0 0 3, sampleSibTagV0 2 1]).ntr ≤ 4 :=
  (C27_sibling_index_list polyTMath sibCutsInit sampleTracks
    [sampleSibTagV0 0 1, sampleSibTagV0 0 3, sampleSibTagV0 2 1]).2.2.1

theorem sibTagKeys_sample (p n : ℤ) (hp : sampleTracks[p.natAbs]? = some (sampleTrack 1))
    (hn : sampleTracks[n.natAbs]? = some (sampleTrack (-1))) :
    sibTagKeys polyTMath sibCutsInit sampleTracks (sampleSibTagV0 p n) =
      some (p.natAbs, n.natAbs) := by
  have hq : sibTagQuality polyTMath sibCutsInit (sampleSibTagV0 p n) (sampleTrack 1)
      (sampleTrack (-1)) = true := by
    simp [sibTagQuality, polyTMath, sibCutsInit, sampleSibTagV0, sampleTrack]
    norm_num [abs_lt, lt_abs, abs_le, le_abs]
  have e1 : (sampleSibTagV0 p n).GetPindex = p := rfl
  have e2 : (sampleSibTagV0 p n).GetNindex = n := rfl
  unfold sibTagKeys
  rw [if_neg (by simp [sampleSibTagV0]), if_neg (by simp [sampleSibTagV0]),
    if_neg (by simp [sampleSibTagV0]), if_neg (by simp [sampleSibTagV0])]
  simp only [e1, e2, hp, hn]
  rw [if_neg (by decide), if_pos hq]

theorem sibTagLoop_sample :
    (sibTagLoop polyTMath sibCutsInit sampleTracks
      [sampleSibTagV0 0 1, sampleSibTagV0 0 3, sampleSibTagV0 2 1]).ntr = 4 ∧
    (List.range 4).map (sibTagLoop polyTMath sibCutsInit sampleTracks
      [sampleSibTagV0 0 1, sampleSibTagV0 0 3, sampleSibTagV0 2 1]).IdxForSibTagging =
        [0, 1, 3, 2] := by
  have k1 := sibTagKeys_sample 0 1 rfl rfl
  have k2 := sibTagKeys_sample 0 3 rfl rfl
  have k3 := sibTagKeys_sample 2 1 rfl rfl
  simp only [sibTagLoop, List.foldl, sibTagStep, k1, k2, k3]
  constructor <;> decide

/-! ## The charge given to the cascade trajectory -/

theorem cascadeChargeLoop_skip (dca : TrajectoryDCA) (l : List CascadeESD) :
    ∀ s, (∀ x, x ∈ l → cascadeReachesDCA x = false) → cascadeChargeLoop dca s l = s := by
  induction l with
  | nil => intro s _; rfl
  | cons x l ih =>
    intro s h
    show cascadeChargeLoop dca (cascadeChargeStep dca s x) l = s
    have hx : cascadeChargeStep dca s x = s := by
      unfold cascadeChargeStep
      rw [h x (List.mem_cons_self x l)]
      rfl
    rw [hx]
    exact ih s (fun y hy => h y (List.mem_cons_of_mem x hy))

theorem cascadeChargeLoop_last (dca : TrajectoryDCA) (s : CascadeChargeState)
    (a b : List CascadeESD) (y : CascadeESD) (hy : cascadeReachesDCA y = true)
    (hb : ∀ x, x ∈ b → cascadeReachesDCA x = false) :
    (cascadeChargeLoop dca s (a ++ y :: b)).fTreeCascVarCharge = y.lChargeXi := by
  unfold cascadeChargeLoop
  rw [List.foldl_append, List.foldl_cons]
  have := cascadeChargeLoop_skip dca b
    (cascadeChargeStep dca (List.foldl (cascadeChargeStep dca) s a) y) hb
  unfold cascadeChargeLoop at this
  rw [this]
  unfold cascadeChargeStep
  rw [if_pos hy]

/-- C28. For a cascade entry that reaches the block "Calculate Cascade DCA to
PV", the charge given to the cascade trajectory is the value of the member
`fTreeCascVarCharge` at that moment: the reconstructed charge of the most
recent earlier entry that reached the block (in this or an earlier event), or
the initial value of the member if no earlier entry reached it.  The DCA
values stored for the entry are those of the trajectory with that charge and
do not change when the entry's own reconstructed charge is changed. -/
theorem C28_trajectory_charge_is_stale (dca : TrajectoryDCA) (s : CascadeChargeState)
    (xi : CascadeESD) (hxi : cascadeReachesDCA xi = true) :
    (∀ (a b : List CascadeESD) (y : CascadeESD), cascadeReachesDCA y = true →
      (∀ x, x ∈ b → cascadeReachesDCA x = false) →
      lChargeCascade (cascadeChargeLoop dca s (a ++ y :: b)) xi = some y.lChargeXi ∧
      (cascadeChargeLoop dca s (a ++ y :: b ++ [xi])).fTreeCascVarCascDCAtoPVxy =
        |dca.GetD xi.xyzCascade xi.pxpypzCascade y.lChargeXi xi.lBestPrimaryVtxPos
          xi.lMagneticField| ∧
      (cascadeChargeLoop dca s (a ++ y :: b ++ [xi])).fTreeCascVarCascDCAtoPVz =
        dca.GetDZ1 xi.xyzCascade xi.pxpypzCascade y.lChargeXi xi.lBestPrimaryVtxPos
          xi.lMagneticField) ∧
    (∀ b : List CascadeESD, (∀ x, x ∈ b → cascadeReachesDCA x = false) →
      lChargeCascade (cascadeChargeLoop dca s b) xi = some s.fTreeCascVarCharge ∧
      (cascadeChargeLoop dca s (b ++ [xi])).fTreeCascVarCascDCAtoPVxy =
        |dca.GetD xi.xyzCascade xi.pxpypzCascade s.fTreeCascVarCharge xi.lBestPrimaryVtxPos
          xi.lMagneticField|) ∧
    (∀ (before : List CascadeESD) (q : ℤ),
      (cascadeChargeLoop dca s (before ++ [{ xi with lChargeXi := q }])).fTreeCascVarCascDCAtoPVxy
        = (cascadeChargeLoop dca s (before ++ [xi])).fTreeCascVarCascDCAtoPVxy ∧
      (cascadeChargeLoop dca s (before ++ [{ xi with lChargeXi := q }])).fTreeCascVarCascDCAtoPVz
        = (cascadeChargeLoop dca s (before ++ [xi])).fTreeCascVarCascDCAtoPVz) := by
  have hstep : ∀ s' : CascadeChargeState,
      cascadeChargeStep dca s' xi =
        { fTreeCascVarCascDCAtoPVxy :=
            |dca.GetD xi.xyzCascade xi.pxpypzCascade s'.fTreeCascVarCharge
              xi.lBestPrimaryVtxPos xi.lMagneticField|
          fTreeCascVarCascDCAtoPVz :=
            dca.GetDZ1 xi.xyzCascade xi.pxpypzCascade s'.fTreeCascVarCharge
              xi.lBestPrimaryVtxPos xi.lMagneticField
          fTreeCascVarCharge := xi.lChargeXi } := by
    intro s'
    unfold cascadeChargeStep
    rw [if_pos hxi]
  have happ : ∀ l : List CascadeESD,
      cascadeChargeLoop dca s (l ++ [xi]) =
        cascadeChargeStep dca (cascadeChargeLoop dca s l) xi := by
    intro l
    unfold cascadeChargeLoop
    rw [List.foldl_append]
    rfl
  refine ⟨?_, ?_, ?_⟩
  · intro a b y hy hb
    have hc := cascadeChargeLoop_last dca s a b y hy hb
    refine ⟨?_, ?_, ?_⟩
    · unfold lChargeCascade
      rw [if_pos hxi, hc]
    · rw [show a ++ y :: b ++ [xi] = (a ++ y :: b) ++ [xi] by simp, happ, hstep, hc]
    · rw [show a ++ y :: b ++ [xi] = (a ++ y :: b) ++ [xi] by simp, happ, hstep, hc]
  · intro b hb
    rw [happ, hstep, cascadeChargeLoop_skip dca b s hb]
    refine ⟨?_, rfl⟩
    unfold lChargeCascade
    rw [if_pos hxi]
  · intro before q
    have hq : cascadeReachesDCA { xi with lChargeXi := q } = true := hxi
    have e : cascadeChargeLoop dca s (before ++ [{ xi with lChargeXi := q }]) =
        cascadeChargeStep dca (cascadeChargeLoop dca s before) { xi with lChargeXi := q } := by
      unfold cascadeChargeLoop
      rw [List.foldl_append]
      rfl
    rw [e, happ, hstep]
    unfold cascadeChargeStep
    rw [if_pos hq]
    exact ⟨rfl, rfl⟩

/-- A concrete instance of C28: a cascade entry of charge -1 processed first
gets the initial charge 0 of the member, and processed after an entry of
charge 1 gets the charge 1; with a trajectory whose distance is its charge
the stored DCA is 0 in the first case and 1 in the second. -/
theorem C28_trajectory_charge_is_stale_witness :
    lChargeCascade (cascadeChargeLoop chargeTrajectoryDCA cascadeChargeInit [])
      (sampleCascadeESD (-1)) = some 0 ∧
    lChargeCascade
      (cascadeChargeLoop chargeTrajectoryDCA cascadeChargeInit ([] ++ sampleCascadeESD 1 :: []))
      (sampleCascadeESD (-1)) = some 1 ∧
    (cascadeChargeLoop chargeTrajectoryDCA cascadeChargeInit
      ([] ++ [sampleCascadeESD (-1)])).fTreeCascVarCascDCAtoPVxy = 0 ∧
    (cascadeChargeLoop chargeTrajectoryDCA cascadeChargeInit
      ([] ++ sampleCascadeESD 1 :: [] ++ [sampleCascadeESD (-1)])).fTreeCascVarCascDCAtoPVxy
        = 1 := by
  have hr : ∀ c : ℤ, cascadeReachesDCA (sampleCascadeESD c) = true := by
    intro c
    simp [cascadeReachesDCA, sampleCascadeESD]
  have h := C28_trajectory_charge_is_stale chargeTrajectoryDCA cascadeChargeInit
    (sampleCascadeESD (-1)) (hr (-1))
  have h1 := h.1 [] [] (sampleCascadeESD 1) (hr 1) (fun x hx => by cases hx)
  have h2 := h.2.1 [] (fun x hx => by cases hx)
  refine ⟨h2.1, h1.1, ?_, ?_⟩
  · rw [h2.2]
    show |((0 : ℤ) : ℚ)| = 0
    norm_num
  · rw [h1.2.1]
    show |((1 : ℤ) : ℚ)| = 1
    norm_num

/-! ## AliSigma0ParticleBase -/

/-- C29. For distinct objects `a` and `b`, after `a = b` the momentum, the MC
momentum, the PDG code, mass, Q, pT, phi, eta and the use flag of `a` are
those of `b`, the track label of `a` is `-label(b) - 1`, and the mother PDG
code, MC label, charge, DCA values and phi* array of `a` are what they were;
`b` and every other object are unchanged.  Self-assignment changes nothing.
Assigning through an intermediate object (`b = a`, then `c = b`, with `b`
distinct from `a` and `c`) gives `c` the original track label of `a`. -/
theorem C29_assignment_is_not_a_copy (heap : ℕ → AliSigma0ParticleBase) (a b : ℕ)
    (hab : a ≠ b) :
    ((sigma0Assign heap a b a).fP0 = (heap b).fP0 ∧
      (sigma0Assign heap a b a).fP1 = (heap b).fP1 ∧
      (sigma0Assign heap a b a).fP2 = (heap b).fP2 ∧
      (sigma0Assign heap a b a).fPMC0 = (heap b).fPMC0 ∧
      (sigma0Assign heap a b a).fPMC1 = (heap b).fPMC1 ∧
      (sigma0Assign heap a b a).fPMC2 = (heap b).fPMC2 ∧
      (sigma0Assign heap a b a).fPDGCode = (heap b).fPDGCode ∧
      (sigma0Assign heap a b a).fMass = (heap b).fMass ∧
      (sigma0Assign heap a b a).fQ = (heap b).fQ ∧
      (sigma0Assign heap a b a).fPt = (heap b).fPt ∧
      (sigma0Assign heap a b a).fPhi = (heap b).fPhi ∧
      (sigma0Assign heap a b a).fEta = (heap b).fEta ∧
      (sigma0Assign heap a b a).fUse = (heap b).fUse) ∧
    (sigma0Assign heap a b a).fTrackLabel = -(heap b).fTrackLabel - 1 ∧
    ((sigma0Assign heap a b a).fPDGCodeMother = (heap a).fPDGCodeMother ∧
      (sigma0Assign heap a b a).fMClabel = (heap a).fMClabel ∧
      (sigma0Assign heap a b a).fCharge = (heap a).fCharge ∧
      (sigma0Assign heap a b a).fDCAz = (heap a).fDCAz ∧
      (sigma0Assign heap a b a).fDCAr = (heap a).fDCAr ∧
      (sigma0Assign heap a b a).fPhistar = (heap a).fPhistar) ∧
    (∀ c, c ≠ a → sigma0Assign heap a b c = heap c) ∧
    sigma0Assign heap a a = heap ∧
    (∀ c, c ≠ b →
      (sigma0Assign (sigma0Assign heap b a) c b c).fTrackLabel = (heap a).fTrackLabel) := by
  have e : sigma0Assign heap a b a = assignFields (heap a) (heap b) := by
    unfold sigma0Assign
    rw [if_neg hab, Function.update_same]
  refine ⟨?_, ?_, ?_, ?_, ?_, ?_⟩
  · rw [e]
    exact ⟨rfl, rfl, rfl, rfl, rfl, rfl, rfl, rfl, rfl, rfl, rfl, rfl, rfl⟩
  · rw [e]
    rfl
  · rw [e]
    exact ⟨rfl, rfl, rfl, rfl, rfl, rfl⟩
  · intro c hc
    unfold sigma0Assign
    rw [if_neg hab, Function.update_noteq hc]
  · unfold sigma0Assign
    rw [if_pos rfl]
  · intro c hc
    have hba : b ≠ a := fun h => hab h.symm
    have e1 : sigma0Assign heap b a b = assignFields (heap b) (heap a) := by
      unfold sigma0Assign
      rw [if_neg hba, Function.update_same]
    have e2 : sigma0Assign (sigma0Assign heap b a) c b c =
        assignFields (sigma0Assign heap b a c) (sigma0Assign heap b a b) := by
      unfold sigma0Assign
      rw [if_neg hc, if_neg hba, Function.update_same]
    rw [e2, e1]
    show -(-(heap a).fTrackLabel - 1) - 1 = (heap a).fTrackLabel
    ring

/-- A concrete instance of C29 on `sampleSigma0Heap`: after assigning the
object 0 (track label 5, mother code 3212) to the object 1, the object 1 has
the track label -6 and keeps its mother code 0. -/
theorem C29_assignment_is_not_a_copy_witness :
    (sigma0Assign sampleSigma0Heap 1 0 1).fTrackLabel = -(sampleSigma0Heap 0).fTrackLabel - 1 ∧
    (sigma0Assign sampleSigma0Heap 1 0 1).fPDGCodeMother = (sampleSigma0Heap 1).fPDGCodeMother ∧
    (sampleSigma0Heap 0).fTrackLabel = 5 ∧ (sampleSigma0Heap 0).fPDGCodeMother = 3212 ∧
    (sampleSigma0Heap 1).fPDGCodeMother = 0 :=
  ⟨(C29_assignment_is_not_a_copy sampleSigma0Heap 1 0 (by decide)).2.1,
    (C29_assignment_is_not_a_copy sampleSigma0Heap 1 0 (by decide)).2.2.1.1,
    rfl, rfl, rfl⟩

/-! ## AddTopologicalQACascade -/

theorem sweepResults_length (steps : ℕ) (mk : ℕ → ℕ → NamedCascadeCuts) :
    (sweepResults steps mk).length = 4 * steps := by
  unfold sweepResults
  simp [List.length_flatMap, List.range_succ]
  ring

theorem topologicalQACascadeResults_length (m : TMath) (ACos : ℚ → ℚ) (d : CascadeCuts)
    (n : ℤ) :
    (topologicalQACascadeResults m ACos d n).length = 192 + 44 * n.toNat := by
  unfold topologicalQACascadeResults
  simp only [List.length_append, sweepResults_length, List.length_map, List.length_range]
  ring

theorem foldl_storeResult (l : List NamedCascadeCuts) :
    ∀ a : CascadeResultArray,
      (l.foldl storeResult a).lN = a.lN + l.length ∧
      (l.foldl storeResult a).stores.map Prod.fst =
        a.stores.map Prod.fst ++ List.range' a.lN l.length ∧
      (l.foldl storeResult a).stores.map Prod.snd = a.stores.map Prod.snd ++ l := by
  induction l with
  | nil => intro a; simp
  | cons c l ih =>
    intro a
    rw [List.foldl_cons]
    obtain ⟨h1, h2, h3⟩ := ih (storeResult a c)
    rw [h1, h2, h3]
    simp [storeResult, List.range'_succ]
    omega

theorem registerTopologicalQACascade_eq (base lN : ℕ) :
    ∀ fListCascade : Option (List ℕ),
      registerTopologicalQACascade fListCascade base lN =
        if lN = 0 then fListCascade
        else some (fListCascade.getD [] ++ (List.range lN).map (fun iconf => base + iconf)) := by
  induction lN with
  | zero => intro f; rfl
  | succ k ih =>
    intro f
    unfold registerTopologicalQACascade at ih ⊢
    rw [List.range_succ, List.foldl_append, ih f]
    by_cases hk : k = 0
    · subst hk
      simp [AddConfigurationCascade]
    · simp [hk, AddConfigurationCascade]

theorem AddTopologicalQACascade_stores (m : TMath) (ACos : ℚ → ℚ) (d : CascadeCuts) (n : ℤ) :
    (AddTopologicalQACascade m ACos d n).lN = 192 + 44 * n.toNat ∧
    (AddTopologicalQACascade m ACos d n).stores.map Prod.fst =
      List.range (192 + 44 * n.toNat) ∧
    (AddTopologicalQACascade m ACos d n).stores.map Prod.snd =
      topologicalQACascadeResults m ACos d n := by
  obtain ⟨h1, h2, h3⟩ := foldl_storeResult (topologicalQACascadeResults m ACos d n)
    { lN := 0, stores := [] }
  unfold AddTopologicalQACascade
  rw [h1, h2, h3, topologicalQACascadeResults_length]
  refine ⟨by simp, ?_, by simp⟩
  simp [List.range_eq_range']

/-- C30. For a number of steps n that is not negative,
`AddTopologicalQACascade(n)` creates 192 + 44 n results: 4 central ones, then
eleven sweeps of 4 n results, a sweep of 4 times 15 and a sweep of 4 times 32
results; the result created k-th is written to slot k of the local array, and
the registration appends the objects of the slots 0 to 191 + 44 n to the list
of cascade configurations in that order.  Every slot written is below 5000
when n is at most 109, and slot 5000 is written when n is 110 or more. -/
theorem C30_topological_qa_cascade_count (m : TMath) (ACos : ℚ → ℚ) (d : CascadeCuts)
    (n : ℤ) (hn : 0 ≤ n) :
    ((AddTopologicalQACascade m ACos d n).lN : ℤ) = 192 + 44 * n ∧
    (topologicalQACascadeResults m ACos d n).length =
      4 + 11 * (4 * n.toNat) + 4 * 15 + 4 * 32 ∧
    (AddTopologicalQACascade m ACos d n).stores.map Prod.fst =
      List.range (AddTopologicalQACascade m ACos d n).lN ∧
    (AddTopologicalQACascade m ACos d n).stores.map Prod.snd =
      topologicalQACascadeResults m ACos d n ∧
    (∀ (fListCascade : Option (List ℕ)) (base : ℕ),
      registerTopologicalQACascade fListCascade base (AddTopologicalQACascade m ACos d n).lN =
        some (fListCascade.getD [] ++
          (List.range (192 + 44 * n.toNat)).map (fun iconf => base + iconf))) ∧
    (n ≤ 109 → ∀ w, w ∈ (AddTopologicalQACascade m ACos d n).stores → w.1 < 5000) ∧
    (110 ≤ n → ∃ w, w ∈ (AddTopologicalQACascade m ACos d n).stores ∧ w.1 = 5000) := by
  obtain ⟨h1, h2, h3⟩ := AddTopologicalQACascade_stores m ACos d n
  have hcast : ((n.toNat : ℕ) : ℤ) = n := Int.toNat_of_nonneg hn
  have hmem : ∀ k : ℕ, (∃ w, w ∈ (AddTopologicalQACascade m ACos d n).stores ∧ w.1 = k) ↔
      k < 192 + 44 * n.toNat := by
    intro k
    rw [← List.mem_range, ← h2, List.mem_map]
  refine ⟨?_, ?_, ?_, h3, ?_, ?_, ?_⟩
  · rw [h1]
    push_cast
    rw [hcast]
  · rw [topologicalQACascadeResults_length]
    ring
  · rw [h2, h1]
  · intro f base
    rw [registerTopologicalQACascade_eq, h1, if_neg (by omega)]
  · intro h109 w hw
    have := (hmem w.1).1 ⟨w, hw, rfl⟩
    omega
  · intro h110
    apply (hmem 5000).2
    omega

/-- A concrete instance of C30: one step gives 236 results. -/
theorem C30_topological_qa_cascade_count_witness :
    ((AddTopologicalQACascade polyTMath (fun x => x) wideCascadeCuts 1).lN : ℤ) = 192 + 44 * 1 :=
  (C30_topological_qa_cascade_count polyTMath (fun x => x) wideCascadeCuts 1 (by decide)).1

end AliStrangeness
